import Mathlib

/-!
XApay hook: the ledger state machine.

Shallow embedding of the entry point `hook` and the handlers of
`src/src/c/xapay_hock.c`, of `src/Hocks/payment.c` (whose handlers have the same
statements) and of `src/src/c/payment.c`, over an explicit ledger state.

* Bytes are `Fin 256`; C buffers are lists cut or zero-padded to their declared size.
* `int64_t` values are integers reduced to the signed 64-bit range by `wrap64`.
* The host API of `hookapi.h` is not part of the repository.  Read-only host
  calls are fields of the structure `Host` (one field per call, returning the
  return code and the content of the output buffer after the call); the store
  and the monetary primitives are modelled from the specification.
* `rollback` and `accept` end the invocation; the model returns the exit together
  with the ledger as written so far, so that "no write before a failing check"
  is a property of the handlers and not of the host.
* The host calls of a handler do not touch the ledger, so their results (the locals
  of the C function) are collected in a record; the body of the handler keeps the
  checks and the store writes in source order.
-/

namespace XApay

/-! ## Bytes, buffers and 64-bit integers -/

abbrev Byte := Fin 256

abbrev Bytes := List Byte

/-- A C buffer of `n` bytes holding `b`: cut to `n` bytes, zero-padded when shorter. -/
def fit (n : Nat) (b : Bytes) : Bytes :=
  (b ++ List.replicate n (0 : Byte)).take n

/-- The hookapi macro `COPY(dst, src, n)`: the first `n` bytes of `src`. -/
def COPY (src : Bytes) (n : Int) : Bytes :=
  src.take n.toNat

/-- The comparison `BUFFER_EQUAL(a, b, n)` as the handlers use it: the first `n`
bytes of the two buffers agree. -/
def BUFFER_EQUAL (a b : Bytes) (n : Nat) : Bool :=
  decide (a.take n = b.take n)

def INT64_MIN : Int := -(2 ^ 63)

def INT64_MAX : Int := 2 ^ 63 - 1

/-- Reduction of an integer to the signed 64-bit range (two's complement). -/
def wrap64 (i : Int) : Int :=
  (i + 2 ^ 63) % 2 ^ 64 - 2 ^ 63

/-- Little-endian bytes of a natural number, `k` of them. -/
def natLE : Nat → Nat → Bytes
  | 0, _ => []
  | k + 1, n => ⟨n % 256, Nat.mod_lt _ (by decide)⟩ :: natLE k (n / 256)

/-- Value of a little-endian byte string. -/
def leNat : Bytes → Nat
  | [] => 0
  | b :: bs => b.val + 256 * leNat bs

/-- The 8 bytes of an `int64_t` in memory (little endian, two's complement). -/
def int64_to_bytes (i : Int) : Bytes :=
  natLE 8 (i % 2 ^ 64).toNat

/-- The `int64_t` held by an 8-byte buffer. -/
def bytes_to_int64 (b : Bytes) : Int :=
  wrap64 (leNat (fit 8 b))

/-- Value of a hexadecimal digit, upper or lower case. -/
def hex_digit (b : Byte) : Option Nat :=
  if 48 ≤ b.val ∧ b.val ≤ 57 then some (b.val - 48)
  else if 65 ≤ b.val ∧ b.val ≤ 70 then some (b.val - 55)
  else if 97 ≤ b.val ∧ b.val ≤ 102 then some (b.val - 87)
  else none

/-- Bytes written as pairs of hexadecimal digits; decoding stops at the first pair
that is not made of two hexadecimal digits. -/
def hex_decode : Bytes → Bytes
  | hi :: lo :: rest =>
    match hex_digit hi, hex_digit lo with
    | some h, some l => Fin.ofNat (16 * h + l) :: hex_decode rest
    | _, _ => []
  | _ => []

/-! ## Configuration and constants of `xapay_hock.c` -/

def ISSUER_ACCID : Bytes :=
  [0x5E, 0x32, 0xD1, 0x83, 0xA4, 0x33, 0x8D, 0x23,
   0x21, 0xC2, 0x62, 0xE2, 0x5A, 0x0B, 0x4B, 0x8A,
   0x9B, 0x85, 0xA3, 0xA2]

def CURRENCY_JPY : Bytes :=
  [0x00, 0x00, 0x00, 0x00, 0x00, 0x00, 0x00, 0x00,
   0x00, 0x00, 0x00, 0x00, 0x4A, 0x50, 0x59, 0x00,
   0x00, 0x00, 0x00, 0x00]

def OPERATOR_ACCID : Bytes :=
  [0xBA, 0x55, 0x2D, 0x18, 0x3A, 0x43, 0x38, 0xD2,
   0x32, 0x1C, 0x26, 0x2E, 0x25, 0xA0, 0xB4, 0xB8,
   0xA9, 0xB8, 0x5A, 0x3A]

def PREFIX_USER_BALANCE : Byte := 0x55

def PREFIX_NONCE : Byte := 0x4E

def PREFIX_ALLOWANCE : Byte := 0x41

def SUCCESS : Int := 0

def ERROR_INVALID_TRANSACTION : Int := 100

def ERROR_INVALID_MEMO : Int := 101

def ERROR_INVALID_JSON : Int := 102

def ERROR_MISSING_FIELD : Int := 103

def ERROR_UNKNOWN_PAYMENT_TYPE : Int := 104

def ERROR_CHARGE_INVALID_CURRENCY : Int := 201

def ERROR_CHARGE_INVALID_ISSUER : Int := 202

def ERROR_ALLOWANCE_INVALID_ADDRESS : Int := 301

def ERROR_ALLOWANCE_VERIFICATION_FAILED : Int := 302

def ERROR_ALLOWANCE_EXCEEDED : Int := 303

def ERROR_INSUFFICIENT_BALANCE : Int := 304

/-- The byte of the character `:` that separates the parts of the signed message. -/
def COLON : Byte := 0x3A

/-! ## The host -/

/-- Serialized-field selectors of `hookapi.h` that the handlers pass to the host. -/
inductive SField
  | sfAmount
  | sfIssuer
  | sfCurrency
  | sfAccount
  | sfRegularKey
  | sfMemos
  | sfMemoData
  deriving DecidableEq, Repr

/-- The read-only host calls of one invocation.  Every field is the host function of
the same name; the arguments are those of the C call (a buffer is passed as its
content, an output buffer as its size), the result is the return code and, for
a call with an output buffer, the content of that buffer after the call.
`stack_after_allowance_key` is the memory that follows the local `allowance_key`
of `handle_recharge_and_update_allowance`, which that handler reads as part of a key.
`slot_subfield_slot` is the call `slot_subfield(slot, field, new_slot)` of `payment.c`,
which has no output buffer.  `sto_subfield_packed` is the call
`sto_subfield(buf, len, field)` of `hook` of `payment.c`, which has no output buffer
either, and `SUB_OFFSET` is the macro of `hookapi.h` that `hook` of `payment.c`
applies to a return value to get an offset into the memo buffer. -/
structure Host where
  otxn_type : Int
  otxn_memo_count : Int
  otxn_memo : Int → Nat → Int × Bytes
  otxn_source_account : Nat → Int × Bytes
  otxn_field : Nat → SField → Int × Bytes
  sto_subfield : Bytes → Int → Nat → SField → Int × Bytes
  sto_amount_to_int64 : Bytes → Int → Int × Int
  sto_amount_text_to_int64 : Bytes → Int → Int
  sto_from_json : Nat → Bytes → Int → String → Int × Bytes
  sto_from_json_nested : Nat → Bytes → Int → String → Int × Bytes
  util_accid : Nat → Bytes → Nat → Int × Bytes
  util_raddr : Nat → Bytes → Nat → Int × Bytes
  util_hex_to_byte : Nat → Bytes → Int → Int × Bytes
  util_keylet : Nat → Bytes → Nat → Int × Bytes
  slot_set : Bytes → Int → Int
  slot_subfield : Int → SField → Bytes → Nat → Int × Bytes
  util_verify : Bytes → Int → Bytes → Int → Bytes → Int → Int
  float_sum_overflow : Int → Int → Int
  stack_after_allowance_key : Bytes
  otxn_slot : Int → Int
  slot_subfield_slot : Int → SField → Int → Int
  slot_float : Int → Int
  otxn_param : Nat → SField → Int × Bytes
  sto_subfield_packed : Bytes → Int → SField → Int
  SUB_OFFSET : Int → Int

/-! ## The ledger store -/

/-- The persistent key-value store of the hook: byte keys to byte values. -/
abbrev Ledger := Bytes → Option Bytes

def DOESNT_EXIST : Int := -5

/-- Modelled from the spec: the store write of the absent `hookapi.h`
(`state_set(value, value_len, key, key_len)`): the entry under `key` becomes `value`,
every other entry is kept. -/
def state_set (st : Ledger) (value key : Bytes) : Ledger :=
  fun k => if k = key then some value else st k

/-- Modelled from the spec: the store read of the absent `hookapi.h`
(`state(buf, buf_len, key, key_len)`): an absent key gives a negative return code and
leaves the buffer alone ("entity not found, default"); a present key gives the length
of the stored value and copies the value over the start of the buffer. -/
def state (st : Ledger) (buf key : Bytes) : Int × Bytes :=
  match st key with
  | none => (DOESNT_EXIST, buf)
  | some v => ((v.length : Int), v.take buf.length ++ buf.drop v.length)

/-- The source of `xapay_hock.c` also calls the store read under the name `state_get`. -/
def state_get (st : Ledger) (buf key : Bytes) : Int × Bytes :=
  state st buf key

/-! ## Monetary primitives -/

def COMPARE_EQUAL : Nat := 1

def COMPARE_LESS : Nat := 2

def COMPARE_GREATER : Nat := 4

/-- Modelled from the spec: `float_sum` of the absent `hookapi.h`, the
"overflow-checked monetary addition" of two 64-bit amounts: the exact sum when it fits
in 64 bits, otherwise the value the host returns for an overflow. -/
def float_sum (H : Host) (a b : Int) : Int :=
  if INT64_MIN ≤ a + b ∧ a + b ≤ INT64_MAX then a + b else wrap64 (H.float_sum_overflow a b)

/-- Modelled from the spec: `float_compare` of the absent `hookapi.h`, the
comparison of two amounts under a mode made of the flags `COMPARE_EQUAL`, `COMPARE_LESS`
and `COMPARE_GREATER`: 1 when the relation holds, 0 otherwise. -/
def float_compare (a b : Int) (mode : Nat) : Int :=
  if (mode.testBit 0 && decide (a = b)) || (mode.testBit 1 && decide (a < b))
      || (mode.testBit 2 && decide (b < a)) then 1 else 0

/-- Modelled from the spec: `float_sto_set(buf, x)` of the source, which writes the
"8-byte monetary encoding" of the amount `x` to `buf`. -/
def float_sto_set (x : Int) : Bytes :=
  int64_to_bytes x

/-- Modelled from the spec: `float_sto_to_int64(buf)` of the source, which reads the
amount held in the "8-byte monetary encoding". -/
def float_sto_to_int64 (buf : Bytes) : Int :=
  bytes_to_int64 buf

/-! ## Outcomes -/

/-- How an invocation ends: `accept` (commit) or `rollback` (reject), with the code. -/
inductive Exit
  | accept (code : Int)
  | rollback (code : Int)
  deriving DecidableEq, Repr

/-! ## Keys and reads shared by the handlers -/

/-- The key of the balance of an account: `key[0] = PREFIX_USER_BALANCE; COPY(key + 1, accid, 20)`. -/
def balance_key (accid : Bytes) : Bytes :=
  PREFIX_USER_BALANCE :: fit 20 accid

/-- The key of a nonce marker: `key[0] = PREFIX_NONCE; COPY(key + 1, nonce, 16)`. -/
def nonce_key (nonce : Bytes) : Bytes :=
  PREFIX_NONCE :: fit 16 nonce

/-- The balance read of the handlers: `int64_t b = 0; state_get(&b, sizeof(b), SBUF(key));`. -/
def read_balance (st : Ledger) (accid : Bytes) : Int :=
  bytes_to_int64 (state_get st (int64_to_bytes 0) (balance_key accid)).2

/-! ## `handle_charge` -/

/-- The locals of `handle_charge` that are computed without the ledger. -/
structure ChargeLocals where
  amount_len : Int
  amount_buffer : Bytes
  issuer_len : Int
  issuer_buffer : Bytes
  currency_len : Int
  currency_buffer : Bytes
  parsed : Int
  amount_val : Int
  source_accid : Bytes

/-- The values of the locals of `handle_charge`, in source order. -/
def charge_locals (H : Host) : ChargeLocals :=
  let am := H.otxn_field 48 SField.sfAmount
  let amount_buffer := fit 48 am.2
  let iss := H.sto_subfield amount_buffer am.1 20 SField.sfIssuer
  let cur := H.sto_subfield amount_buffer am.1 20 SField.sfCurrency
  let parsed := H.sto_amount_to_int64 amount_buffer am.1
  { amount_len := am.1
    amount_buffer := amount_buffer
    issuer_len := iss.1
    issuer_buffer := fit 20 iss.2
    currency_len := cur.1
    currency_buffer := fit 20 cur.2
    parsed := parsed.1
    amount_val := wrap64 parsed.2
    source_accid := fit 20 (H.otxn_source_account 20).2 }

/-- The handler `handle_charge` of `xapay_hock.c`: a direct deposit by a user. -/
def handle_charge (H : Host) (st : Ledger) : Exit × Ledger :=
  let L := charge_locals H
  -- 1. the serialized Amount field
  if L.amount_len < 0 then (Exit.rollback 10, st) else
  -- 2. issuer and currency
  if L.issuer_len < 0 then (Exit.rollback 11, st) else
  if L.currency_len < 0 then (Exit.rollback 12, st) else
  if (!BUFFER_EQUAL L.issuer_buffer ISSUER_ACCID 20 || !BUFFER_EQUAL L.currency_buffer CURRENCY_JPY 20) then
    (Exit.rollback 13, st) else
  -- 3. the amount
  if L.parsed < 0 then (Exit.rollback 14, st) else
  if L.amount_val ≤ 0 then (Exit.rollback 15, st) else
  -- 4. state update
  let current_balance := read_balance st L.source_accid
  let new_balance := wrap64 (current_balance + L.amount_val)
  let st1 := state_set st (int64_to_bytes new_balance) (balance_key L.source_accid)
  (Exit.accept 0, st1)

/-! ## `handle_payment` -/

/-- The locals of `handle_payment` that the source leaves to a memo parser it does not
contain (`user_accid`, `amount`, `nonce`, `signature`, `signature_len`): inputs. -/
structure PaymentMemo where
  user_accid : Bytes
  amount : Int
  nonce : Bytes
  signature : Bytes
  signature_len : Int

/-- The locals of `handle_payment` that are computed without the ledger. -/
structure PaymentLocals where
  source_accid : Bytes
  user_accid : Bytes
  amount : Int
  nonce : Bytes
  signature : Bytes
  pubkey_len : Int
  pubkey : Bytes
  signed_data : Bytes
  verified : Int

/-- The values of the locals of `handle_payment`, in source order. -/
def payment_locals (H : Host) (m : PaymentMemo) : PaymentLocals :=
  let user_accid := fit 20 m.user_accid
  let nonce := fit 16 m.nonce
  let signature := fit 72 m.signature
  let pk := H.util_accid 33 user_accid 20
  let pubkey := fit 33 pk.2
  let signed_data := COPY nonce 16
  { source_accid := fit 20 (H.otxn_source_account 20).2
    user_accid := user_accid
    amount := wrap64 m.amount
    nonce := nonce
    signature := signature
    pubkey_len := pk.1
    pubkey := pubkey
    signed_data := signed_data
    verified := H.util_verify signed_data 16 signature 72 pubkey 33 }

/-- The handler `handle_payment` of `xapay_hock.c`: a nonce-authorized payment
triggered by the operator. -/
def handle_payment (H : Host) (m : PaymentMemo) (st : Ledger) : Exit × Ledger :=
  let L := payment_locals H m
  -- 1. the sender is the operator
  if !BUFFER_EQUAL L.source_accid OPERATOR_ACCID 20 then (Exit.rollback 30, st) else
  -- 3. signature
  if L.pubkey_len < 0 then (Exit.rollback 31, st) else
  if L.verified ≠ 1 then (Exit.rollback 32, st) else
  -- 4. nonce
  if (state_get st [] (nonce_key L.nonce)).1 ≥ 0 then (Exit.rollback 33, st) else
  -- 5. balance
  let user_balance := read_balance st L.user_accid
  if user_balance < L.amount then (Exit.rollback 34, st) else
  -- 6. state update
  let new_balance := wrap64 (user_balance - L.amount)
  let st1 := state_set st (int64_to_bytes new_balance) (balance_key L.user_accid)
  let nonce_val : Bytes := [1]
  let st2 := state_set st1 nonce_val (nonce_key L.nonce)
  (Exit.accept 0, st2)

/-! ## `handle_allowance_payment` -/

/-- The locals of `handle_allowance_payment` that are computed without the ledger. -/
structure AllowanceLocals where
  operator_accid : Bytes
  user_raddr_len : Int
  user_raddr : Bytes
  user_accid_len : Int
  user_accid : Bytes
  payment_amount_str_len : Int
  payment_amount_str : Bytes
  payment_amount_xfl : Int
  allowance_amount_str_len : Int
  allowance_amount_str : Bytes
  allowance_amount_xfl : Int
  allowance_sig_hex_len : Int
  allowance_sig_hex : Bytes
  allowance_sig_len : Int
  allowance_sig : Bytes
  operator_raddr : Bytes
  message : Bytes
  message_len : Int
  user_pubkey : Bytes
  pubkey_len : Int
  verified : Int
  state_key : Bytes

/-- The message that is signed: `COPY(ptr, user_raddr, 34); ':'; COPY(ptr, operator_raddr, 34);
':'; COPY(ptr, amount_str, amount_str_len)`. -/
def build_message (user_raddr operator_raddr amount_str : Bytes) (amount_str_len : Int) : Bytes :=
  COPY user_raddr 34 ++ [COLON] ++ COPY operator_raddr 34 ++ [COLON] ++ COPY amount_str amount_str_len

/-- The public key lookup shared by the two allowance handlers: `util_keylet`, `slot_set`,
`slot_subfield(sfRegularKey)` and, when that gives nothing, `slot_subfield(sfAccount)`.
The result is `pubkey_len` and the buffer `user_pubkey`. -/
def lookup_pubkey (H : Host) (user_accid : Bytes) : Int × Bytes :=
  let kl := H.util_keylet 33 user_accid 20
  let slot_no := H.slot_set (fit 33 kl.2) kl.1
  let regular := H.slot_subfield slot_no SField.sfRegularKey (fit 33 kl.2) 33
  let found := if regular.1 ≤ 0 then H.slot_subfield slot_no SField.sfAccount (fit 33 regular.2) 33
    else regular
  (found.1, fit 33 found.2)

/-- The values of the locals of `handle_allowance_payment` of `xapay_hock.c`, in source order. -/
def allowance_locals (H : Host) (data_ptr : Bytes) (data_len : Int) : AllowanceLocals :=
  let operator_accid := fit 20 (H.otxn_source_account 20).2
  let ua := H.sto_from_json 35 data_ptr data_len "user_address"
  let user_raddr := fit 35 ua.2
  let ur := H.util_raddr 20 user_raddr 35
  let user_accid := fit 20 ur.2
  let pa := H.sto_from_json 20 data_ptr data_len "payment_amount"
  let payment_amount_str := fit 20 pa.2
  let payment_amount_xfl := wrap64 (H.sto_amount_text_to_int64 payment_amount_str pa.1)
  let aa := H.sto_from_json_nested 20 data_ptr data_len "allowance.amount"
  let allowance_amount_str := fit 20 aa.2
  let allowance_amount_xfl := wrap64 (H.sto_amount_text_to_int64 allowance_amount_str aa.1)
  let sg := H.sto_from_json_nested 148 data_ptr data_len "allowance.signature"
  let allowance_sig_hex := fit 148 sg.2
  let hb := H.util_hex_to_byte 74 allowance_sig_hex sg.1
  let allowance_sig := fit 74 hb.2
  let operator_raddr := fit 35 (H.util_accid 35 OPERATOR_ACCID 20).2
  let message := build_message user_raddr operator_raddr allowance_amount_str aa.1
  let message_len := 34 + 1 + 34 + 1 + aa.1
  let pk := lookup_pubkey H user_accid
  { operator_accid := operator_accid
    user_raddr_len := ua.1
    user_raddr := user_raddr
    user_accid_len := ur.1
    user_accid := user_accid
    payment_amount_str_len := pa.1
    payment_amount_str := payment_amount_str
    payment_amount_xfl := payment_amount_xfl
    allowance_amount_str_len := aa.1
    allowance_amount_str := allowance_amount_str
    allowance_amount_xfl := allowance_amount_xfl
    allowance_sig_hex_len := sg.1
    allowance_sig_hex := allowance_sig_hex
    allowance_sig_len := hb.1
    allowance_sig := allowance_sig
    operator_raddr := operator_raddr
    message := message
    message_len := message_len
    user_pubkey := pk.2
    pubkey_len := pk.1
    verified := H.util_verify message message_len allowance_sig hb.1 pk.2 pk.1
    state_key := COPY user_accid 20 ++ COPY allowance_sig_hex sg.1 }

/-- The spent amount read by `handle_allowance_payment`:
`spent = 0; if (state(buf, 8, key, key_len) == 8) spent = float_sto_to_int64(buf);`. -/
def read_spent (st : Ledger) (state_key : Bytes) : Int :=
  let r := state st (fit 8 []) state_key
  if r.1 = 8 then float_sto_to_int64 r.2 else 0

/-- The handler `handle_allowance_payment` of `xapay_hock.c`: a payment under a signed
allowance, triggered by the operator. -/
def handle_allowance_payment (H : Host) (data_ptr : Bytes) (data_len : Int) (st : Ledger) :
    Exit × Ledger :=
  let L := allowance_locals H data_ptr data_len
  -- 1. the sender is the operator
  if !BUFFER_EQUAL L.operator_accid OPERATOR_ACCID 20 then
    (Exit.rollback ERROR_INVALID_TRANSACTION, st) else
  -- 2. the fields of the JSON payload
  if L.user_raddr_len ≤ 0 then (Exit.rollback ERROR_MISSING_FIELD, st) else
  if L.user_accid_len ≠ 20 then (Exit.rollback ERROR_ALLOWANCE_INVALID_ADDRESS, st) else
  if L.payment_amount_str_len ≤ 0 then (Exit.rollback ERROR_MISSING_FIELD, st) else
  if L.allowance_amount_str_len ≤ 0 then (Exit.rollback ERROR_MISSING_FIELD, st) else
  if L.allowance_sig_hex_len ≤ 0 then (Exit.rollback ERROR_MISSING_FIELD, st) else
  -- 3. the allowance signature
  if L.verified ≠ 1 then (Exit.rollback ERROR_ALLOWANCE_VERIFICATION_FAILED, st) else
  -- 4. cap and balance
  let spent_amount_xfl := read_spent st L.state_key
  let new_spent_amount_xfl := float_sum H spent_amount_xfl L.payment_amount_xfl
  if float_compare new_spent_amount_xfl L.allowance_amount_xfl COMPARE_GREATER = 1 then
    (Exit.rollback ERROR_ALLOWANCE_EXCEEDED, st) else
  -- 5. balance update
  let user_balance := read_balance st L.user_accid
  if user_balance < L.payment_amount_xfl then (Exit.rollback ERROR_INSUFFICIENT_BALANCE, st) else
  let new_balance := wrap64 (user_balance - L.payment_amount_xfl)
  let st1 := state_set st (int64_to_bytes new_balance) (balance_key L.user_accid)
  -- 6. spent update
  let st2 := state_set st1 (float_sto_set new_spent_amount_xfl) L.state_key
  (Exit.accept SUCCESS, st2)

/-! ## `handle_recharge_and_update_allowance` -/

/-- The locals of `handle_recharge_and_update_allowance` that are computed without the ledger. -/
structure RechargeLocals where
  user_accid : Bytes
  amount_len : Int
  amount_buffer : Bytes
  issuer_len : Int
  issuer_buffer : Bytes
  currency_len : Int
  currency_buffer : Bytes
  parsed : Int
  charge_amount : Int
  memo_len : Int
  memo_data : Bytes
  new_allowance_len : Int
  new_allowance_str : Bytes
  signature_hex_len : Int
  signature_hex : Bytes
  operator_raddr : Bytes
  user_raddr : Bytes
  message : Bytes
  message_len : Int
  signature_len : Int
  signature : Bytes
  user_pubkey : Bytes
  pubkey_len : Int
  verified : Int
  allowance_key : Bytes

/-- The values of the locals of `handle_recharge_and_update_allowance`, in source order. -/
def recharge_locals (H : Host) : RechargeLocals :=
  let user_accid := fit 20 (H.otxn_field 20 SField.sfAccount).2
  let am := H.otxn_field 48 SField.sfAmount
  let amount_buffer := fit 48 am.2
  let iss := H.sto_subfield amount_buffer am.1 20 SField.sfIssuer
  let cur := H.sto_subfield amount_buffer am.1 20 SField.sfCurrency
  let parsed := H.sto_amount_to_int64 amount_buffer am.1
  let memo := H.otxn_memo 0 1024
  let memo_data := fit 1024 memo.2
  let na := H.sto_from_json 32 memo_data memo.1 "allowance"
  let new_allowance_str := fit 32 na.2
  let sg := H.sto_from_json 148 memo_data memo.1 "signature"
  let signature_hex := fit 148 sg.2
  let operator_raddr := fit 35 (H.util_accid 35 OPERATOR_ACCID 20).2
  let user_raddr := fit 35 (H.util_accid 35 user_accid 20).2
  let message := build_message user_raddr operator_raddr new_allowance_str na.1
  let message_len := 34 + 1 + 34 + 1 + na.1
  let hb := H.util_hex_to_byte 74 signature_hex sg.1
  let signature := fit 74 hb.2
  let pk := lookup_pubkey H user_accid
  { user_accid := user_accid
    amount_len := am.1
    amount_buffer := amount_buffer
    issuer_len := iss.1
    issuer_buffer := fit 20 iss.2
    currency_len := cur.1
    currency_buffer := fit 20 cur.2
    parsed := parsed.1
    charge_amount := wrap64 parsed.2
    memo_len := memo.1
    memo_data := memo_data
    new_allowance_len := na.1
    new_allowance_str := new_allowance_str
    signature_hex_len := sg.1
    signature_hex := signature_hex
    operator_raddr := operator_raddr
    user_raddr := user_raddr
    message := message
    message_len := message_len
    signature_len := hb.1
    signature := signature
    user_pubkey := pk.2
    pubkey_len := pk.1
    verified := H.util_verify message message_len signature hb.1 pk.2 pk.1
    allowance_key := PREFIX_ALLOWANCE :: COPY user_accid 20 }

/-- The handler `handle_recharge_and_update_allowance` of `xapay_hock.c`: a deposit
together with a new allowance.  The second allowance write passes the key length
`sizeof(allowance_key) + 20`, so its key is `allowance_key` followed by the 20 bytes
of memory after it. -/
def handle_recharge_and_update_allowance (H : Host) (st : Ledger) : Exit × Ledger :=
  let L := recharge_locals H
  -- 2. the Amount field
  if L.amount_len < 0 then (Exit.rollback ERROR_INVALID_TRANSACTION, st) else
  -- 3. issuer and currency
  if L.issuer_len < 0 then (Exit.rollback ERROR_CHARGE_INVALID_ISSUER, st) else
  if L.currency_len < 0 then (Exit.rollback ERROR_CHARGE_INVALID_CURRENCY, st) else
  if (!BUFFER_EQUAL L.issuer_buffer ISSUER_ACCID 20 || !BUFFER_EQUAL L.currency_buffer CURRENCY_JPY 20) then
    (Exit.rollback ERROR_CHARGE_INVALID_CURRENCY, st) else
  -- 4. the amount
  if L.parsed < 0 then (Exit.rollback ERROR_INVALID_TRANSACTION, st) else
  if L.charge_amount ≤ 0 then (Exit.rollback ERROR_INVALID_TRANSACTION, st) else
  -- 5. the memo
  if L.memo_len < 0 then (Exit.rollback ERROR_INVALID_MEMO, st) else
  if L.new_allowance_len ≤ 0 then (Exit.rollback ERROR_MISSING_FIELD, st) else
  if L.signature_hex_len ≤ 0 then (Exit.rollback ERROR_MISSING_FIELD, st) else
  -- 6. the signature
  if L.verified ≠ 1 then (Exit.rollback ERROR_ALLOWANCE_VERIFICATION_FAILED, st) else
  -- 7. balance update
  let current_balance := read_balance st L.user_accid
  let new_balance := wrap64 (current_balance + L.charge_amount)
  let st1 := state_set st (int64_to_bytes new_balance) (balance_key L.user_accid)
  -- 8. the new allowance
  let st2 := state_set st1 (COPY L.new_allowance_str L.new_allowance_len) L.allowance_key
  let st3 := state_set st2 (COPY L.signature_hex L.signature_hex_len)
    (L.allowance_key ++ fit 20 H.stack_after_allowance_key)
  (Exit.accept SUCCESS, st3)

/-! ## The handlers of `src/Hocks/payment.c` -/

namespace Hocks

/-- The handler `handle_charge` of `Hocks/payment.c`; its statements, and so its locals,
are those of `handle_charge` of `xapay_hock.c`. -/
def handle_charge (H : Host) (st : Ledger) : Exit × Ledger :=
  let L := charge_locals H
  if L.amount_len < 0 then (Exit.rollback 10, st) else
  if L.issuer_len < 0 then (Exit.rollback 11, st) else
  if L.currency_len < 0 then (Exit.rollback 12, st) else
  if (!BUFFER_EQUAL L.issuer_buffer ISSUER_ACCID 20 || !BUFFER_EQUAL L.currency_buffer CURRENCY_JPY 20) then
    (Exit.rollback 13, st) else
  if L.parsed < 0 then (Exit.rollback 14, st) else
  if L.amount_val ≤ 0 then (Exit.rollback 15, st) else
  let current_balance := read_balance st L.source_accid
  let new_balance := wrap64 (current_balance + L.amount_val)
  let st1 := state_set st (int64_to_bytes new_balance) (balance_key L.source_accid)
  (Exit.accept 0, st1)

/-- The handler `handle_payment` of `Hocks/payment.c`; its statements, and so its locals,
are those of `handle_payment` of `xapay_hock.c`. -/
def handle_payment (H : Host) (m : PaymentMemo) (st : Ledger) : Exit × Ledger :=
  let L := payment_locals H m
  if !BUFFER_EQUAL L.source_accid OPERATOR_ACCID 20 then (Exit.rollback 30, st) else
  if L.pubkey_len < 0 then (Exit.rollback 31, st) else
  if L.verified ≠ 1 then (Exit.rollback 32, st) else
  if (state_get st [] (nonce_key L.nonce)).1 ≥ 0 then (Exit.rollback 33, st) else
  let user_balance := read_balance st L.user_accid
  if user_balance < L.amount then (Exit.rollback 34, st) else
  let new_balance := wrap64 (user_balance - L.amount)
  let st1 := state_set st (int64_to_bytes new_balance) (balance_key L.user_accid)
  let nonce_val : Bytes := [1]
  let st2 := state_set st1 nonce_val (nonce_key L.nonce)
  (Exit.accept 0, st2)

end Hocks

/-! ## `handle_charge` of `src/src/c/payment.c` -/

namespace PaymentC

/-- The macro `ISSUER_ACCID` of `payment.c`: a string literal of 40 hexadecimal characters. -/
def ISSUER_ACCID : String := "131A2E9B489613A55E285F2363EA2284D7212255"

/-- The macro `CURRENCY_JPY` of `payment.c`: a string literal of 40 hexadecimal characters. -/
def CURRENCY_JPY : String := "0000000000000000000000004A50590000000000"

/-- The macro `OPERATOR_ACCID` of `payment.c`: a string literal of 40 hexadecimal characters. -/
def OPERATOR_ACCID : String := "F8D5A07335639A41EABF8C2224424263A21935E4"

/-- The bytes of a C string literal in memory: its characters and the terminating zero. -/
def c_string (s : String) : Bytes :=
  s.toList.map (fun c => (Fin.ofNat c.toNat : Byte)) ++ [0]

/-- The C library function `memcmp(a, b, n)`: 0 when the first `n` bytes agree,
otherwise the sign of the difference of the first bytes that differ. -/
def memcmp : Bytes → Bytes → Nat → Int
  | _, _, 0 => 0
  | [], _, _ + 1 => 0
  | _ :: _, [], _ + 1 => 0
  | x :: xs, y :: ys, n + 1 =>
    if x.val < y.val then -1 else if y.val < x.val then 1 else memcmp xs ys n

/-- The helper `get_user_balance` of `payment.c`: the balance under the key `user_accid`
(20 bytes, no prefix), 0 when the entry does not exist. -/
def get_user_balance (st : Ledger) (user_accid : Bytes) : Int :=
  let r := state st (fit 8 []) (COPY user_accid 20)
  if r.1 = DOESNT_EXIST then 0 else float_sto_to_int64 r.2

/-- The helper `update_user_balance` of `payment.c`. -/
def update_user_balance (st : Ledger) (user_accid : Bytes) (new_balance : Int) : Ledger :=
  state_set st (float_sto_set new_balance) (COPY user_accid 20)

/-- The locals of `handle_charge` of `payment.c` that are computed without the ledger. -/
structure ChargeLocals where
  source_accid : Bytes
  oslot : Int
  aslot : Int
  currency : Bytes
  issuer : Bytes
  charge_amount_xfl : Int

/-- The values of the locals of `handle_charge` of `payment.c`, in source order. -/
def charge_locals (H : Host) : ChargeLocals :=
  let oslot := H.otxn_slot 0
  let aslot := H.slot_subfield_slot oslot SField.sfAmount 0
  { source_accid := fit 20 (H.otxn_field 20 SField.sfAccount).2
    oslot := oslot
    aslot := aslot
    currency := fit 20 (H.slot_subfield aslot SField.sfCurrency (fit 20 []) 20).2
    issuer := fit 20 (H.slot_subfield aslot SField.sfIssuer (fit 20 []) 20).2
    charge_amount_xfl := wrap64 (H.slot_float aslot) }

/-- The handler `handle_charge` of `payment.c`.  The two `memcmp` calls compare the
20-byte fields with the first 20 bytes of the string literals `CURRENCY_JPY` and
`ISSUER_ACCID`. -/
def handle_charge (H : Host) (st : Ledger) : Exit × Ledger :=
  let L := charge_locals H
  -- 2. the Amount field
  if L.aslot < 0 then (Exit.rollback 1, st) else
  -- 3. currency and issuer
  if memcmp L.currency (c_string CURRENCY_JPY) 20 ≠ 0 then (Exit.accept SUCCESS, st) else
  if memcmp L.issuer (c_string ISSUER_ACCID) 20 ≠ 0 then (Exit.accept SUCCESS, st) else
  -- 4. balance update
  let current_balance := get_user_balance st L.source_accid
  let new_balance := float_sum H current_balance L.charge_amount_xfl
  let st1 := update_user_balance st L.source_accid new_balance
  (Exit.accept SUCCESS, st1)

/-- Modelled from the spec: the macro `HEX_TO_BYTES` is absent from the repository; the
initializer `{HEX_TO_BYTES(OPERATOR_ACCID)}` is taken as the 20 bytes that the
hexadecimal text `OPERATOR_ACCID` writes. -/
def defined_operator_accid : Bytes :=
  hex_decode (c_string OPERATOR_ACCID)

/-- The values of the locals of `handle_allowance_payment` of `payment.c`, in source
order.  The statements are those of `xapay_hock.c`, except that the operator id given
to `util_accid` is the local `defined_operator_accid` (kept in the field `operator_accid`). -/
def allowance_locals (H : Host) (data_ptr : Bytes) (data_len : Int) : AllowanceLocals :=
  let ua := H.sto_from_json 35 data_ptr data_len "user_address"
  let user_raddr := fit 35 ua.2
  let ur := H.util_raddr 20 user_raddr 35
  let user_accid := fit 20 ur.2
  let pa := H.sto_from_json 20 data_ptr data_len "payment_amount"
  let payment_amount_str := fit 20 pa.2
  let payment_amount_xfl := wrap64 (H.sto_amount_text_to_int64 payment_amount_str pa.1)
  let aa := H.sto_from_json_nested 20 data_ptr data_len "allowance.amount"
  let allowance_amount_str := fit 20 aa.2
  let allowance_amount_xfl := wrap64 (H.sto_amount_text_to_int64 allowance_amount_str aa.1)
  let sg := H.sto_from_json_nested 148 data_ptr data_len "allowance.signature"
  let allowance_sig_hex := fit 148 sg.2
  let hb := H.util_hex_to_byte 74 allowance_sig_hex sg.1
  let allowance_sig := fit 74 hb.2
  let operator_raddr := fit 35 (H.util_accid 35 defined_operator_accid 20).2
  let message := build_message user_raddr operator_raddr allowance_amount_str aa.1
  let message_len := 34 + 1 + 34 + 1 + aa.1
  let pk := lookup_pubkey H user_accid
  { operator_accid := defined_operator_accid
    user_raddr_len := ua.1
    user_raddr := user_raddr
    user_accid_len := ur.1
    user_accid := user_accid
    payment_amount_str_len := pa.1
    payment_amount_str := payment_amount_str
    payment_amount_xfl := payment_amount_xfl
    allowance_amount_str_len := aa.1
    allowance_amount_str := allowance_amount_str
    allowance_amount_xfl := allowance_amount_xfl
    allowance_sig_hex_len := sg.1
    allowance_sig_hex := allowance_sig_hex
    allowance_sig_len := hb.1
    allowance_sig := allowance_sig
    operator_raddr := operator_raddr
    message := message
    message_len := message_len
    user_pubkey := pk.2
    pubkey_len := pk.1
    verified := H.util_verify message message_len allowance_sig hb.1 pk.2 pk.1
    state_key := COPY user_accid 20 ++ COPY allowance_sig_hex sg.1 }

end PaymentC

/-! ## The entry point `hook` of `xapay_hock.c` -/

/-- Modelled from the spec: the transaction type code of a Payment (the "value
transfer" kind of trigger), a constant of the absent `hookapi.h`. -/
def ttPAYMENT : Int := 0

/-- Modelled from the spec: the transaction type code of an Invoke (the "instruction"
kind of trigger), a constant of the absent `hookapi.h`, another code than that of a
Payment. -/
def ttINVOKE : Int := 99

/-- The characters of a text, as bytes (no terminating zero). -/
def ascii (s : String) : Bytes :=
  s.toList.map (fun c => (Fin.ofNat c.toNat : Byte))

/-- What `hook` of `xapay_hock.c` does with a trigger: the handler it calls (with the
arguments of the call), or the exit it takes itself. -/
inductive Route
  | charge
  | payment
  | allowance_payment (data_ptr : Bytes) (data_len : Int)
  | recharge
  | stop (e : Exit)
  deriving DecidableEq, Repr

/-- The dispatch of `hook` of `xapay_hock.c`: the branches of the function in source
order, with the call or exit that ends each branch. -/
def hook_route (H : Host) : Route :=
  let tx_type := H.otxn_type
  if tx_type = ttPAYMENT then Route.charge
  else if tx_type = ttINVOKE then
    if H.otxn_memo_count > 0 then
      let memo := H.otxn_memo 0 1024
      let memo_data := fit 1024 memo.2
      let memo_len := memo.1
      if memo_len > 0 then
        let type_buf := fit 32 (H.sto_from_json 32 memo_data memo_len "type").2
        if (H.sto_from_json 32 memo_data memo_len "type").1 > 0
            ∧ BUFFER_EQUAL type_buf (PaymentC.c_string "update_allowance") 15 = true then
          Route.recharge
        else Route.allowance_payment memo_data memo_len
      else Route.payment
    else Route.payment
  else Route.stop (Exit.accept 0)

/-- The entry point `hook` of `xapay_hock.c`.  The locals of `handle_payment` that the
source leaves unset are the input `m`. -/
def hook (H : Host) (m : PaymentMemo) (st : Ledger) : Exit × Ledger :=
  let tx_type := H.otxn_type
  if tx_type = ttPAYMENT then handle_charge H st
  else if tx_type = ttINVOKE then
    if H.otxn_memo_count > 0 then
      let memo := H.otxn_memo 0 1024
      let memo_data := fit 1024 memo.2
      let memo_len := memo.1
      if memo_len > 0 then
        let type_buf := fit 32 (H.sto_from_json 32 memo_data memo_len "type").2
        if (H.sto_from_json 32 memo_data memo_len "type").1 > 0
            ∧ BUFFER_EQUAL type_buf (PaymentC.c_string "update_allowance") 15 = true then
          handle_recharge_and_update_allowance H st
        else handle_allowance_payment H memo_data memo_len st
      else handle_payment H m st
    else handle_payment H m st
  else (Exit.accept 0, st)

/-- The call or exit of a route of `xapay_hock.c`, run on a ledger. -/
def run_route (H : Host) (m : PaymentMemo) (st : Ledger) : Route → Exit × Ledger
  | Route.charge => handle_charge H st
  | Route.payment => handle_payment H m st
  | Route.allowance_payment data_ptr data_len => handle_allowance_payment H data_ptr data_len st
  | Route.recharge => handle_recharge_and_update_allowance H st
  | Route.stop e => (e, st)

/-- The memo that `hook` of `xapay_hock.c` reads: the buffer `memo_data` after
`otxn_memo(0, SBUF(memo_data))`. -/
def hook_memo_data (H : Host) : Bytes :=
  fit 1024 (H.otxn_memo 0 1024).2

/-- The return code `memo_len` of that call. -/
def hook_memo_len (H : Host) : Int :=
  (H.otxn_memo 0 1024).1

/-- The return code of the call `sto_from_json(type_buf, 32, memo_data, memo_len, "type")`
of `hook` of `xapay_hock.c`; the payload has a `type` field when it is positive. -/
def hook_type_len (H : Host) : Int :=
  (H.sto_from_json 32 (hook_memo_data H) (hook_memo_len H) "type").1

/-- The buffer `type_buf` of `hook` of `xapay_hock.c` after that call. -/
def hook_type_buf (H : Host) : Bytes :=
  fit 32 (H.sto_from_json 32 (hook_memo_data H) (hook_memo_len H) "type").2

/-- The `type` field of the payload: the `hook_type_len` bytes that the call returned. -/
def hook_type_text (H : Host) : Bytes :=
  COPY (hook_type_buf H) (hook_type_len H)

/-! ## The entry point `hook` of `src/Hocks/payment.c` -/

namespace Hocks

/-- The entry point `hook` of `Hocks/payment.c`: `accept` ends the invocation of a
trigger that is not a Payment; a Payment with a memo goes to `handle_payment`, one
without to `handle_charge`. -/
def hook (H : Host) (m : PaymentMemo) (st : Ledger) : Exit × Ledger :=
  if H.otxn_type ≠ ttPAYMENT then (Exit.accept 0, st) else
  if H.otxn_memo_count > 0 then handle_payment H m st
  else handle_charge H st

end Hocks

/-! ## `handle_allowance_payment` and the entry point `hook` of `src/src/c/payment.c` -/

namespace PaymentC

/-- Modelled from the spec: `float_negate` of the absent `hookapi.h`, which the source
calls as `float_negate(0, x)`: the amount `x` with the opposite sign, in 64 bits. -/
def float_negate (_zero x : Int) : Int :=
  wrap64 (-x)

/-- The handler `handle_allowance_payment` of `payment.c`.  The error codes of the file
are those of `xapay_hock.c`. -/
def handle_allowance_payment (H : Host) (data_ptr : Bytes) (data_len : Int) (st : Ledger) :
    Exit × Ledger :=
  let L := allowance_locals H data_ptr data_len
  -- 1. the fields of the JSON payload
  if L.user_raddr_len ≤ 0 then (Exit.rollback ERROR_MISSING_FIELD, st) else
  if L.user_accid_len ≠ 20 then (Exit.rollback ERROR_ALLOWANCE_INVALID_ADDRESS, st) else
  if L.payment_amount_str_len ≤ 0 then (Exit.rollback ERROR_MISSING_FIELD, st) else
  if L.allowance_amount_str_len ≤ 0 then (Exit.rollback ERROR_MISSING_FIELD, st) else
  if L.allowance_sig_hex_len ≤ 0 then (Exit.rollback ERROR_MISSING_FIELD, st) else
  -- 2. the allowance signature
  if L.verified ≠ 1 then (Exit.rollback ERROR_ALLOWANCE_VERIFICATION_FAILED, st) else
  -- 3. cap and balance
  let spent_amount_xfl := read_spent st L.state_key
  let new_spent_amount_xfl := float_sum H spent_amount_xfl L.payment_amount_xfl
  if float_compare new_spent_amount_xfl L.allowance_amount_xfl COMPARE_GREATER = 1 then
    (Exit.rollback ERROR_ALLOWANCE_EXCEEDED, st) else
  let user_balance := get_user_balance st L.user_accid
  if float_compare L.payment_amount_xfl user_balance COMPARE_GREATER = 1 then
    (Exit.rollback ERROR_INSUFFICIENT_BALANCE, st) else
  -- 4. balance and spent update
  let new_balance := float_sum H user_balance (float_negate 0 L.payment_amount_xfl)
  let st1 := update_user_balance st L.user_accid new_balance
  let st2 := state_set st1 (float_sto_set new_spent_amount_xfl) L.state_key
  (Exit.accept SUCCESS, st2)

/-- What `hook` of `payment.c` does with a trigger: the handler it calls (with the
arguments of the call), or the exit it takes itself. -/
inductive Route
  | charge
  | allowance_payment (data_ptr : Bytes) (data_len : Int)
  | stop (e : Exit)
  deriving DecidableEq, Repr

/-- The dispatch of `hook` of `payment.c`: the checks of the function in source order,
with the call or exit that ends each branch.  `data_ptr` is the memo buffer from the
offset `SUB_OFFSET(memo_len)` on. -/
def hook_route (H : Host) : Route :=
  let tx_type := H.otxn_type
  if tx_type = ttPAYMENT then Route.charge
  else if tx_type = ttINVOKE then
    -- 2. the sender is the operator
    let operator_accid := fit 20 (H.otxn_field 20 SField.sfAccount).2
    if memcmp operator_accid defined_operator_accid 20 ≠ 0 then
      Route.stop (Exit.rollback ERROR_INVALID_TRANSACTION) else
    -- 3. the memo and the payment type
    let memo_buffer := fit 1024 (H.otxn_param 1024 SField.sfMemos).2
    let memo_len := (H.otxn_param 1024 SField.sfMemos).1
    if memo_len ≤ 0 then Route.stop (Exit.rollback ERROR_INVALID_MEMO) else
    let data_len := H.sto_subfield_packed memo_buffer memo_len SField.sfMemoData
    if data_len ≤ 0 then Route.stop (Exit.rollback ERROR_INVALID_JSON) else
    let data_ptr := memo_buffer.drop (H.SUB_OFFSET memo_len).toNat
    let type_buf := fit 32 (H.sto_from_json 32 data_ptr data_len "type").2
    let type_len := (H.sto_from_json 32 data_ptr data_len "type").1
    if type_len ≤ 0 then Route.stop (Exit.rollback ERROR_MISSING_FIELD) else
    let allowance_type := c_string "allowance_payment"
    if type_len = 17 ∧ memcmp type_buf allowance_type 17 = 0 then
      Route.allowance_payment data_ptr data_len
    else Route.stop (Exit.rollback ERROR_UNKNOWN_PAYMENT_TYPE)
  else Route.stop (Exit.accept SUCCESS)

/-- The entry point `hook` of `payment.c`. -/
def hook (H : Host) (st : Ledger) : Exit × Ledger :=
  let tx_type := H.otxn_type
  if tx_type = ttPAYMENT then handle_charge H st
  else if tx_type = ttINVOKE then
    let operator_accid := fit 20 (H.otxn_field 20 SField.sfAccount).2
    if memcmp operator_accid defined_operator_accid 20 ≠ 0 then
      (Exit.rollback ERROR_INVALID_TRANSACTION, st) else
    let memo_buffer := fit 1024 (H.otxn_param 1024 SField.sfMemos).2
    let memo_len := (H.otxn_param 1024 SField.sfMemos).1
    if memo_len ≤ 0 then (Exit.rollback ERROR_INVALID_MEMO, st) else
    let data_len := H.sto_subfield_packed memo_buffer memo_len SField.sfMemoData
    if data_len ≤ 0 then (Exit.rollback ERROR_INVALID_JSON, st) else
    let data_ptr := memo_buffer.drop (H.SUB_OFFSET memo_len).toNat
    let type_buf := fit 32 (H.sto_from_json 32 data_ptr data_len "type").2
    let type_len := (H.sto_from_json 32 data_ptr data_len "type").1
    if type_len ≤ 0 then (Exit.rollback ERROR_MISSING_FIELD, st) else
    let allowance_type := c_string "allowance_payment"
    if type_len = 17 ∧ memcmp type_buf allowance_type 17 = 0 then
      handle_allowance_payment H data_ptr data_len st
    else (Exit.rollback ERROR_UNKNOWN_PAYMENT_TYPE, st)
  else (Exit.accept SUCCESS, st)

/-- The call or exit of a route of `payment.c`, run on a ledger. -/
def run_route (H : Host) (st : Ledger) : Route → Exit × Ledger
  | Route.charge => handle_charge H st
  | Route.allowance_payment data_ptr data_len => handle_allowance_payment H data_ptr data_len st
  | Route.stop e => (e, st)

/-- The source account of the trigger, as `hook` of `payment.c` reads it. -/
def hook_source (H : Host) : Bytes :=
  fit 20 (H.otxn_field 20 SField.sfAccount).2

/-- The memo buffer of `hook` of `payment.c` after `otxn_param`. -/
def hook_memo_buffer (H : Host) : Bytes :=
  fit 1024 (H.otxn_param 1024 SField.sfMemos).2

/-- The return code `memo_len` of `otxn_param`; the memo is missing when it is not positive. -/
def hook_memo_len (H : Host) : Int :=
  (H.otxn_param 1024 SField.sfMemos).1

/-- The return code `data_len` of `sto_subfield`; the memo data is missing when it is
not positive. -/
def hook_data_len (H : Host) : Int :=
  H.sto_subfield_packed (hook_memo_buffer H) (hook_memo_len H) SField.sfMemoData

/-- The pointer `data_ptr` of `hook` of `payment.c`. -/
def hook_data_ptr (H : Host) : Bytes :=
  (hook_memo_buffer H).drop (H.SUB_OFFSET (hook_memo_len H)).toNat

/-- The return code `type_len` of `sto_from_json`; `type` is missing when it is not positive. -/
def hook_type_len (H : Host) : Int :=
  (H.sto_from_json 32 (hook_data_ptr H) (hook_data_len H) "type").1

/-- The `type` field of the payload: the `type_len` bytes that `sto_from_json` returned. -/
def hook_type_text (H : Host) : Bytes :=
  COPY (fit 32 (H.sto_from_json 32 (hook_data_ptr H) (hook_data_len H) "type").2) (hook_type_len H)

/-- The checks of `hook` of `payment.c` on an Invoke, as the specification words them,
in order, each with its reject code: the source account is not the configured
operator; the memo is missing; the memo data is missing; `type` is missing; `type`
is not the 17-byte text `allowance_payment`. -/
def hook_checks (H : Host) : List (Bool × Int) :=
  [ (decide (hook_source H ≠ defined_operator_accid), 100),
    (decide (hook_memo_len H ≤ 0), 101),
    (decide (hook_data_len H ≤ 0), 102),
    (decide (hook_type_len H ≤ 0), 103),
    (decide (hook_type_text H ≠ ascii "allowance_payment"), 104) ]

end PaymentC

/-! ## The step relation -/

/-- One invocation of a handler of `xapay_hock.c`, with the host it runs against. -/
inductive Invocation
  | charge (H : Host)
  | payment (H : Host) (m : PaymentMemo)
  | allowance_payment (H : Host) (data_ptr : Bytes) (data_len : Int)
  | recharge (H : Host)

/-- The effect of one invocation on the ledger. -/
def step (i : Invocation) (st : Ledger) : Exit × Ledger :=
  match i with
  | Invocation.charge H => handle_charge H st
  | Invocation.payment H m => handle_payment H m st
  | Invocation.allowance_payment H d n => handle_allowance_payment H d n st
  | Invocation.recharge H => handle_recharge_and_update_allowance H st

/-- What the host keeps of an invocation: the writes of an accepted invocation are
committed, those of a rolled back invocation are discarded. -/
def commit (st : Ledger) (r : Exit × Ledger) : Ledger :=
  match r.1 with
  | Exit.accept _ => r.2
  | Exit.rollback _ => st

/-- The ledger after a sequence of invocations. -/
def run (is : List Invocation) (st : Ledger) : Ledger :=
  is.foldl (fun s i => commit s (step i s)) st

/-! ## Balances of a ledger and the balance update of an invocation -/

/-- Every stored balance is non-negative: the balance read of every account id gives
a value `≥ 0`. -/
def balances_nonneg (st : Ledger) : Prop :=
  ∀ a : Bytes, 0 ≤ read_balance st a

/-- The account whose balance an invocation writes when it commits. -/
def Invocation.account : Invocation → Bytes
  | Invocation.charge H => (charge_locals H).source_accid
  | Invocation.payment H m => (payment_locals H m).user_accid
  | Invocation.allowance_payment H d n => (allowance_locals H d n).user_accid
  | Invocation.recharge H => (recharge_locals H).user_accid

/-- The signed amount that an invocation adds to that balance: a deposit is added, a
payment is subtracted. -/
def Invocation.delta : Invocation → Int
  | Invocation.charge H => (charge_locals H).amount_val
  | Invocation.payment H m => -(payment_locals H m).amount
  | Invocation.allowance_payment H d n => -(allowance_locals H d n).payment_amount_xfl
  | Invocation.recharge H => (recharge_locals H).charge_amount

/-- The balance computed by the invocation does not exceed the largest `int64_t`, so
the 64-bit addition or subtraction of the handler does not wrap around. -/
def no_wrap (i : Invocation) (st : Ledger) : Prop :=
  read_balance st i.account + i.delta ≤ INT64_MAX

/-- The state key under which an allowance payment stores the spent amount is not the
balance key of any account (no condition for the other handlers). -/
def spent_key_apart : Invocation → Prop
  | Invocation.allowance_payment H d n => ∀ b : Bytes, (allowance_locals H d n).state_key ≠ balance_key b
  | _ => True

/-- The invocation is a credit: a deposit handled by `handle_charge` or by
`handle_recharge_and_update_allowance`. -/
def is_credit : Invocation → Prop
  | Invocation.charge _ => True
  | Invocation.recharge _ => True
  | _ => False

/-! ## The keys an invocation writes -/

/-- The state key of `handle_allowance_payment` for the account id `b` and the signature
text `s`: `COPY(state_key, user_accid, 20); COPY(state_key + 20, allowance_sig_hex, len)`. -/
def allowance_spent_key (b s : Bytes) : Bytes :=
  fit 20 b ++ s

/-- The key `allowance_key` of `handle_recharge_and_update_allowance` for the account id
`b`: `allowance_key[0] = PREFIX_ALLOWANCE; COPY(allowance_key + 1, user_accid, 20)`. -/
def allowance_cap_key (b : Bytes) : Bytes :=
  PREFIX_ALLOWANCE :: fit 20 b

/-! ## The address texts and the cap literal of a signed message -/

/-- The payer address text of an allowance payment: the `user_raddr_len` bytes that
`sto_from_json` returned for `user_address`. -/
def payer_text (L : AllowanceLocals) : Bytes :=
  COPY L.user_raddr L.user_raddr_len

/-- The operator address text: the bytes that `util_accid` returned for the operator id. -/
def operator_text (H : Host) (operator : Bytes) : Bytes :=
  COPY (fit 35 (H.util_accid 35 operator 20).2) (H.util_accid 35 operator 20).1

/-- The cap literal of an allowance payment: the `allowance_amount_str_len` bytes that
`sto_from_json_nested` returned for `allowance.amount`. -/
def cap_text (L : AllowanceLocals) : Bytes :=
  COPY L.allowance_amount_str L.allowance_amount_str_len

/-! ## Ordered checks, in the words of the specification -/

/-- The code of the first check that fails, in a list of checks given in order as
(the check fails, its reject code); `none` when no check fails. -/
def first_failure : List (Bool × Int) → Option Int
  | [] => none
  | (failed, code) :: rest => if failed then some code else first_failure rest

/-- The outcome that a list of ordered checks decides: the reject code of the first
failing check, or a commit with code 0 when none fails. -/
def outcome_of (checks : List (Bool × Int)) : Exit :=
  match first_failure checks with
  | some code => Exit.rollback code
  | none => Exit.accept 0

/-- The five checks of Direct Payment as the specification words them, in order, each
with its reject code: the source account is not the operator; the credential of the
payer cannot be resolved; the signature over the 16-byte nonce does not verify; the
nonce marker exists; the balance of the payer is below the amount. -/
def payment_checks (H : Host) (m : PaymentMemo) (st : Ledger) : List (Bool × Int) :=
  let L := payment_locals H m
  [ (decide (L.source_accid ≠ OPERATOR_ACCID), 30),
    (decide (L.pubkey_len < 0), 31),
    (decide (H.util_verify L.nonce 16 L.signature 72 L.pubkey 33 ≠ 1), 32),
    ((st (nonce_key m.nonce)).isSome, 33),
    (decide (read_balance st m.user_accid < L.amount), 34) ]

/-- The checks of the recharge with allowance update, in order, each with its reject
code: Amount field missing; issuer missing; currency missing; issuer or currency
differs from the configured identity; amount not parsed; deposit amount not
positive; memo missing; new cap (`allowance`) missing; `signature` missing; the
signature does not verify over the message built from payer, operator and new cap. -/
def recharge_checks (H : Host) : List (Bool × Int) :=
  let L := recharge_locals H
  [ (decide (L.amount_len < 0), 100),
    (decide (L.issuer_len < 0), 202),
    (decide (L.currency_len < 0), 201),
    (decide (L.issuer_buffer ≠ ISSUER_ACCID ∨ L.currency_buffer ≠ CURRENCY_JPY), 201),
    (decide (L.parsed < 0), 100),
    (decide (L.charge_amount ≤ 0), 100),
    (decide (L.memo_len < 0), 101),
    (decide (L.new_allowance_len ≤ 0), 103),
    (decide (L.signature_hex_len ≤ 0), 103),
    (decide (H.util_verify
        (build_message L.user_raddr L.operator_raddr L.new_allowance_str L.new_allowance_len)
        (34 + 1 + 34 + 1 + L.new_allowance_len) L.signature L.signature_len L.user_pubkey
        L.pubkey_len ≠ 1), 302) ]

/-! ## Concrete hosts and ledgers -/

/-- Value of a string of decimal digits, most significant first. -/
def parse_decimal_digits : Bytes → Nat → Nat
  | [], acc => acc
  | b :: bs, acc => parse_decimal_digits bs (10 * acc + (b.val - 48))

/-- Value of a decimal literal with an optional leading minus sign. -/
def parse_decimal : Bytes → Int
  | [] => 0
  | b :: bs =>
    if b = 0x2D then -(parse_decimal_digits bs 0 : Int) else (parse_decimal_digits (b :: bs) 0 : Int)

/-- A host on which every call fails; the concrete hosts below change some calls. -/
def base_host : Host :=
  { otxn_type := 0
    otxn_memo_count := 0
    otxn_memo := fun _ _ => (-1, [])
    otxn_source_account := fun _ => (-1, [])
    otxn_field := fun _ _ => (-1, [])
    sto_subfield := fun _ _ _ _ => (-1, [])
    sto_amount_to_int64 := fun _ _ => (-1, 0)
    sto_amount_text_to_int64 := fun b n => parse_decimal (COPY b n)
    sto_from_json := fun _ _ _ _ => (-1, [])
    sto_from_json_nested := fun _ _ _ _ => (-1, [])
    util_accid := fun _ _ _ => (-1, [])
    util_raddr := fun _ _ _ => (-1, [])
    util_hex_to_byte := fun _ b n => ((hex_decode (COPY b n)).length, hex_decode (COPY b n))
    util_keylet := fun _ _ _ => (-1, [])
    slot_set := fun _ _ => -1
    slot_subfield := fun _ _ _ _ => (-1, [])
    util_verify := fun _ _ _ _ _ _ => 0
    float_sum_overflow := fun _ _ => -30
    stack_after_allowance_key := []
    otxn_slot := fun _ => -1
    slot_subfield_slot := fun _ _ _ => -1
    slot_float := fun _ => 0
    otxn_param := fun _ _ => (-1, [])
    sto_subfield_packed := fun _ _ _ => -1
    SUB_OFFSET := fun _ => 0 }

/-- An account id. -/
def ALICE : Bytes := List.replicate 20 0x0A

/-- The account id made of twenty bytes 0x55, the value of `PREFIX_USER_BALANCE`. -/
def ULYSSES : Bytes := List.replicate 20 0x55

/-- A 34-character address text standing for the account `ALICE`. -/
def ALICE_RADDR : Bytes := List.replicate 34 0x61

/-- A 34-character address text standing for the operator. -/
def OPERATOR_RADDR : Bytes := List.replicate 34 0x72

/-- A currency code other than the configured one (`USD`). -/
def CURRENCY_USD : Bytes :=
  [0x00, 0x00, 0x00, 0x00, 0x00, 0x00, 0x00, 0x00,
   0x00, 0x00, 0x00, 0x00, 0x55, 0x53, 0x44, 0x00,
   0x00, 0x00, 0x00, 0x00]

/-- The host of a Payment transaction from `sender` that transfers `amount` of the
asset (`issuer`, `currency`). -/
def deposit_host (sender issuer currency : Bytes) (amount : Int) : Host :=
  { base_host with
    otxn_source_account := fun _ => (20, sender)
    otxn_field := fun _ f => if f = SField.sfAmount then (48, []) else (20, sender)
    sto_subfield := fun _ _ _ f =>
      if f = SField.sfIssuer then (20, issuer) else if f = SField.sfCurrency then (20, currency)
      else (-1, [])
    sto_amount_to_int64 := fun _ _ => (0, amount) }

/-- The host of an Invoke transaction sent by the operator, on which every credential
resolves and every signature check gives the result `verify`. -/
def operator_host (verify : Int) : Host :=
  { base_host with
    otxn_source_account := fun _ => (20, OPERATOR_ACCID)
    util_accid := fun _ _ _ => (34, OPERATOR_RADDR)
    util_keylet := fun _ _ _ => (34, [])
    slot_set := fun _ _ => 1
    slot_subfield := fun _ _ _ _ => (33, [])
    util_verify := fun _ _ _ _ _ _ => verify }

/-- The host of an allowance payment sent by the operator: the payload names the payer
by the address text `raddr`, which decodes to `payer`, and carries the literals
`payment` and `cap` and the signature text `sig_hex`; signatures verify. -/
def allowance_host (raddr payer payment cap sig_hex : Bytes) : Host :=
  { operator_host 1 with
    sto_from_json := fun _ _ _ name =>
      if name = "user_address" then (raddr.length, raddr)
      else if name = "payment_amount" then (payment.length, payment)
      else (-1, [])
    sto_from_json_nested := fun _ _ _ name =>
      if name = "allowance.amount" then (cap.length, cap)
      else if name = "allowance.signature" then (sig_hex.length, sig_hex)
      else (-1, [])
    util_raddr := fun _ _ _ => (20, payer) }

/-- The ledger without any entry. -/
def empty_ledger : Ledger := fun _ => none

/-- The ledger whose only entry is the balance `b` of the account `a`. -/
def ledger_with (a : Bytes) (b : Int) : Ledger :=
  state_set empty_ledger (int64_to_bytes b) (balance_key a)

/-- A 16-byte nonce. -/
def NONCE_1 : Bytes := List.replicate 16 0x01

/-- The memo of a Direct Payment by `payer` of `amount` under the nonce `nonce`. -/
def payment_memo (payer : Bytes) (amount : Int) (nonce : Bytes) : PaymentMemo :=
  { user_accid := payer
    amount := amount
    nonce := nonce
    signature := List.replicate 72 0x30
    signature_len := 72 }

/-- The signature text `S` of scenario 3 of the specification: 128 hexadecimal
characters `A`, a signature of 64 bytes 0xAA. -/
def SIG_S : Bytes := List.replicate 128 0x41

/-- The host of scenario 3 of the specification: an allowance payment of 30 by `ALICE`
under the cap 50 and the signature text `SIG_S`. -/
def scenario3_host : Host :=
  allowance_host ALICE_RADDR ALICE [0x33, 0x30] [0x35, 0x30] SIG_S

/-- The decimal literal of 2^63 - 1. -/
def LITERAL_INT64_MAX : Bytes :=
  [0x39, 0x32, 0x32, 0x33, 0x33, 0x37, 0x32, 0x30, 0x33, 0x36, 0x38, 0x35, 0x34, 0x37, 0x37, 0x35,
   0x38, 0x30, 0x37]

/-- The ledger in which `ALICE` holds the balance 10 and has spent 2^63 - 1 under the
authorization of `scenario3_host`. -/
def spent_out_ledger : Ledger :=
  state_set (ledger_with ALICE 10) (float_sto_set INT64_MAX) (allowance_locals scenario3_host [] 0).state_key

/-- A second signature text `S2`: 128 hexadecimal characters `B`. -/
def SIG_S2 : Bytes := List.replicate 128 0x42

/-- The cap literal `100`. -/
def CAP_100 : Bytes := [0x31, 0x30, 0x30]

/-- The cap literal `200`. -/
def CAP_200 : Bytes := [0x32, 0x30, 0x30]

/-- The host of a recharge with allowance update: a Payment transaction from `payer`
that transfers `amount` of the configured asset, with a memo that carries the new
cap literal `cap` and the signature text `sig_hex`; signature checks give `verify`. -/
def recharge_host (payer : Bytes) (amount : Int) (cap sig_hex : Bytes) (verify : Int) : Host :=
  { deposit_host payer ISSUER_ACCID CURRENCY_JPY amount with
    otxn_memo_count := 1
    otxn_memo := fun _ _ => (2, [0x7B, 0x7D])
    sto_from_json := fun _ _ _ name =>
      if name = "allowance" then (cap.length, cap)
      else if name = "signature" then (sig_hex.length, sig_hex)
      else (-1, [])
    util_accid := fun _ b _ => if b = OPERATOR_ACCID then (34, OPERATOR_RADDR) else (34, ALICE_RADDR)
    util_keylet := fun _ _ _ => (34, [])
    slot_set := fun _ _ => 1
    slot_subfield := fun _ _ _ _ => (33, [])
    util_verify := fun _ _ _ _ _ _ => verify }

/-- The 20 bytes written by the hexadecimal text `ISSUER_ACCID` of `payment.c`
(13 1A 2E 9B ..). -/
def ISSUER_131A : Bytes := hex_decode (PaymentC.c_string PaymentC.ISSUER_ACCID)

/-- The host of a Payment transaction handled by `payment.c`: `sender` transfers the
amount `amount` of the asset with the 20-byte fields `currency` and `issuer`. -/
def slot_deposit_host (sender currency issuer : Bytes) (amount : Int) : Host :=
  { base_host with
    otxn_field := fun _ _ => (20, sender)
    otxn_slot := fun _ => 1
    slot_subfield_slot := fun _ _ _ => 2
    slot_subfield := fun _ f _ _ =>
      if f = SField.sfCurrency then (20, currency) else if f = SField.sfIssuer then (20, issuer)
      else (-1, [])
    slot_float := fun _ => amount }

/-- An address text of 33 characters. -/
def SHORT_RADDR : Bytes := List.replicate 33 0x61

/-- The host of a recharge with allowance update whose transferred asset has the
currency `USD`. -/
def foreign_recharge_host : Host :=
  { recharge_host ALICE 20 CAP_200 SIG_S2 1 with
    sto_subfield := fun _ _ _ f =>
      if f = SField.sfIssuer then (20, ISSUER_ACCID) else (20, CURRENCY_USD) }

/-- The ledger after the recharge of scenario 4 of the specification has been preceded
by a first recharge: `ALICE` recharges 20 with the cap `100` under the signature
text `SIG_S` on the empty ledger. -/
def first_recharge_ledger : Ledger :=
  (handle_recharge_and_update_allowance (recharge_host ALICE 20 CAP_100 SIG_S 1) empty_ledger).2

/-- The ledger after the second recharge: 20 more with the cap `200` under `SIG_S2`. -/
def second_recharge_ledger : Ledger :=
  (handle_recharge_and_update_allowance (recharge_host ALICE 20 CAP_200 SIG_S2 1)
    first_recharge_ledger).2

/-- The host `H` as a trigger of the type `tx_type` that carries the memo `{}` whose
payload has the `type` field `type_field` (no such field for `none`). -/
def trigger_host (H : Host) (tx_type : Int) (type_field : Option Bytes) : Host :=
  { H with
    otxn_type := tx_type
    otxn_memo_count := 1
    otxn_memo := fun _ _ => (2, [0x7B, 0x7D])
    sto_from_json := fun n b l name =>
      if name = "type" then
        match type_field with
        | some t => (t.length, t)
        | none => (-1, [])
      else H.sto_from_json n b l name }

/-- The host of an Invoke sent by the operator without any memo. -/
def invoke_no_memo_host : Host :=
  { operator_host 1 with otxn_type := ttINVOKE }

/-- The host of a trigger of the type 1, which is neither a Payment nor an Invoke. -/
def other_kind_host : Host :=
  { operator_host 1 with otxn_type := 1 }

/-- The host of an Invoke handled by `payment.c`: the source account is `sender`, the
memo is `{}` and its payload has the `type` field `type_field`. -/
def payment_c_invoke_host (sender : Bytes) (type_field : Option Bytes) : Host :=
  { base_host with
    otxn_type := ttINVOKE
    otxn_field := fun _ _ => (20, sender)
    otxn_param := fun _ _ => (2, [0x7B, 0x7D])
    sto_subfield_packed := fun _ _ _ => 2
    sto_from_json := fun _ _ _ name =>
      if name = "type" then
        match type_field with
        | some t => (t.length, t)
        | none => (-1, [])
      else (-1, []) }

/-! ## Basic facts about buffers, integers and the store -/

theorem wrap64_of_range (i : Int) (h1 : INT64_MIN ≤ i) (h2 : i ≤ INT64_MAX) : wrap64 i = i := by
  unfold INT64_MIN at h1
  unfold INT64_MAX at h2
  unfold wrap64
  omega

theorem wrap64_range (i : Int) : INT64_MIN ≤ wrap64 i ∧ wrap64 i ≤ INT64_MAX := by
  unfold INT64_MIN INT64_MAX wrap64
  omega

theorem wrap64_idem (i : Int) : wrap64 (wrap64 i) = wrap64 i :=
  wrap64_of_range _ (wrap64_range i).1 (wrap64_range i).2

theorem natLE_length (k n : Nat) : (natLE k n).length = k := by
  induction k generalizing n with
  | zero => rfl
  | succ k ih => simp [natLE, ih]

theorem leNat_natLE (k n : Nat) : leNat (natLE k n) = n % 256 ^ k := by
  induction k generalizing n with
  | zero => simp [natLE, leNat, Nat.mod_one]
  | succ k ih =>
    simp only [natLE, leNat, ih]
    rw [pow_succ, Nat.mul_comm (256 ^ k) 256, Nat.mod_mul]

theorem fit_length (n : Nat) (b : Bytes) : (fit n b).length = n := by
  simp [fit]

theorem fit_of_length (n : Nat) (b : Bytes) (h : b.length = n) : fit n b = b := by
  simp [fit, List.take_append_of_le_length, h]

theorem fit_fit (n : Nat) (b : Bytes) : fit n (fit n b) = fit n b :=
  fit_of_length n _ (fit_length n b)

theorem int64_to_bytes_length (i : Int) : (int64_to_bytes i).length = 8 :=
  natLE_length 8 _

theorem bytes_to_int64_to_bytes (i : Int) : bytes_to_int64 (int64_to_bytes i) = wrap64 i := by
  unfold bytes_to_int64
  rw [fit_of_length 8 _ (int64_to_bytes_length i)]
  unfold int64_to_bytes
  rw [leNat_natLE]
  unfold wrap64
  have h : (0 : Int) ≤ i % 2 ^ 64 := Int.emod_nonneg _ (by norm_num)
  have h2 : i % 2 ^ 64 < 2 ^ 64 := Int.emod_lt_of_pos _ (by norm_num)
  have h3 : ((i % 2 ^ 64).toNat : Int) = i % 2 ^ 64 := Int.toNat_of_nonneg h
  have h4 : (i % 2 ^ 64).toNat % 256 ^ 8 = (i % 2 ^ 64).toNat := by
    apply Nat.mod_eq_of_lt
    have : ((i % 2 ^ 64).toNat : Int) < 2 ^ 64 := by rw [h3]; exact h2
    have h5 : (256 : Nat) ^ 8 = 2 ^ 64 := by norm_num
    rw [h5]
    exact_mod_cast this
  rw [h4, h3]
  omega

theorem state_set_same (st : Ledger) (v k : Bytes) : state_set st v k k = some v := by
  simp [state_set]

theorem state_set_other (st : Ledger) (v k k' : Bytes) (h : k' ≠ k) :
    state_set st v k k' = st k' := by
  simp [state_set, h]

theorem balance_key_length (a : Bytes) : (balance_key a).length = 21 := by
  simp [balance_key, fit_length]

theorem nonce_key_length (n : Bytes) : (nonce_key n).length = 17 := by
  simp [nonce_key, fit_length]

theorem balance_key_inj (a b : Bytes) (h : balance_key a = balance_key b) : fit 20 a = fit 20 b := by
  simpa [balance_key] using h

/-- The balance read depends only on the entry under the balance key. -/
theorem read_balance_congr (st st' : Ledger) (a : Bytes)
    (h : st' (balance_key a) = st (balance_key a)) : read_balance st' a = read_balance st a := by
  simp [read_balance, state_get, state, h]

/-- After a write of an 8-byte integer under the balance key, the balance read gives it back. -/
theorem read_balance_set (st : Ledger) (a : Bytes) (i : Int) :
    read_balance (state_set st (int64_to_bytes i) (balance_key a)) a = wrap64 i := by
  have h8 : List.take 8 (int64_to_bytes i) = int64_to_bytes i :=
    List.take_of_length_le (by rw [int64_to_bytes_length])
  have h0 : List.drop 8 (int64_to_bytes 0) = [] :=
    List.drop_of_length_le (by rw [int64_to_bytes_length])
  simp [read_balance, state_get, state, state_set, int64_to_bytes_length, bytes_to_int64_to_bytes,
    h8, h0]

/-- Case analysis on a conditional, for a property of its value. -/
theorem ite_pred {α : Type} (P : α → Prop) (c : Prop) [Decidable c] (a b : α)
    (ha : c → P a) (hb : ¬c → P b) : P (if c then a else b) := by
  split
  · exact ha ‹_›
  · exact hb ‹_›

/-- C4: for each of the four handlers of xapay_hock.c, on every host, input and ledger:
an invocation that ends in a rollback leaves the ledger exactly as it was, because
no store write precedes a check that can still fail. -/
theorem reject_leaves_ledger_unchanged (i : Invocation) (st : Ledger) (c : Int)
    (h : (step i st).1 = Exit.rollback c) : (step i st).2 = st := by
  revert h
  cases i with
  | charge H =>
    simp only [step, handle_charge]
    repeat (
      refine ite_pred (fun r : Exit × Ledger => r.1 = Exit.rollback c → r.2 = st) _ _ _
        (fun _ _ => rfl) (fun _ => ?_))
    intro h
    exact absurd h (by simp)
  | payment H m =>
    simp only [step, handle_payment]
    repeat (
      refine ite_pred (fun r : Exit × Ledger => r.1 = Exit.rollback c → r.2 = st) _ _ _
        (fun _ _ => rfl) (fun _ => ?_))
    intro h
    exact absurd h (by simp)
  | allowance_payment H d n =>
    simp only [step, handle_allowance_payment]
    repeat (
      refine ite_pred (fun r : Exit × Ledger => r.1 = Exit.rollback c → r.2 = st) _ _ _
        (fun _ _ => rfl) (fun _ => ?_))
    intro h
    exact absurd h (by simp)
  | recharge H =>
    simp only [step, handle_recharge_and_update_allowance]
    repeat (
      refine ite_pred (fun r : Exit × Ledger => r.1 = Exit.rollback c → r.2 = st) _ _ _
        (fun _ _ => rfl) (fun _ => ?_))
    intro h
    exact absurd h (by simp)

theorem BUFFER_EQUAL_fit (a b : Bytes) (hb : b.length = 20) :
    BUFFER_EQUAL (fit 20 a) b 20 = decide (fit 20 a = b) := by
  have ha : (fit 20 a).take 20 = fit 20 a := List.take_of_length_le (by rw [fit_length])
  have hb2 : b.take 20 = b := List.take_of_length_le (by rw [hb])
  simp [BUFFER_EQUAL, ha, hb2]

theorem state_get_nonneg_iff (st : Ledger) (buf k : Bytes) :
    (state_get st buf k).1 ≥ 0 ↔ (st k).isSome = true := by
  unfold state_get state
  cases h : st k with
  | none => simp [DOESNT_EXIST]
  | some v => simp

theorem COPY_of_length (b : Bytes) (k : Int) (h : b.length ≤ k.toNat) : COPY b k = b := by
  unfold COPY
  exact List.take_of_length_le h

/-- C5: on every host, memo and ledger, the outcome of handle_payment (in xapay_hock.c
and in Hocks/payment.c) is the one decided by the five checks taken in order
(operator 30, credential 31, signature over the nonce 32, nonce marker 33,
balance 34): the reject code of the first failing check, and a commit exactly
when none of the five fails. -/
theorem payment_checks_in_order (H : Host) (m : PaymentMemo) (st : Ledger) :
    (handle_payment H m st).1 = outcome_of (payment_checks H m st)
    ∧ (Hocks.handle_payment H m st).1 = outcome_of (payment_checks H m st)
    ∧ ((∃ c, (handle_payment H m st).1 = Exit.accept c)
        ↔ first_failure (payment_checks H m st) = none) := by
  have hop : OPERATOR_ACCID.length = 20 := by decide
  have h1 : BUFFER_EQUAL (payment_locals H m).source_accid OPERATOR_ACCID 20
      = decide ((payment_locals H m).source_accid = OPERATOR_ACCID) := by
    simp only [payment_locals]
    exact BUFFER_EQUAL_fit _ _ hop
  have h3 : (payment_locals H m).verified
      = H.util_verify (payment_locals H m).nonce 16 (payment_locals H m).signature 72
          (payment_locals H m).pubkey 33 := by
    simp only [payment_locals]
    rw [COPY_of_length _ 16 (by rw [fit_length]; decide)]
  have h4 : nonce_key (payment_locals H m).nonce = nonce_key m.nonce := by
    simp only [payment_locals, nonce_key, fit_fit]
  have h5 : read_balance st (payment_locals H m).user_accid = read_balance st m.user_accid := by
    simp only [payment_locals, read_balance, balance_key, fit_fit]
  have key : (handle_payment H m st).1 = outcome_of (payment_checks H m st) := by
    simp only [handle_payment, payment_checks, outcome_of, first_failure, h1, h3, h4, h5,
      state_get_nonneg_iff]
    by_cases c1 : (payment_locals H m).source_accid = OPERATOR_ACCID
    · by_cases c2 : (payment_locals H m).pubkey_len < 0
      · simp [c1, c2]
      · by_cases c3 : H.util_verify (payment_locals H m).nonce 16 (payment_locals H m).signature 72
            (payment_locals H m).pubkey 33 = 1
        · by_cases c4 : (st (nonce_key m.nonce)).isSome = true
          · simp [c1, c2, c3, c4]
          · by_cases c5 : read_balance st m.user_accid < (payment_locals H m).amount
            · simp [c1, c2, c3, c4, c5]
            · simp [c1, c2, c3, c4, c5]
        · simp [c1, c2, c3]
    · simp [c1]
  refine ⟨key, key, ?_⟩
  rw [key]
  unfold outcome_of
  cases first_failure (payment_checks H m st) with
  | none => simp
  | some code => simp

theorem float_compare_greater (a b : Int) :
    float_compare a b COMPARE_GREATER = 1 ↔ b < a := by
  have t0 : Nat.testBit COMPARE_GREATER 0 = false := by decide
  have t1 : Nat.testBit COMPARE_GREATER 1 = false := by decide
  have t2 : Nat.testBit COMPARE_GREATER 2 = true := by decide
  unfold float_compare
  rw [t0, t1, t2]
  by_cases h : b < a <;> simp [h]

/-- A chain `if failed then rollback else rest` can only commit through `rest`. -/
theorem accept_of_ite (st : Ledger) (cnd : Prop) [Decidable cnd] (k : Int) (r : Exit × Ledger)
    (c : Int) (st' : Ledger) (Q : Prop) (hr : ¬cnd → r = (Exit.accept c, st') → Q) :
    (if cnd then (Exit.rollback k, st) else r) = (Exit.accept c, st') → Q := by
  split
  · intro h
    simp at h
  · exact hr ‹_›

theorem handle_charge_accept (H : Host) (st : Ledger) (c : Int) (st' : Ledger)
    (h : handle_charge H st = (Exit.accept c, st')) :
    0 < (charge_locals H).amount_val ∧ c = 0 ∧
    st' = state_set st
      (int64_to_bytes (wrap64 (read_balance st (charge_locals H).source_accid
        + (charge_locals H).amount_val)))
      (balance_key (charge_locals H).source_accid) := by
  revert h
  simp only [handle_charge]
  refine accept_of_ite st _ _ _ c st' _ (fun _ => ?_)
  refine accept_of_ite st _ _ _ c st' _ (fun _ => ?_)
  refine accept_of_ite st _ _ _ c st' _ (fun _ => ?_)
  refine accept_of_ite st _ _ _ c st' _ (fun _ => ?_)
  refine accept_of_ite st _ _ _ c st' _ (fun _ => ?_)
  refine accept_of_ite st _ _ _ c st' _ (fun h6 => ?_)
  intro h
  simp only [Prod.mk.injEq, Exit.accept.injEq] at h
  exact ⟨not_le.mp h6, h.1.symm, h.2.symm⟩

theorem handle_payment_accept (H : Host) (m : PaymentMemo) (st : Ledger) (c : Int) (st' : Ledger)
    (h : handle_payment H m st = (Exit.accept c, st')) :
    st (nonce_key (payment_locals H m).nonce) = none ∧
    (payment_locals H m).amount ≤ read_balance st (payment_locals H m).user_accid ∧ c = 0 ∧
    st' = state_set
      (state_set st
        (int64_to_bytes (wrap64 (read_balance st (payment_locals H m).user_accid
          - (payment_locals H m).amount)))
        (balance_key (payment_locals H m).user_accid))
      [1] (nonce_key (payment_locals H m).nonce) := by
  revert h
  simp only [handle_payment]
  refine accept_of_ite st _ _ _ c st' _ (fun _ => ?_)
  refine accept_of_ite st _ _ _ c st' _ (fun _ => ?_)
  refine accept_of_ite st _ _ _ c st' _ (fun _ => ?_)
  refine accept_of_ite st _ _ _ c st' _ (fun h4 => ?_)
  refine accept_of_ite st _ _ _ c st' _ (fun h5 => ?_)
  intro h
  simp only [Prod.mk.injEq, Exit.accept.injEq] at h
  refine ⟨?_, not_lt.mp h5, h.1.symm, h.2.symm⟩
  rw [state_get_nonneg_iff] at h4
  simpa using h4

theorem handle_allowance_payment_accept (H : Host) (d : Bytes) (n : Int) (st : Ledger) (c : Int)
    (st' : Ledger) (h : handle_allowance_payment H d n st = (Exit.accept c, st')) :
    float_sum H (read_spent st (allowance_locals H d n).state_key)
        (allowance_locals H d n).payment_amount_xfl ≤ (allowance_locals H d n).allowance_amount_xfl ∧
    (allowance_locals H d n).payment_amount_xfl ≤ read_balance st (allowance_locals H d n).user_accid ∧
    c = 0 ∧
    st' = state_set
      (state_set st
        (int64_to_bytes (wrap64 (read_balance st (allowance_locals H d n).user_accid
          - (allowance_locals H d n).payment_amount_xfl)))
        (balance_key (allowance_locals H d n).user_accid))
      (float_sto_set (float_sum H (read_spent st (allowance_locals H d n).state_key)
        (allowance_locals H d n).payment_amount_xfl))
      (allowance_locals H d n).state_key := by
  revert h
  simp only [handle_allowance_payment]
  refine accept_of_ite st _ _ _ c st' _ (fun _ => ?_)
  refine accept_of_ite st _ _ _ c st' _ (fun _ => ?_)
  refine accept_of_ite st _ _ _ c st' _ (fun _ => ?_)
  refine accept_of_ite st _ _ _ c st' _ (fun _ => ?_)
  refine accept_of_ite st _ _ _ c st' _ (fun _ => ?_)
  refine accept_of_ite st _ _ _ c st' _ (fun _ => ?_)
  refine accept_of_ite st _ _ _ c st' _ (fun _ => ?_)
  refine accept_of_ite st _ _ _ c st' _ (fun h8 => ?_)
  refine accept_of_ite st _ _ _ c st' _ (fun h9 => ?_)
  intro h
  simp only [Prod.mk.injEq, Exit.accept.injEq, SUCCESS] at h
  rw [float_compare_greater] at h8
  exact ⟨not_lt.mp h8, not_lt.mp h9, h.1.symm, h.2.symm⟩

theorem handle_recharge_accept (H : Host) (st : Ledger) (c : Int) (st' : Ledger)
    (h : handle_recharge_and_update_allowance H st = (Exit.accept c, st')) :
    0 < (recharge_locals H).charge_amount ∧ 0 < (recharge_locals H).new_allowance_len ∧
    0 < (recharge_locals H).signature_hex_len ∧ c = 0 ∧
    st' = state_set
      (state_set
        (state_set st
          (int64_to_bytes (wrap64 (read_balance st (recharge_locals H).user_accid
            + (recharge_locals H).charge_amount)))
          (balance_key (recharge_locals H).user_accid))
        (COPY (recharge_locals H).new_allowance_str (recharge_locals H).new_allowance_len)
        (recharge_locals H).allowance_key)
      (COPY (recharge_locals H).signature_hex (recharge_locals H).signature_hex_len)
      ((recharge_locals H).allowance_key ++ fit 20 H.stack_after_allowance_key) := by
  revert h
  simp only [handle_recharge_and_update_allowance]
  refine accept_of_ite st _ _ _ c st' _ (fun _ => ?_)
  refine accept_of_ite st _ _ _ c st' _ (fun _ => ?_)
  refine accept_of_ite st _ _ _ c st' _ (fun _ => ?_)
  refine accept_of_ite st _ _ _ c st' _ (fun _ => ?_)
  refine accept_of_ite st _ _ _ c st' _ (fun _ => ?_)
  refine accept_of_ite st _ _ _ c st' _ (fun h6 => ?_)
  refine accept_of_ite st _ _ _ c st' _ (fun _ => ?_)
  refine accept_of_ite st _ _ _ c st' _ (fun h8 => ?_)
  refine accept_of_ite st _ _ _ c st' _ (fun h9 => ?_)
  refine accept_of_ite st _ _ _ c st' _ (fun _ => ?_)
  intro h
  simp only [Prod.mk.injEq, Exit.accept.injEq, SUCCESS] at h
  exact ⟨not_le.mp h6, not_le.mp h8, not_le.mp h9, h.1.symm, h.2.symm⟩

/-! ## Balance reads after writes -/

theorem read_balance_set_other (st : Ledger) (a v k : Bytes) (h : balance_key a ≠ k) :
    read_balance (state_set st v k) a = read_balance st a :=
  read_balance_congr _ _ _ (state_set_other st v k _ h)

theorem read_balance_set_key (st : Ledger) (a k : Bytes) (i : Int) (h : balance_key a = k) :
    read_balance (state_set st (int64_to_bytes i) k) a = wrap64 i := by
  subst h
  exact read_balance_set st a i

theorem balance_key_ne_nonce_key (a n : Bytes) : balance_key a ≠ nonce_key n := by
  intro h
  have := congrArg List.length h
  rw [balance_key_length, nonce_key_length] at this
  omega

theorem balance_key_ne_allowance_key (a u t : Bytes) (k : Int) :
    balance_key a ≠ (PREFIX_ALLOWANCE :: COPY u k) ++ t := by
  intro h
  have h0 : PREFIX_USER_BALANCE = PREFIX_ALLOWANCE := by
    simpa [balance_key] using congrArg List.head? h
  exact absurd h0 (by decide)

/-- The balance written by a committed update that does not wrap is the exact sum. -/
theorem updated_balance_nonneg (b d : Int) (hb : 0 ≤ b + d) (hfit : b + d ≤ INT64_MAX) :
    0 ≤ wrap64 (b + d) := by
  rw [wrap64_of_range _ (by unfold INT64_MIN; omega) hfit]
  exact hb

/-- C1 (amended): from every ledger in which every stored balance is non-negative, every
committed invocation of one of the four handlers of xapay_hock.c whose 64-bit
balance update does not wrap around (the new balance is at most 2^63 - 1) and,
for handle_allowance_payment, whose spent key is not a balance key, yields a
ledger in which every stored balance is non-negative. -/
theorem balances_stay_nonneg (i : Invocation) (st : Ledger) (c : Int) (st' : Ledger)
    (hinv : balances_nonneg st) (hstep : step i st = (Exit.accept c, st'))
    (hfit : no_wrap i st) (hkey : spent_key_apart i) : balances_nonneg st' := by
  intro a
  simp only [no_wrap] at hfit
  cases i with
  | charge H =>
    obtain ⟨hpos, -, hst⟩ := handle_charge_accept H st c st' hstep
    subst hst
    by_cases hk : balance_key a = balance_key (charge_locals H).source_accid
    · rw [read_balance_set_key _ _ _ _ hk, wrap64_idem]
      have h0 := hinv (charge_locals H).source_accid
      simp only [Invocation.account, Invocation.delta] at hfit
      have h1 : 0 ≤ read_balance st (charge_locals H).source_accid + (charge_locals H).amount_val := by
        omega
      exact updated_balance_nonneg _ _ h1 hfit
    · rw [read_balance_set_other _ _ _ _ hk]
      exact hinv a
  | payment H m =>
    obtain ⟨-, hle, -, hst⟩ := handle_payment_accept H m st c st' hstep
    subst hst
    rw [read_balance_set_other _ _ _ _ (balance_key_ne_nonce_key _ _)]
    by_cases hk : balance_key a = balance_key (payment_locals H m).user_accid
    · rw [read_balance_set_key _ _ _ _ hk, wrap64_idem, sub_eq_add_neg]
      simp only [Invocation.account, Invocation.delta] at hfit
      have h1 : 0 ≤ read_balance st (payment_locals H m).user_accid + -(payment_locals H m).amount := by
        omega
      exact updated_balance_nonneg _ _ h1 hfit
    · rw [read_balance_set_other _ _ _ _ hk]
      exact hinv a
  | allowance_payment H d n =>
    obtain ⟨-, hle, -, hst⟩ := handle_allowance_payment_accept H d n st c st' hstep
    subst hst
    rw [read_balance_set_other _ _ _ _ (fun h => hkey a h.symm)]
    by_cases hk : balance_key a = balance_key (allowance_locals H d n).user_accid
    · rw [read_balance_set_key _ _ _ _ hk, wrap64_idem, sub_eq_add_neg]
      simp only [Invocation.account, Invocation.delta] at hfit
      have h1 : 0 ≤ read_balance st (allowance_locals H d n).user_accid
          + -(allowance_locals H d n).payment_amount_xfl := by
        omega
      exact updated_balance_nonneg _ _ h1 hfit
    · rw [read_balance_set_other _ _ _ _ hk]
      exact hinv a
  | recharge H =>
    obtain ⟨hpos, -, -, -, hst⟩ := handle_recharge_accept H st c st' hstep
    subst hst
    have hA : (recharge_locals H).allowance_key
        = PREFIX_ALLOWANCE :: COPY (recharge_locals H).user_accid 20 := rfl
    rw [hA, read_balance_set_other _ _ _ _ (balance_key_ne_allowance_key _ _ _ _)]
    have h2 := balance_key_ne_allowance_key a (recharge_locals H).user_accid [] 20
    rw [List.append_nil] at h2
    rw [read_balance_set_other _ _ _ _ h2]
    by_cases hk : balance_key a = balance_key (recharge_locals H).user_accid
    · rw [read_balance_set_key _ _ _ _ hk, wrap64_idem]
      have h0 := hinv (recharge_locals H).user_accid
      simp only [Invocation.account, Invocation.delta] at hfit
      have h1 : 0 ≤ read_balance st (recharge_locals H).user_accid + (recharge_locals H).charge_amount := by
        omega
      exact updated_balance_nonneg _ _ h1 hfit
    · rw [read_balance_set_other _ _ _ _ hk]
      exact hinv a

/-! ## Concrete ledgers -/

theorem read_balance_empty (a : Bytes) : read_balance empty_ledger a = 0 := by
  have h : wrap64 0 = 0 := by decide
  simp [read_balance, state_get, state, empty_ledger, bytes_to_int64_to_bytes, h]

theorem balances_nonneg_ledger_with (a : Bytes) (b : Int) (h0 : 0 ≤ b) (h1 : b ≤ INT64_MAX) :
    balances_nonneg (ledger_with a b) := by
  intro x
  unfold ledger_with
  by_cases hk : balance_key x = balance_key a
  · rw [read_balance_set_key _ _ _ _ hk, wrap64_of_range _ (by unfold INT64_MIN; omega) h1]
    exact h0
  · rw [read_balance_set_other _ _ _ _ hk, read_balance_empty]

/-- C1 (witness): a deposit of 100 on the empty ledger. -/
theorem balances_stay_nonneg_witness :
    balances_nonneg
      (step (Invocation.charge (deposit_host ALICE ISSUER_ACCID CURRENCY_JPY 100)) empty_ledger).2 :=
  balances_stay_nonneg (Invocation.charge (deposit_host ALICE ISSUER_ACCID CURRENCY_JPY 100))
    empty_ledger 0 _ (fun a => le_of_eq (read_balance_empty a).symm)
    (Prod.ext (by decide) rfl) (by unfold no_wrap; decide) trivial

/-- C1 (counterexample): two committed invocations that start from a ledger with only
non-negative balances and end with a negative one.  First, a deposit of 1 to an
account that holds 2^63 - 1: the 64-bit addition wraps and the account holds -2^63.
Second, an allowance payment of -1 under the cap 0 by the account made of twenty
bytes 0x55 with the one-character signature text `U`: the spent key is the balance
key of that account, and the spent amount -1 is stored as its balance. -/
theorem balances_nonneg_counterexample :
    (balances_nonneg (ledger_with ALICE INT64_MAX)
      ∧ (step (Invocation.charge (deposit_host ALICE ISSUER_ACCID CURRENCY_JPY 1))
          (ledger_with ALICE INT64_MAX)).1 = Exit.accept 0
      ∧ read_balance (step (Invocation.charge (deposit_host ALICE ISSUER_ACCID CURRENCY_JPY 1))
          (ledger_with ALICE INT64_MAX)).2 ALICE = -9223372036854775808)
    ∧ (balances_nonneg empty_ledger
      ∧ (step (Invocation.allowance_payment
            (allowance_host ALICE_RADDR ULYSSES [0x2D, 0x31] [0x30] [0x55]) [] 0) empty_ledger).1
          = Exit.accept 0
      ∧ read_balance (step (Invocation.allowance_payment
            (allowance_host ALICE_RADDR ULYSSES [0x2D, 0x31] [0x30] [0x55]) [] 0) empty_ledger).2
          ULYSSES = -1) := by
  refine ⟨⟨balances_nonneg_ledger_with _ _ (by decide) (le_refl _), by decide, by decide⟩,
    ⟨fun a => le_of_eq (read_balance_empty a).symm, by decide, by decide⟩⟩

/-- C4 (witness): a deposit of a foreign currency is rolled back and the ledger is as before. -/
theorem reject_leaves_ledger_unchanged_witness :
    (step (Invocation.charge (deposit_host ALICE ISSUER_ACCID CURRENCY_USD 100))
        (ledger_with ALICE 7)).1 = Exit.rollback 13
    ∧ (step (Invocation.charge (deposit_host ALICE ISSUER_ACCID CURRENCY_USD 100))
        (ledger_with ALICE 7)).2 = ledger_with ALICE 7 :=
  ⟨by decide, reject_leaves_ledger_unchanged _ _ 13 (by decide)⟩

/-! ## Deposits of a foreign asset -/

theorem mismatch_of_ne (L : ChargeLocals) (hi : L.issuer_buffer.length = 20)
    (hc : L.currency_buffer.length = 20)
    (hdiff : L.issuer_buffer ≠ ISSUER_ACCID ∨ L.currency_buffer ≠ CURRENCY_JPY) :
    (!BUFFER_EQUAL L.issuer_buffer ISSUER_ACCID 20 || !BUFFER_EQUAL L.currency_buffer CURRENCY_JPY 20)
      = true := by
  have e1 : BUFFER_EQUAL L.issuer_buffer ISSUER_ACCID 20 = decide (L.issuer_buffer = ISSUER_ACCID) := by
    have := BUFFER_EQUAL_fit L.issuer_buffer ISSUER_ACCID (by decide)
    rwa [fit_of_length 20 _ hi] at this
  have e2 : BUFFER_EQUAL L.currency_buffer CURRENCY_JPY 20
      = decide (L.currency_buffer = CURRENCY_JPY) := by
    have := BUFFER_EQUAL_fit L.currency_buffer CURRENCY_JPY (by decide)
    rwa [fit_of_length 20 _ hc] at this
  rw [e1, e2]
  rcases hdiff with h | h
  · simp [h]
  · simp [h]

/-- C10 (amended): for every deposit handled by handle_charge of xapay_hock.c, and by
the identical handle_charge of Hocks/payment.c, whose amount, issuer and currency
fields are present and whose issuer or currency differs from the configured
identity: the ledger, so every balance, is left unchanged, and the invocation
ends in a rollback with code 13 (it is rejected, not accepted). -/
theorem foreign_deposit_rolled_back (H : Host) (st : Ledger)
    (hlen : 0 ≤ (charge_locals H).amount_len) (hiss : 0 ≤ (charge_locals H).issuer_len)
    (hcur : 0 ≤ (charge_locals H).currency_len)
    (hdiff : (charge_locals H).issuer_buffer ≠ ISSUER_ACCID
      ∨ (charge_locals H).currency_buffer ≠ CURRENCY_JPY) :
    handle_charge H st = (Exit.rollback 13, st)
    ∧ Hocks.handle_charge H st = (Exit.rollback 13, st) := by
  have h4 := mismatch_of_ne (charge_locals H) (by simp [charge_locals, fit_length])
    (by simp [charge_locals, fit_length]) hdiff
  have key : handle_charge H st = (Exit.rollback 13, st) := by
    simp only [handle_charge]
    rw [if_neg (not_lt.mpr hlen), if_neg (not_lt.mpr hiss), if_neg (not_lt.mpr hcur), if_pos h4]
  exact ⟨key, key⟩

/-- C10 (witness): a deposit of 100 in the currency `USD` of the configured issuer. -/
theorem foreign_deposit_rolled_back_witness :
    handle_charge (deposit_host ALICE ISSUER_ACCID CURRENCY_USD 100) (ledger_with ALICE 7)
      = (Exit.rollback 13, ledger_with ALICE 7)
    ∧ Hocks.handle_charge (deposit_host ALICE ISSUER_ACCID CURRENCY_USD 100) (ledger_with ALICE 7)
      = (Exit.rollback 13, ledger_with ALICE 7) :=
  foreign_deposit_rolled_back (deposit_host ALICE ISSUER_ACCID CURRENCY_USD 100) (ledger_with ALICE 7)
    (by decide) (by decide) (by decide) (Or.inr (by decide))

/-- C10 (counterexample): a deposit of 100 of a foreign currency (`USD`), and one of a
foreign issuer, do not end with an accept: both handlers roll back with code 13. -/
theorem foreign_deposit_counterexample :
    (handle_charge (deposit_host ALICE ISSUER_ACCID CURRENCY_USD 100) empty_ledger).1
      = Exit.rollback 13
    ∧ (Hocks.handle_charge (deposit_host ALICE ISSUER_ACCID CURRENCY_USD 100) empty_ledger).1
      = Exit.rollback 13
    ∧ (handle_charge (deposit_host ALICE OPERATOR_ACCID CURRENCY_JPY 100) empty_ledger).1
      = Exit.rollback 13 := by
  decide

/-! ## Entries are never removed -/

theorem state_set_isSome (st : Ledger) (v k k' : Bytes) (h : (st k').isSome = true) :
    (state_set st v k k').isSome = true := by
  unfold state_set
  split
  · rfl
  · exact h

theorem step_keeps_entries (i : Invocation) (st : Ledger) (k : Bytes)
    (h : (st k).isSome = true) : ((step i st).2 k).isSome = true := by
  cases i with
  | charge H =>
    simp only [step, handle_charge]
    repeat (
      refine ite_pred (fun r : Exit × Ledger => (r.2 k).isSome = true) _ _ _ (fun _ => h) (fun _ => ?_))
    exact state_set_isSome _ _ _ _ h
  | payment H m =>
    simp only [step, handle_payment]
    repeat (
      refine ite_pred (fun r : Exit × Ledger => (r.2 k).isSome = true) _ _ _ (fun _ => h) (fun _ => ?_))
    exact state_set_isSome _ _ _ _ (state_set_isSome _ _ _ _ h)
  | allowance_payment H d n =>
    simp only [step, handle_allowance_payment]
    repeat (
      refine ite_pred (fun r : Exit × Ledger => (r.2 k).isSome = true) _ _ _ (fun _ => h) (fun _ => ?_))
    exact state_set_isSome _ _ _ _ (state_set_isSome _ _ _ _ h)
  | recharge H =>
    simp only [step, handle_recharge_and_update_allowance]
    repeat (
      refine ite_pred (fun r : Exit × Ledger => (r.2 k).isSome = true) _ _ _ (fun _ => h) (fun _ => ?_))
    exact state_set_isSome _ _ _ _ (state_set_isSome _ _ _ _ (state_set_isSome _ _ _ _ h))

theorem commit_keeps_entries (i : Invocation) (st : Ledger) (k : Bytes)
    (h : (st k).isSome = true) : (commit st (step i st) k).isSome = true := by
  unfold commit
  cases (step i st).1 with
  | accept code => exact step_keeps_entries i st k h
  | rollback code => exact h

theorem run_keeps_entries (is : List Invocation) (st : Ledger) (k : Bytes)
    (h : (st k).isSome = true) : (run is st k).isSome = true := by
  induction is generalizing st with
  | nil => exact h
  | cons i rest ih =>
    simp only [run, List.foldl_cons]
    exact ih _ (commit_keeps_entries i st k h)

/-- A Direct Payment whose nonce marker is present is rolled back without any write. -/
theorem payment_rejected_of_marker (H : Host) (m : PaymentMemo) (st : Ledger)
    (hm : (st (nonce_key (payment_locals H m).nonce)).isSome = true) :
    (∃ code, (handle_payment H m st).1 = Exit.rollback code) ∧ (handle_payment H m st).2 = st := by
  simp only [handle_payment]
  refine ite_pred (fun r : Exit × Ledger => (∃ code, r.1 = Exit.rollback code) ∧ r.2 = st) _ _ _
    (fun _ => ⟨⟨30, rfl⟩, rfl⟩) (fun _ => ?_)
  refine ite_pred (fun r : Exit × Ledger => (∃ code, r.1 = Exit.rollback code) ∧ r.2 = st) _ _ _
    (fun _ => ⟨⟨31, rfl⟩, rfl⟩) (fun _ => ?_)
  refine ite_pred (fun r : Exit × Ledger => (∃ code, r.1 = Exit.rollback code) ∧ r.2 = st) _ _ _
    (fun _ => ⟨⟨32, rfl⟩, rfl⟩) (fun _ => ?_)
  refine ite_pred (fun r : Exit × Ledger => (∃ code, r.1 = Exit.rollback code) ∧ r.2 = st) _ _ _
    (fun _ => ⟨⟨33, rfl⟩, rfl⟩) (fun h4 => ?_)
  exact absurd ((state_get_nonneg_iff st [] _).mpr hm) h4

/-- C3: on every ledger and for every nonce N, after a committed handle_payment with
nonce N and any further sequence of invocations of the four handlers, every
handle_payment invocation that carries the same 16-byte nonce, whatever its host
(so whatever the validity of its signature), payer and amount, ends in a rollback
and leaves the ledger, so every balance, unchanged; the same holds for the identical
handle_payment of Hocks/payment.c. -/
theorem replay_rejected (H : Host) (m : PaymentMemo) (st : Ledger) (c : Int) (st1 : Ledger)
    (h : handle_payment H m st = (Exit.accept c, st1))
    (is : List Invocation) (H2 : Host) (m2 : PaymentMemo) (hn : fit 16 m2.nonce = fit 16 m.nonce) :
    ((∃ code, (handle_payment H2 m2 (run is st1)).1 = Exit.rollback code)
      ∧ (handle_payment H2 m2 (run is st1)).2 = run is st1
      ∧ ∀ a, read_balance (handle_payment H2 m2 (run is st1)).2 a = read_balance (run is st1) a)
    ∧ ((∃ code, (Hocks.handle_payment H2 m2 (run is st1)).1 = Exit.rollback code)
      ∧ (Hocks.handle_payment H2 m2 (run is st1)).2 = run is st1
      ∧ ∀ a, read_balance (Hocks.handle_payment H2 m2 (run is st1)).2 a
          = read_balance (run is st1) a) := by
  obtain ⟨-, -, -, hst⟩ := handle_payment_accept H m st c st1 h
  have hmark : (st1 (nonce_key (payment_locals H2 m2).nonce)).isSome = true := by
    have e : (payment_locals H2 m2).nonce = (payment_locals H m).nonce := hn
    rw [e, hst, state_set_same]
    rfl
  have hrun := run_keeps_entries is st1 _ hmark
  obtain ⟨hcode, hsame⟩ := payment_rejected_of_marker H2 m2 (run is st1) hrun
  have key : (∃ code, (handle_payment H2 m2 (run is st1)).1 = Exit.rollback code)
      ∧ (handle_payment H2 m2 (run is st1)).2 = run is st1
      ∧ ∀ a, read_balance (handle_payment H2 m2 (run is st1)).2 a = read_balance (run is st1) a :=
    ⟨hcode, hsame, fun a => by rw [hsame]⟩
  exact ⟨key, key⟩

/-- C3 (witness): scenario 2 of the specification: the account holds 100, a payment
of 40 under a nonce commits, a deposit follows, and the identical payment is replayed. -/
theorem replay_rejected_witness :
    handle_payment (operator_host 1) (payment_memo ALICE 40 NONCE_1) (ledger_with ALICE 100)
      = (Exit.accept 0,
          (handle_payment (operator_host 1) (payment_memo ALICE 40 NONCE_1) (ledger_with ALICE 100)).2)
    ∧ (handle_payment (operator_host 1) (payment_memo ALICE 40 NONCE_1)
        (run [Invocation.charge (deposit_host ALICE ISSUER_ACCID CURRENCY_JPY 5)]
          (handle_payment (operator_host 1) (payment_memo ALICE 40 NONCE_1)
            (ledger_with ALICE 100)).2)).2
      = run [Invocation.charge (deposit_host ALICE ISSUER_ACCID CURRENCY_JPY 5)]
          (handle_payment (operator_host 1) (payment_memo ALICE 40 NONCE_1) (ledger_with ALICE 100)).2 :=
  ⟨Prod.ext (by decide) rfl,
    (replay_rejected (operator_host 1) (payment_memo ALICE 40 NONCE_1) (ledger_with ALICE 100) 0 _
      (Prod.ext (by decide) rfl) [Invocation.charge (deposit_host ALICE ISSUER_ACCID CURRENCY_JPY 5)]
      (operator_host 1) (payment_memo ALICE 40 NONCE_1) rfl).1.2.1⟩

/-! ## The frame of an invocation -/

theorem float_sum_range (H : Host) (a b : Int) :
    INT64_MIN ≤ float_sum H a b ∧ float_sum H a b ≤ INT64_MAX := by
  unfold float_sum
  split
  · assumption
  · exact wrap64_range _

theorem float_sum_exact (H : Host) (a b : Int) (h1 : INT64_MIN ≤ a + b) (h2 : a + b ≤ INT64_MAX) :
    float_sum H a b = a + b := by
  unfold float_sum
  rw [if_pos ⟨h1, h2⟩]

theorem read_spent_set (st : Ledger) (k : Bytes) (x : Int) :
    read_spent (state_set st (float_sto_set x) k) k = wrap64 x := by
  have h8 : List.take 8 (int64_to_bytes x) = int64_to_bytes x :=
    List.take_of_length_le (by rw [int64_to_bytes_length])
  have h0 : List.drop 8 (fit 8 ([] : Bytes)) = [] :=
    List.drop_of_length_le (by rw [fit_length])
  simp [read_spent, state, state_set, float_sto_set, float_sto_to_int64, int64_to_bytes_length,
    fit_length, bytes_to_int64_to_bytes, h8, h0]

/-- The spent amount stored by a committed allowance payment is the new spent amount. -/
theorem committed_spent (H : Host) (d : Bytes) (n : Int) (st : Ledger) (c : Int) (st' : Ledger)
    (h : handle_allowance_payment H d n st = (Exit.accept c, st')) :
    read_spent st' (allowance_locals H d n).state_key
      = float_sum H (read_spent st (allowance_locals H d n).state_key)
          (allowance_locals H d n).payment_amount_xfl := by
  obtain ⟨-, -, -, hst⟩ := handle_allowance_payment_accept H d n st c st' h
  rw [hst, read_spent_set]
  exact wrap64_of_range _ (float_sum_range _ _ _).1 (float_sum_range _ _ _).2

theorem balance_key_ne_of_fit_ne (a b : Bytes) (h : fit 20 a ≠ fit 20 b) :
    balance_key a ≠ balance_key b :=
  fun e => h (balance_key_inj a b e)

theorem nonce_key_ne_of_fit_ne (a b : Bytes) (h : fit 16 a ≠ fit 16 b) :
    nonce_key a ≠ nonce_key b := by
  intro e
  apply h
  simpa [nonce_key] using e

/-- C6 (amended): for every committed handle_payment invocation with payer A, amount a
and nonce N in which the difference of the prior balance and a is at most 2^63 - 1
(it is so for every a >= 0): afterwards the balance of A is the prior balance
minus a, the marker of N is present, and every other entry of the store is
unchanged, in particular every other balance and every other nonce marker. -/
theorem payment_commit_effects (H : Host) (m : PaymentMemo) (st : Ledger) (c : Int) (st' : Ledger)
    (h : handle_payment H m st = (Exit.accept c, st'))
    (hfit : read_balance st (payment_locals H m).user_accid - (payment_locals H m).amount
      ≤ INT64_MAX) :
    read_balance st' (payment_locals H m).user_accid
      = read_balance st (payment_locals H m).user_accid - (payment_locals H m).amount
    ∧ (st' (nonce_key (payment_locals H m).nonce)).isSome = true
    ∧ (∀ k, k ≠ balance_key (payment_locals H m).user_accid
        → k ≠ nonce_key (payment_locals H m).nonce → st' k = st k)
    ∧ (∀ b, fit 20 b ≠ (payment_locals H m).user_accid → read_balance st' b = read_balance st b)
    ∧ (∀ n, fit 16 n ≠ (payment_locals H m).nonce → st' (nonce_key n) = st (nonce_key n)) := by
  obtain ⟨-, hle, -, hst⟩ := handle_payment_accept H m st c st' h
  have hframe : ∀ k, k ≠ balance_key (payment_locals H m).user_accid
      → k ≠ nonce_key (payment_locals H m).nonce → st' k = st k := by
    intro k h1 h2
    rw [hst, state_set_other _ _ _ _ h2, state_set_other _ _ _ _ h1]
  have hA : fit 20 (payment_locals H m).user_accid = (payment_locals H m).user_accid :=
    fit_fit 20 m.user_accid
  have hN : fit 16 (payment_locals H m).nonce = (payment_locals H m).nonce :=
    fit_fit 16 m.nonce
  refine ⟨?_, ?_, hframe, ?_, ?_⟩
  · rw [hst, read_balance_set_other _ _ _ _ (balance_key_ne_nonce_key _ _),
      read_balance_set, wrap64_idem]
    exact wrap64_of_range _ (by unfold INT64_MIN; omega) hfit
  · rw [hst, state_set_same]
    rfl
  · intro b hb
    have hk : balance_key b ≠ balance_key (payment_locals H m).user_accid :=
      balance_key_ne_of_fit_ne _ _ (by rw [hA]; exact hb)
    exact read_balance_congr _ _ _ (hframe _ hk (balance_key_ne_nonce_key _ _))
  · intro n hn
    have hk : nonce_key n ≠ nonce_key (payment_locals H m).nonce :=
      nonce_key_ne_of_fit_ne _ _ (by rw [hN]; exact hn)
    exact hframe _ (fun e => balance_key_ne_nonce_key _ _ e.symm) hk

/-- C6 (witness): scenario 2 of the specification, a payment of 40 from a balance of
100, and a payment of the amount 0, which commits as well. -/
theorem payment_commit_effects_witness :
    (handle_payment (operator_host 1) (payment_memo ALICE 40 NONCE_1) (ledger_with ALICE 100)).1
      = Exit.accept 0
    ∧ read_balance
        (handle_payment (operator_host 1) (payment_memo ALICE 40 NONCE_1) (ledger_with ALICE 100)).2
        ALICE = 60
    ∧ (handle_payment (operator_host 1) (payment_memo ALICE 0 NONCE_1) (ledger_with ALICE 100)).1
      = Exit.accept 0
    ∧ read_balance
        (handle_payment (operator_host 1) (payment_memo ALICE 0 NONCE_1) (ledger_with ALICE 100)).2
        ALICE = 100 :=
  ⟨by decide,
    (payment_commit_effects (operator_host 1) (payment_memo ALICE 40 NONCE_1) (ledger_with ALICE 100)
      0 _ (Prod.ext (by decide) rfl) (by decide)).1.trans (by decide),
    by decide,
    (payment_commit_effects (operator_host 1) (payment_memo ALICE 0 NONCE_1) (ledger_with ALICE 100)
      0 _ (Prod.ext (by decide) rfl) (by decide)).1.trans (by decide)⟩

/-- C6 (counterexample): the payer holds 2^63 - 1 and the amount is -1.  The payment
commits, and the balance afterwards is -2^63, not the prior balance minus the amount. -/
theorem payment_commit_counterexample :
    (handle_payment (operator_host 1) (payment_memo ALICE (-1) NONCE_1)
        (ledger_with ALICE INT64_MAX)).1 = Exit.accept 0
    ∧ read_balance (ledger_with ALICE INT64_MAX) ALICE = 9223372036854775807
    ∧ read_balance
        (handle_payment (operator_host 1) (payment_memo ALICE (-1) NONCE_1)
          (ledger_with ALICE INT64_MAX)).2 ALICE = -9223372036854775808
    ∧ read_balance
        (handle_payment (operator_host 1) (payment_memo ALICE (-1) NONCE_1)
          (ledger_with ALICE INT64_MAX)).2 ALICE
      ≠ read_balance (ledger_with ALICE INT64_MAX) ALICE - (-1) := by
  decide

/-! ## The effects of a committed allowance payment -/

/-- C7 (amended): for every committed handle_allowance_payment invocation of xapay_hock.c
with payer A, payment amount p and allowance key k, in which spent + p and the
prior balance minus p fit in a signed 64-bit integer and k is not the balance key
of A: the spent amount stored under k becomes spent + p, where spent is the
amount read under k before (0 when there is no record); the balance of A becomes
the prior balance minus p; every other entry of the store is unchanged. -/
theorem allowance_commit_effects (H : Host) (d : Bytes) (n : Int) (st : Ledger) (c : Int)
    (st' : Ledger) (h : handle_allowance_payment H d n st = (Exit.accept c, st'))
    (hsum : INT64_MIN ≤ read_spent st (allowance_locals H d n).state_key
        + (allowance_locals H d n).payment_amount_xfl
      ∧ read_spent st (allowance_locals H d n).state_key
        + (allowance_locals H d n).payment_amount_xfl ≤ INT64_MAX)
    (hbal : read_balance st (allowance_locals H d n).user_accid
      - (allowance_locals H d n).payment_amount_xfl ≤ INT64_MAX)
    (hk : (allowance_locals H d n).state_key ≠ balance_key (allowance_locals H d n).user_accid) :
    read_spent st' (allowance_locals H d n).state_key
      = read_spent st (allowance_locals H d n).state_key + (allowance_locals H d n).payment_amount_xfl
    ∧ read_balance st' (allowance_locals H d n).user_accid
      = read_balance st (allowance_locals H d n).user_accid
        - (allowance_locals H d n).payment_amount_xfl
    ∧ (∀ k, k ≠ (allowance_locals H d n).state_key
        → k ≠ balance_key (allowance_locals H d n).user_accid → st' k = st k) := by
  obtain ⟨-, hle, -, hst⟩ := handle_allowance_payment_accept H d n st c st' h
  refine ⟨?_, ?_, ?_⟩
  · rw [committed_spent H d n st c st' h]
    exact float_sum_exact H _ _ hsum.1 hsum.2
  · rw [hst, read_balance_set_other _ _ _ _ (fun e => hk e.symm), read_balance_set, wrap64_idem]
    exact wrap64_of_range _ (by unfold INT64_MIN; omega) hbal
  · intro k h1 h2
    rw [hst, state_set_other _ _ _ _ h1, state_set_other _ _ _ _ h2]

set_option maxRecDepth 8192 in
/-- C7 (witness): scenario 3 of the specification: cap 50, balance 50, payment 30 gives
spent 30 and balance 20. -/
theorem allowance_commit_effects_witness :
    (handle_allowance_payment scenario3_host [] 0 (ledger_with ALICE 50)).1 = Exit.accept 0
    ∧ read_spent (handle_allowance_payment scenario3_host [] 0 (ledger_with ALICE 50)).2
        (allowance_locals scenario3_host [] 0).state_key = 30
    ∧ read_balance (handle_allowance_payment scenario3_host [] 0 (ledger_with ALICE 50)).2 ALICE
        = 20 :=
  have hw := allowance_commit_effects scenario3_host [] 0 (ledger_with ALICE 50) 0 _
    (Prod.ext (by decide) rfl) (by decide) (by decide) (by decide)
  ⟨by decide, hw.1.trans (by decide), hw.2.1.trans (by decide)⟩

set_option maxRecDepth 8192 in
/-- C7 (counterexample): three committed allowance payments.  (1) The payer holds
2^63 - 1 and the payment is -1: the balance afterwards is -2^63, not the prior
balance minus the payment.  (2) The spent amount is 2^63 - 1, the cap is 2^63 - 1
and the payment is 1: the spent amount afterwards is the overflow value of the
host, not spent + 1.  (3) The payer is the account of twenty bytes 0x55 with the
one-character signature text `U`, holding 5, and the payment is 2 under the cap 9:
the allowance key is the balance key of the payer, the spent amount read is 5, and
the balance afterwards is 7, not 3. -/
theorem allowance_commit_counterexample :
    ((handle_allowance_payment (allowance_host ALICE_RADDR ALICE [0x2D, 0x31] [0x30] SIG_S) [] 0
          (ledger_with ALICE INT64_MAX)).1 = Exit.accept 0
      ∧ read_balance (ledger_with ALICE INT64_MAX) ALICE = 9223372036854775807
      ∧ read_balance
          (handle_allowance_payment (allowance_host ALICE_RADDR ALICE [0x2D, 0x31] [0x30] SIG_S) [] 0
            (ledger_with ALICE INT64_MAX)).2 ALICE = -9223372036854775808)
    ∧ ((handle_allowance_payment (allowance_host ALICE_RADDR ALICE [0x31] LITERAL_INT64_MAX SIG_S)
          [] 0 spent_out_ledger).1 = Exit.accept 0
      ∧ read_spent spent_out_ledger
          (allowance_locals (allowance_host ALICE_RADDR ALICE [0x31] LITERAL_INT64_MAX SIG_S)
            [] 0).state_key = 9223372036854775807
      ∧ read_spent
          (handle_allowance_payment (allowance_host ALICE_RADDR ALICE [0x31] LITERAL_INT64_MAX SIG_S)
            [] 0 spent_out_ledger).2
          (allowance_locals (allowance_host ALICE_RADDR ALICE [0x31] LITERAL_INT64_MAX SIG_S)
            [] 0).state_key = -30)
    ∧ ((handle_allowance_payment (allowance_host ALICE_RADDR ULYSSES [0x32] [0x39] [0x55]) [] 0
          (ledger_with ULYSSES 5)).1 = Exit.accept 0
      ∧ (allowance_locals (allowance_host ALICE_RADDR ULYSSES [0x32] [0x39] [0x55]) [] 0).state_key
          = balance_key ULYSSES
      ∧ read_balance (ledger_with ULYSSES 5) ULYSSES = 5
      ∧ read_balance
          (handle_allowance_payment (allowance_host ALICE_RADDR ULYSSES [0x32] [0x39] [0x55]) [] 0
            (ledger_with ULYSSES 5)).2 ULYSSES = 7) := by
  refine ⟨⟨by decide, by decide, by decide⟩, ⟨by decide, by decide, by decide⟩,
    ⟨by decide, by decide, by decide, by decide⟩⟩

/-! ## The key of an allowance record -/

theorem BUFFER_EQUAL_self (a : Bytes) (n : Nat) : BUFFER_EQUAL a a n = true := by
  simp [BUFFER_EQUAL]

theorem read_balance_range (st : Ledger) (a : Bytes) :
    INT64_MIN ≤ read_balance st a ∧ read_balance st a ≤ INT64_MAX :=
  wrap64_range _

theorem read_balance_none (st : Ledger) (a : Bytes) (h : st (balance_key a) = none) :
    read_balance st a = 0 := by
  have h0 : wrap64 0 = 0 := by decide
  simp [read_balance, state_get, state, h, bytes_to_int64_to_bytes, h0]

/-- A deposit that passes the six checks of `handle_charge` commits with one balance write. -/
theorem handle_charge_commits (H : Host) (st : Ledger)
    (hlen : 0 ≤ (charge_locals H).amount_len) (hiss : 0 ≤ (charge_locals H).issuer_len)
    (hcur : 0 ≤ (charge_locals H).currency_len)
    (hi : (charge_locals H).issuer_buffer = ISSUER_ACCID)
    (hc : (charge_locals H).currency_buffer = CURRENCY_JPY)
    (hp : 0 ≤ (charge_locals H).parsed) (hm : 0 < (charge_locals H).amount_val) :
    handle_charge H st = (Exit.accept 0,
      state_set st
        (int64_to_bytes (wrap64 (read_balance st (charge_locals H).source_accid
          + (charge_locals H).amount_val)))
        (balance_key (charge_locals H).source_accid)) := by
  have h4 : ¬((!BUFFER_EQUAL (charge_locals H).issuer_buffer ISSUER_ACCID 20
      || !BUFFER_EQUAL (charge_locals H).currency_buffer CURRENCY_JPY 20) = true) := by
    rw [hi, hc, BUFFER_EQUAL_self, BUFFER_EQUAL_self]
    decide
  simp only [handle_charge]
  rw [if_neg (not_lt.mpr hlen), if_neg (not_lt.mpr hiss), if_neg (not_lt.mpr hcur), if_neg h4,
    if_neg (not_lt.mpr hp), if_neg (not_le.mpr hm)]

/-- C11 (amended): for every deposit handled by handle_charge of xapay_hock.c whose
fields are present, whose issuer and currency match the configured identity and
whose amount m is > 0, from sender A, and for which the prior balance plus m is at
most 2^63 - 1: the invocation commits, the balance of A becomes the prior balance
(0 when no record exists) plus m, and that balance entry is the only entry of the
store that changes. -/
theorem deposit_credits_sender (H : Host) (st : Ledger)
    (hlen : 0 ≤ (charge_locals H).amount_len) (hiss : 0 ≤ (charge_locals H).issuer_len)
    (hcur : 0 ≤ (charge_locals H).currency_len)
    (hi : (charge_locals H).issuer_buffer = ISSUER_ACCID)
    (hc : (charge_locals H).currency_buffer = CURRENCY_JPY)
    (hp : 0 ≤ (charge_locals H).parsed) (hm : 0 < (charge_locals H).amount_val)
    (hfit : read_balance st (charge_locals H).source_accid + (charge_locals H).amount_val
      ≤ INT64_MAX) :
    (handle_charge H st).1 = Exit.accept 0
    ∧ read_balance (handle_charge H st).2 (charge_locals H).source_accid
      = read_balance st (charge_locals H).source_accid + (charge_locals H).amount_val
    ∧ (st (balance_key (charge_locals H).source_accid) = none →
        read_balance (handle_charge H st).2 (charge_locals H).source_accid
          = (charge_locals H).amount_val)
    ∧ ∀ k, k ≠ balance_key (charge_locals H).source_accid → (handle_charge H st).2 k = st k := by
  have hrun := handle_charge_commits H st hlen hiss hcur hi hc hp hm
  have hlow := (read_balance_range st (charge_locals H).source_accid).1
  have hval : read_balance (handle_charge H st).2 (charge_locals H).source_accid
      = read_balance st (charge_locals H).source_accid + (charge_locals H).amount_val := by
    rw [hrun]
    show read_balance (state_set _ _ _) _ = _
    rw [read_balance_set, wrap64_idem]
    exact wrap64_of_range _ (by omega) hfit
  refine ⟨by rw [hrun], hval, ?_, ?_⟩
  · intro hnone
    rw [hval, read_balance_none st _ hnone, zero_add]
  · intro k hk
    rw [hrun]
    exact state_set_other _ _ _ _ hk

/-- C11 (witness): scenario 1 of the specification: balance 0, a deposit of 100 gives
the balance 100. -/
theorem deposit_credits_sender_witness :
    (handle_charge (deposit_host ALICE ISSUER_ACCID CURRENCY_JPY 100) empty_ledger).1 = Exit.accept 0
    ∧ read_balance (handle_charge (deposit_host ALICE ISSUER_ACCID CURRENCY_JPY 100) empty_ledger).2
        ALICE = 100 :=
  have hw := deposit_credits_sender (deposit_host ALICE ISSUER_ACCID CURRENCY_JPY 100) empty_ledger
    (by decide) (by decide) (by decide) (by decide) (by decide) (by decide) (by decide) (by decide)
  ⟨hw.1, hw.2.2.1 rfl⟩

/-- C11 (counterexample): the sender holds 2^63 - 1 and deposits 1 of the configured
asset.  The deposit commits and the balance afterwards is -2^63, not the prior
balance plus 1. -/
theorem deposit_credit_counterexample :
    (handle_charge (deposit_host ALICE ISSUER_ACCID CURRENCY_JPY 1) (ledger_with ALICE INT64_MAX)).1
      = Exit.accept 0
    ∧ read_balance (ledger_with ALICE INT64_MAX) ALICE = 9223372036854775807
    ∧ read_balance
        (handle_charge (deposit_host ALICE ISSUER_ACCID CURRENCY_JPY 1)
          (ledger_with ALICE INT64_MAX)).2 ALICE = -9223372036854775808
    ∧ read_balance
        (handle_charge (deposit_host ALICE ISSUER_ACCID CURRENCY_JPY 1)
          (ledger_with ALICE INT64_MAX)).2 ALICE
      ≠ read_balance (ledger_with ALICE INT64_MAX) ALICE + 1 := by
  decide

/-! ## The credit of a deposit -/

theorem wrap64_of_overflow (x : Int) (h1 : INT64_MAX < x) (h2 : x ≤ INT64_MAX + INT64_MAX) :
    wrap64 x = x - 2 ^ 64 := by
  unfold INT64_MAX at h1 h2
  unfold wrap64
  omega

/-- The balance that a committed credit stores for its account: the 64-bit sum. -/
theorem credit_stored (i : Invocation) (st : Ledger) (c : Int) (st' : Ledger)
    (hi : is_credit i) (hstep : step i st = (Exit.accept c, st')) :
    0 < i.delta ∧ read_balance st' i.account = wrap64 (read_balance st i.account + i.delta) := by
  cases i with
  | charge H =>
    obtain ⟨hpos, -, hst⟩ := handle_charge_accept H st c st' hstep
    refine ⟨hpos, ?_⟩
    rw [hst]
    simp only [Invocation.account, Invocation.delta]
    rw [read_balance_set, wrap64_idem]
  | recharge H =>
    obtain ⟨hpos, -, -, -, hst⟩ := handle_recharge_accept H st c st' hstep
    refine ⟨hpos, ?_⟩
    have hA : (recharge_locals H).allowance_key
        = PREFIX_ALLOWANCE :: COPY (recharge_locals H).user_accid 20 := rfl
    have h2 := balance_key_ne_allowance_key (recharge_locals H).user_accid
      (recharge_locals H).user_accid [] 20
    rw [List.append_nil] at h2
    rw [hst]
    simp only [Invocation.account, Invocation.delta]
    rw [hA, read_balance_set_other _ _ _ _ (balance_key_ne_allowance_key _ _ _ _),
      read_balance_set_other _ _ _ _ h2, read_balance_set, wrap64_idem]
  | payment H m => exact absurd hi (by simp [is_credit])
  | allowance_payment H d n => exact absurd hi (by simp [is_credit])

/-- C12 (amended): the credit performed by handle_charge and by
handle_recharge_and_update_allowance of xapay_hock.c is a plain signed 64-bit
addition without overflow check: a committed credit of the amount m > 0 to the
balance b stores b + m, a value not smaller than b, when b + m <= 2^63 - 1, and
stores the wrapped value b + m - 2^64, which is smaller than b, when
b + m > 2^63 - 1. -/
theorem credit_is_plain_addition (i : Invocation) (st : Ledger) (c : Int) (st' : Ledger)
    (hi : is_credit i) (hstep : step i st = (Exit.accept c, st')) :
    0 < i.delta
    ∧ (read_balance st i.account + i.delta ≤ INT64_MAX →
        read_balance st' i.account = read_balance st i.account + i.delta
        ∧ read_balance st i.account ≤ read_balance st' i.account)
    ∧ (INT64_MAX < read_balance st i.account + i.delta →
        read_balance st' i.account = read_balance st i.account + i.delta - 2 ^ 64
        ∧ read_balance st' i.account < read_balance st i.account) := by
  obtain ⟨hpos, hval⟩ := credit_stored i st c st' hi hstep
  have hb := read_balance_range st i.account
  have hd : i.delta ≤ INT64_MAX := by
    cases i with
    | charge H => exact (wrap64_range _).2
    | recharge H => exact (wrap64_range _).2
    | payment H m => exact absurd hi (by simp [is_credit])
    | allowance_payment H d n => exact absurd hi (by simp [is_credit])
  refine ⟨hpos, ?_, ?_⟩
  · intro hfit
    have e : read_balance st' i.account = read_balance st i.account + i.delta := by
      rw [hval]
      exact wrap64_of_range _ (by omega) hfit
    exact ⟨e, by omega⟩
  · intro hover
    have e : read_balance st' i.account = read_balance st i.account + i.delta - 2 ^ 64 := by
      rw [hval]
      exact wrap64_of_overflow _ hover (by omega)
    refine ⟨e, ?_⟩
    rw [e]
    unfold INT64_MAX at hd
    omega

set_option maxRecDepth 8192 in
/-- C12 (witness): a deposit of 100 on the empty ledger stores 100, by handle_charge and
by handle_recharge_and_update_allowance. -/
theorem credit_is_plain_addition_witness :
    read_balance (handle_charge (deposit_host ALICE ISSUER_ACCID CURRENCY_JPY 100) empty_ledger).2
        ALICE = 100
    ∧ read_balance
        (handle_recharge_and_update_allowance (recharge_host ALICE 100 CAP_200 SIG_S2 1)
          empty_ledger).2 ALICE = 100 :=
  ⟨((credit_is_plain_addition
      (Invocation.charge (deposit_host ALICE ISSUER_ACCID CURRENCY_JPY 100)) empty_ledger 0 _
      trivial (Prod.ext (by decide) rfl)).2.1 (by decide)).1.trans (by decide),
    ((credit_is_plain_addition
      (Invocation.recharge (recharge_host ALICE 100 CAP_200 SIG_S2 1)) empty_ledger 0 _
      trivial (Prod.ext (by decide) rfl)).2.1 (by decide)).1.trans (by decide)⟩

set_option maxRecDepth 8192 in
/-- C12 (counterexample): the account holds b = 2^63 - 1 and is credited m = 1, once by
handle_charge and once by handle_recharge_and_update_allowance.  Both invocations
commit and store the wrapped value -2^63, which is smaller than b. -/
theorem credit_overflow_counterexample :
    ((handle_charge (deposit_host ALICE ISSUER_ACCID CURRENCY_JPY 1) (ledger_with ALICE INT64_MAX)).1
        = Exit.accept 0
      ∧ read_balance (ledger_with ALICE INT64_MAX) ALICE = 9223372036854775807
      ∧ read_balance
          (handle_charge (deposit_host ALICE ISSUER_ACCID CURRENCY_JPY 1)
            (ledger_with ALICE INT64_MAX)).2 ALICE = -9223372036854775808)
    ∧ ((handle_recharge_and_update_allowance (recharge_host ALICE 1 CAP_200 SIG_S2 1)
          (ledger_with ALICE INT64_MAX)).1 = Exit.accept 0
      ∧ read_balance
          (handle_recharge_and_update_allowance (recharge_host ALICE 1 CAP_200 SIG_S2 1)
            (ledger_with ALICE INT64_MAX)).2 ALICE = -9223372036854775808) := by
  refine ⟨⟨by decide, by decide, by decide⟩, ⟨by decide, by decide⟩⟩

/-! ## Deposits of a non-positive amount -/

/-- C13: handle_charge of xapay_hock.c rejects every deposit of the configured asset
(fields present, issuer and currency equal to the configured identity, amount
parsed) whose amount is <= 0, with code 15 and without changing the ledger; a
deposit whose issuer or currency differs is rejected with code 13, so the two
outcomes differ. -/
theorem nonpositive_deposit_rejected (H : Host) (st : Ledger)
    (hlen : 0 ≤ (charge_locals H).amount_len) (hiss : 0 ≤ (charge_locals H).issuer_len)
    (hcur : 0 ≤ (charge_locals H).currency_len)
    (hi : (charge_locals H).issuer_buffer = ISSUER_ACCID)
    (hc : (charge_locals H).currency_buffer = CURRENCY_JPY)
    (hp : 0 ≤ (charge_locals H).parsed) (hm : (charge_locals H).amount_val ≤ 0)
    (H2 : Host) (st2 : Ledger)
    (hlen2 : 0 ≤ (charge_locals H2).amount_len) (hiss2 : 0 ≤ (charge_locals H2).issuer_len)
    (hcur2 : 0 ≤ (charge_locals H2).currency_len)
    (hdiff : (charge_locals H2).issuer_buffer ≠ ISSUER_ACCID
      ∨ (charge_locals H2).currency_buffer ≠ CURRENCY_JPY) :
    handle_charge H st = (Exit.rollback 15, st)
    ∧ (handle_charge H2 st2).1 = Exit.rollback 13
    ∧ (handle_charge H st).1 ≠ (handle_charge H2 st2).1 := by
  have h4 : ¬((!BUFFER_EQUAL (charge_locals H).issuer_buffer ISSUER_ACCID 20
      || !BUFFER_EQUAL (charge_locals H).currency_buffer CURRENCY_JPY 20) = true) := by
    rw [hi, hc, BUFFER_EQUAL_self, BUFFER_EQUAL_self]
    decide
  have h15 : handle_charge H st = (Exit.rollback 15, st) := by
    simp only [handle_charge]
    rw [if_neg (not_lt.mpr hlen), if_neg (not_lt.mpr hiss), if_neg (not_lt.mpr hcur), if_neg h4,
      if_neg (not_lt.mpr hp), if_pos hm]
  have h4' := mismatch_of_ne (charge_locals H2) (by simp [charge_locals, fit_length])
    (by simp [charge_locals, fit_length]) hdiff
  have h13 : handle_charge H2 st2 = (Exit.rollback 13, st2) := by
    simp only [handle_charge]
    rw [if_neg (not_lt.mpr hlen2), if_neg (not_lt.mpr hiss2), if_neg (not_lt.mpr hcur2),
      if_pos h4']
  refine ⟨h15, by rw [h13], ?_⟩
  rw [h15, h13]
  simp

/-- C13 (witness): a deposit of the amount 0 of the configured asset, and a deposit of
100 in the currency `USD`. -/
theorem nonpositive_deposit_rejected_witness :
    handle_charge (deposit_host ALICE ISSUER_ACCID CURRENCY_JPY 0) (ledger_with ALICE 7)
      = (Exit.rollback 15, ledger_with ALICE 7)
    ∧ (handle_charge (deposit_host ALICE ISSUER_ACCID CURRENCY_USD 100) (ledger_with ALICE 7)).1
      = Exit.rollback 13 :=
  have hw := nonpositive_deposit_rejected (deposit_host ALICE ISSUER_ACCID CURRENCY_JPY 0)
    (ledger_with ALICE 7) (by decide) (by decide) (by decide) (by decide) (by decide) (by decide)
    (by decide) (deposit_host ALICE ISSUER_ACCID CURRENCY_USD 100) (ledger_with ALICE 7)
    (by decide) (by decide) (by decide) (Or.inr (by decide))
  ⟨hw.1, hw.2.1⟩

/-! ## `handle_charge` of `payment.c` at the configured asset -/

/-- C14 (the code at the failing input): handle_charge of payment.c, for a deposit of
100 whose currency field is the JPY code 00..00 4A 50 59 00..00 and whose issuer
field is the issuer account id 13 1A 2E 9B .., accepts without any write: the
balance of the sender is not credited.  It credits the sender when the two
fields hold the first 20 characters of the hexadecimal texts instead. -/
theorem payment_c_charge_ignores_configured_asset :
    ISSUER_131A = [0x13, 0x1A, 0x2E, 0x9B, 0x48, 0x96, 0x13, 0xA5, 0x5E, 0x28,
      0x5F, 0x23, 0x63, 0xEA, 0x22, 0x84, 0xD7, 0x21, 0x22, 0x55]
    ∧ (PaymentC.handle_charge (slot_deposit_host ALICE CURRENCY_JPY ISSUER_131A 100)
        (ledger_with ALICE 7)).1 = Exit.accept 0
    ∧ (PaymentC.handle_charge (slot_deposit_host ALICE CURRENCY_JPY ISSUER_131A 100)
        (ledger_with ALICE 7)).2 = ledger_with ALICE 7
    ∧ PaymentC.get_user_balance
        (PaymentC.handle_charge (slot_deposit_host ALICE CURRENCY_JPY ISSUER_131A 100)
          empty_ledger).2 ALICE = 0
    ∧ PaymentC.get_user_balance
        (PaymentC.handle_charge
          (slot_deposit_host ALICE
            ((PaymentC.c_string PaymentC.CURRENCY_JPY).take 20)
            ((PaymentC.c_string PaymentC.ISSUER_ACCID).take 20) 100)
          empty_ledger).2 ALICE = 100 := by
  refine ⟨by decide, by decide, rfl, by decide, by decide⟩

/-! ## The signed message -/

theorem COPY_length_of_le (b : Bytes) (k : Nat) (h : k ≤ b.length) : (COPY b (k : Int)).length = k := by
  simp [COPY, h]

/-- The parts of a message built from buffers of at least 34 bytes can be read back. -/
theorem build_message_inj (u o c u' o' c' : Bytes) (n n' : Int)
    (hu : 34 ≤ u.length) (ho : 34 ≤ o.length) (hu' : 34 ≤ u'.length) (ho' : 34 ≤ o'.length)
    (h : build_message u o c n = build_message u' o' c' n') :
    COPY u 34 = COPY u' 34 ∧ COPY o 34 = COPY o' 34 ∧ COPY c n = COPY c' n' := by
  have lu : (COPY u 34).length = 34 := COPY_length_of_le u 34 hu
  have lu' : (COPY u' 34).length = 34 := COPY_length_of_le u' 34 hu'
  have lo : (COPY o 34).length = 34 := COPY_length_of_le o 34 ho
  have lo' : (COPY o' 34).length = 34 := COPY_length_of_le o' 34 ho'
  unfold build_message at h
  simp only [List.append_assoc] at h
  obtain ⟨h1, h2⟩ := List.append_inj h (by rw [lu, lu'])
  have h3 : COPY o 34 ++ ([COLON] ++ COPY c n) = COPY o' 34 ++ ([COLON] ++ COPY c' n') := by
    simpa using h2
  obtain ⟨h4, h5⟩ := List.append_inj h3 (by rw [lo, lo'])
  exact ⟨h1, h4, by simpa using h5⟩

theorem allowance_raddr_lengths (H : Host) (d : Bytes) (n : Int) :
    34 ≤ (allowance_locals H d n).user_raddr.length
    ∧ 34 ≤ (allowance_locals H d n).operator_raddr.length := by
  have h1 : (allowance_locals H d n).user_raddr.length = 35 := fit_length 35 _
  have h2 : (allowance_locals H d n).operator_raddr.length = 35 := fit_length 35 _
  omega

theorem recharge_raddr_lengths (H : Host) :
    34 ≤ (recharge_locals H).user_raddr.length ∧ 34 ≤ (recharge_locals H).operator_raddr.length := by
  have h1 : (recharge_locals H).user_raddr.length = 35 := fit_length 35 _
  have h2 : (recharge_locals H).operator_raddr.length = 35 := fit_length 35 _
  omega

/-- C16: the message built by handle_allowance_payment and by
handle_recharge_and_update_allowance of xapay_hock.c binds the triple (payer,
operator, cap): two invocations whose messages have the same bytes and the same
length have the same 34-byte payer address text, the same 34-byte operator
address text and the same cap literal; so changing one of the three changes the
message. -/
theorem message_binds_triple :
    (∀ (H1 : Host) (d1 : Bytes) (n1 : Int) (H2 : Host) (d2 : Bytes) (n2 : Int),
      (allowance_locals H1 d1 n1).message = (allowance_locals H2 d2 n2).message →
      (allowance_locals H1 d1 n1).message_len = (allowance_locals H2 d2 n2).message_len →
      COPY (allowance_locals H1 d1 n1).user_raddr 34 = COPY (allowance_locals H2 d2 n2).user_raddr 34
      ∧ COPY (allowance_locals H1 d1 n1).operator_raddr 34
        = COPY (allowance_locals H2 d2 n2).operator_raddr 34
      ∧ cap_text (allowance_locals H1 d1 n1) = cap_text (allowance_locals H2 d2 n2)
      ∧ (allowance_locals H1 d1 n1).allowance_amount_str_len
        = (allowance_locals H2 d2 n2).allowance_amount_str_len)
    ∧ (∀ (H1 H2 : Host),
      (recharge_locals H1).message = (recharge_locals H2).message →
      (recharge_locals H1).message_len = (recharge_locals H2).message_len →
      COPY (recharge_locals H1).user_raddr 34 = COPY (recharge_locals H2).user_raddr 34
      ∧ COPY (recharge_locals H1).operator_raddr 34 = COPY (recharge_locals H2).operator_raddr 34
      ∧ COPY (recharge_locals H1).new_allowance_str (recharge_locals H1).new_allowance_len
        = COPY (recharge_locals H2).new_allowance_str (recharge_locals H2).new_allowance_len
      ∧ (recharge_locals H1).new_allowance_len = (recharge_locals H2).new_allowance_len) := by
  constructor
  · intro H1 d1 n1 H2 d2 n2 hmsg hlen
    have hm := build_message_inj _ _ _ _ _ _ _ _
      (allowance_raddr_lengths H1 d1 n1).1 (allowance_raddr_lengths H1 d1 n1).2
      (allowance_raddr_lengths H2 d2 n2).1 (allowance_raddr_lengths H2 d2 n2).2
      (show build_message (allowance_locals H1 d1 n1).user_raddr
          (allowance_locals H1 d1 n1).operator_raddr (allowance_locals H1 d1 n1).allowance_amount_str
          (allowance_locals H1 d1 n1).allowance_amount_str_len
        = build_message (allowance_locals H2 d2 n2).user_raddr
          (allowance_locals H2 d2 n2).operator_raddr (allowance_locals H2 d2 n2).allowance_amount_str
          (allowance_locals H2 d2 n2).allowance_amount_str_len from hmsg)
    have hl : 34 + 1 + 34 + 1 + (allowance_locals H1 d1 n1).allowance_amount_str_len
        = 34 + 1 + 34 + 1 + (allowance_locals H2 d2 n2).allowance_amount_str_len := hlen
    exact ⟨hm.1, hm.2.1, hm.2.2, by omega⟩
  · intro H1 H2 hmsg hlen
    have hm := build_message_inj _ _ _ _ _ _ _ _
      (recharge_raddr_lengths H1).1 (recharge_raddr_lengths H1).2
      (recharge_raddr_lengths H2).1 (recharge_raddr_lengths H2).2
      (show build_message (recharge_locals H1).user_raddr (recharge_locals H1).operator_raddr
          (recharge_locals H1).new_allowance_str (recharge_locals H1).new_allowance_len
        = build_message (recharge_locals H2).user_raddr (recharge_locals H2).operator_raddr
          (recharge_locals H2).new_allowance_str (recharge_locals H2).new_allowance_len from hmsg)
    have hl : 34 + 1 + 34 + 1 + (recharge_locals H1).new_allowance_len
        = 34 + 1 + 34 + 1 + (recharge_locals H2).new_allowance_len := hlen
    exact ⟨hm.1, hm.2.1, hm.2.2, by omega⟩

set_option maxRecDepth 8192 in
/-- C16 (witness): the messages of two allowance payments that differ only in the cap
literal (`50` and `60`), and of two recharges that differ only in the new cap
(`100` and `200`), are different. -/
theorem message_binds_triple_witness :
    (allowance_locals scenario3_host [] 0).message
      ≠ (allowance_locals (allowance_host ALICE_RADDR ALICE [0x33, 0x30] [0x36, 0x30] SIG_S)
          [] 0).message
    ∧ (recharge_locals (recharge_host ALICE 20 CAP_100 SIG_S 1)).message
      ≠ (recharge_locals (recharge_host ALICE 20 CAP_200 SIG_S 1)).message :=
  ⟨fun h => absurd
      (message_binds_triple.1 scenario3_host [] 0
        (allowance_host ALICE_RADDR ALICE [0x33, 0x30] [0x36, 0x30] SIG_S) [] 0 h
        (by decide)).2.2.1 (by decide),
    fun h => absurd
      (message_binds_triple.2 (recharge_host ALICE 20 CAP_100 SIG_S 1)
        (recharge_host ALICE 20 CAP_200 SIG_S 1) h (by decide)).2.2.1 (by decide)⟩

/-- The layout of a message built from two 34-byte address texts and a cap literal
that fits its 20-byte buffer. -/
theorem message_layout (L : AllowanceLocals) (o : Bytes) (olen : Int)
    (hmsg : L.message
      = build_message L.user_raddr L.operator_raddr L.allowance_amount_str L.allowance_amount_str_len)
    (hmlen : L.message_len = 34 + 1 + 34 + 1 + L.allowance_amount_str_len)
    (hu : L.user_raddr.length = 35) (hop : L.operator_raddr = fit 35 o)
    (hs : L.allowance_amount_str.length = 20)
    (ha : L.user_raddr_len = 34) (ho : olen = 34)
    (hc0 : 0 ≤ L.allowance_amount_str_len) (hc1 : L.allowance_amount_str_len ≤ 20) :
    L.message = payer_text L ++ [COLON] ++ COPY (fit 35 o) olen ++ [COLON] ++ cap_text L
    ∧ L.message_len
      = (((payer_text L).length + (COPY (fit 35 o) olen).length + (cap_text L).length + 2 : Nat) : Int)
    := by
  have e1 : payer_text L = COPY L.user_raddr 34 := by rw [payer_text, ha]
  have l1 : (payer_text L).length = 34 := by
    rw [e1]
    exact COPY_length_of_le _ 34 (by omega)
  have l2 : (COPY (fit 35 o) olen).length = 34 := by
    rw [ho]
    exact COPY_length_of_le _ 34 (by rw [fit_length]; decide)
  have l3 : ((cap_text L).length : Int) = L.allowance_amount_str_len := by
    have ht : L.allowance_amount_str_len.toNat ≤ 20 := by omega
    simp only [cap_text, COPY, List.length_take, hs, Nat.min_eq_left ht]
    exact Int.toNat_of_nonneg hc0
  constructor
  · rw [hmsg, e1, ho, hop]
    rfl
  · rw [hmlen, l1, l2]
    push_cast
    omega

/-- C15 (amended): for every payer address text a and operator address text o of
exactly 34 bytes and every cap literal c of at most 20 bytes, the byte sequence
that handle_allowance_payment (of xapay_hock.c and of payment.c) passes to
signature verification is exactly a ++ ':' ++ o ++ ':' ++ c, and its length is
|a| + |o| + |c| + 2. -/
theorem signed_message_layout (H : Host) (d : Bytes) (n : Int)
    (ha : (allowance_locals H d n).user_raddr_len = 34)
    (ho : (H.util_accid 35 OPERATOR_ACCID 20).1 = 34)
    (ho2 : (H.util_accid 35 PaymentC.defined_operator_accid 20).1 = 34)
    (hc0 : 0 ≤ (allowance_locals H d n).allowance_amount_str_len)
    (hc1 : (allowance_locals H d n).allowance_amount_str_len ≤ 20) :
    ((allowance_locals H d n).verified
        = H.util_verify (allowance_locals H d n).message (allowance_locals H d n).message_len
            (allowance_locals H d n).allowance_sig (allowance_locals H d n).allowance_sig_len
            (allowance_locals H d n).user_pubkey (allowance_locals H d n).pubkey_len
      ∧ (allowance_locals H d n).message
        = payer_text (allowance_locals H d n) ++ [COLON] ++ operator_text H OPERATOR_ACCID
            ++ [COLON] ++ cap_text (allowance_locals H d n)
      ∧ (allowance_locals H d n).message_len
        = (((payer_text (allowance_locals H d n)).length
            + (operator_text H OPERATOR_ACCID).length
            + (cap_text (allowance_locals H d n)).length + 2 : Nat) : Int))
    ∧ ((PaymentC.allowance_locals H d n).verified
        = H.util_verify (PaymentC.allowance_locals H d n).message
            (PaymentC.allowance_locals H d n).message_len
            (PaymentC.allowance_locals H d n).allowance_sig
            (PaymentC.allowance_locals H d n).allowance_sig_len
            (PaymentC.allowance_locals H d n).user_pubkey (PaymentC.allowance_locals H d n).pubkey_len
      ∧ (PaymentC.allowance_locals H d n).message
        = payer_text (PaymentC.allowance_locals H d n) ++ [COLON]
            ++ operator_text H PaymentC.defined_operator_accid
            ++ [COLON] ++ cap_text (PaymentC.allowance_locals H d n)
      ∧ (PaymentC.allowance_locals H d n).message_len
        = (((payer_text (PaymentC.allowance_locals H d n)).length
            + (operator_text H PaymentC.defined_operator_accid).length
            + (cap_text (PaymentC.allowance_locals H d n)).length + 2 : Nat) : Int)) := by
  have k1 := message_layout (allowance_locals H d n) (H.util_accid 35 OPERATOR_ACCID 20).2
    (H.util_accid 35 OPERATOR_ACCID 20).1 rfl rfl (fit_length 35 _) rfl (fit_length 20 _)
    ha ho hc0 hc1
  have k2 := message_layout (PaymentC.allowance_locals H d n)
    (H.util_accid 35 PaymentC.defined_operator_accid 20).2
    (H.util_accid 35 PaymentC.defined_operator_accid 20).1 rfl rfl (fit_length 35 _) rfl
    (fit_length 20 _) ha ho2 hc0 hc1
  exact ⟨⟨rfl, k1.1, k1.2⟩, ⟨rfl, k2.1, k2.2⟩⟩

set_option maxRecDepth 8192 in
/-- C15 (witness): scenario 3 of the specification: two address texts of 34 characters
and the cap literal `50`; the message has 72 bytes. -/
theorem signed_message_layout_witness :
    (allowance_locals scenario3_host [] 0).message
      = ALICE_RADDR ++ [COLON] ++ OPERATOR_RADDR ++ [COLON] ++ [0x35, 0x30]
    ∧ (allowance_locals scenario3_host [] 0).message_len = 72 :=
  have hw := signed_message_layout scenario3_host [] 0 (by decide) (by decide) (by decide)
    (by decide) (by decide)
  ⟨hw.1.2.1.trans (by decide), hw.1.2.2.trans (by decide)⟩

set_option maxRecDepth 8192 in
/-- C15 (counterexample): a payer address text of 33 characters.  The handler copies 34
bytes of the address buffer, so the message is not a ++ ':' ++ o ++ ':' ++ c: its byte
at index 33 is the byte after the address text, not `:`, and its length is 72
where |a| + |o| + |c| + 2 is 71. -/
theorem signed_message_counterexample :
    payer_text (allowance_locals (allowance_host SHORT_RADDR ALICE [0x33, 0x30] [0x35, 0x30] SIG_S)
        [] 0) = SHORT_RADDR
    ∧ operator_text (allowance_host SHORT_RADDR ALICE [0x33, 0x30] [0x35, 0x30] SIG_S) OPERATOR_ACCID
        = OPERATOR_RADDR
    ∧ cap_text (allowance_locals (allowance_host SHORT_RADDR ALICE [0x33, 0x30] [0x35, 0x30] SIG_S)
        [] 0) = [0x35, 0x30]
    ∧ (allowance_locals (allowance_host SHORT_RADDR ALICE [0x33, 0x30] [0x35, 0x30] SIG_S)
        [] 0).message
      ≠ SHORT_RADDR ++ [COLON] ++ OPERATOR_RADDR ++ [COLON] ++ [0x35, 0x30]
    ∧ (allowance_locals (allowance_host SHORT_RADDR ALICE [0x33, 0x30] [0x35, 0x30] SIG_S)
        [] 0).message_len = 72
    ∧ (SHORT_RADDR ++ [COLON] ++ OPERATOR_RADDR ++ [COLON] ++ [0x35, 0x30]).length = 71
    ∧ (allowance_locals (allowance_host SHORT_RADDR ALICE [0x33, 0x30] [0x35, 0x30] SIG_S)
        [] 0).verified = 1 := by
  refine ⟨by decide, by decide, by decide, by decide, by decide, by decide, by decide⟩

/-! ## The keys of the four kinds of records -/

theorem allowance_cap_key_length (b : Bytes) : (allowance_cap_key b).length = 21 := by
  simp [allowance_cap_key, fit_length]

theorem allowance_spent_key_length (b s : Bytes) :
    (allowance_spent_key b s).length = 20 + s.length := by
  simp [allowance_spent_key, fit_length]

theorem mismatch_eq_decide (i c : Bytes) :
    (!BUFFER_EQUAL (fit 20 i) ISSUER_ACCID 20 || !BUFFER_EQUAL (fit 20 c) CURRENCY_JPY 20)
      = decide (fit 20 i ≠ ISSUER_ACCID ∨ fit 20 c ≠ CURRENCY_JPY) := by
  rw [BUFFER_EQUAL_fit _ _ (by decide), BUFFER_EQUAL_fit _ _ (by decide)]
  by_cases h1 : fit 20 i = ISSUER_ACCID <;> by_cases h2 : fit 20 c = CURRENCY_JPY <;> simp [h1, h2]

/-- A rolled back recharge leaves the ledger as it was. -/
theorem recharge_rollback_ledger (H : Host) (st : Ledger) (c : Int)
    (h : (handle_recharge_and_update_allowance H st).1 = Exit.rollback c) :
    (handle_recharge_and_update_allowance H st).2 = st := by
  revert h
  simp only [handle_recharge_and_update_allowance]
  repeat (
    refine ite_pred (fun r : Exit × Ledger => r.1 = Exit.rollback c → r.2 = st) _ _ _
      (fun _ _ => rfl) (fun _ => ?_))
  intro h
  exact absurd h (by simp)

/-- C18: on every host and ledger, the outcome of handle_recharge_and_update_allowance is
the one decided by its checks taken in order, and every reject leaves the ledger
unchanged.  Among the checks, in this order of precedence: issuer or currency
differs from the configured identity, reject code 201; deposit amount <= 0,
reject (code 100); new cap (`allowance`) or `signature` missing, code 103;
signature not verified over the message built from payer, operator and the new
cap literal, code 302. -/
theorem recharge_checks_in_order (H : Host) (st : Ledger) :
    (handle_recharge_and_update_allowance H st).1 = outcome_of (recharge_checks H)
    ∧ ∀ c, (handle_recharge_and_update_allowance H st).1 = Exit.rollback c →
        (handle_recharge_and_update_allowance H st).2 = st := by
  refine ⟨?_, fun c h => recharge_rollback_ledger H st c h⟩
  have h4 : (!BUFFER_EQUAL (recharge_locals H).issuer_buffer ISSUER_ACCID 20
        || !BUFFER_EQUAL (recharge_locals H).currency_buffer CURRENCY_JPY 20)
      = decide ((recharge_locals H).issuer_buffer ≠ ISSUER_ACCID
          ∨ (recharge_locals H).currency_buffer ≠ CURRENCY_JPY) :=
    mismatch_eq_decide _ _
  have h10 : H.util_verify
        (build_message (recharge_locals H).user_raddr (recharge_locals H).operator_raddr
          (recharge_locals H).new_allowance_str (recharge_locals H).new_allowance_len)
        (34 + 1 + 34 + 1 + (recharge_locals H).new_allowance_len) (recharge_locals H).signature
        (recharge_locals H).signature_len (recharge_locals H).user_pubkey
        (recharge_locals H).pubkey_len
      = (recharge_locals H).verified := rfl
  simp only [handle_recharge_and_update_allowance, recharge_checks, outcome_of, first_failure, h4,
    h10]
  generalize recharge_locals H = L
  by_cases c1 : L.amount_len < 0
  · simp [c1, ERROR_INVALID_TRANSACTION]
  · by_cases c2 : L.issuer_len < 0
    · simp [c1, c2, ERROR_CHARGE_INVALID_ISSUER]
    · by_cases c3 : L.currency_len < 0
      · simp [c1, c2, c3, ERROR_CHARGE_INVALID_CURRENCY]
      · by_cases c4 : L.issuer_buffer ≠ ISSUER_ACCID ∨ L.currency_buffer ≠ CURRENCY_JPY
        · simp [c1, c2, c3, c4, ERROR_CHARGE_INVALID_CURRENCY]
        · by_cases c5 : L.parsed < 0
          · simp [c1, c2, c3, c4, c5, ERROR_INVALID_TRANSACTION]
          · by_cases c6 : L.charge_amount ≤ 0
            · simp [c1, c2, c3, c4, c5, c6, ERROR_INVALID_TRANSACTION]
            · by_cases c7 : L.memo_len < 0
              · simp [c1, c2, c3, c4, c5, c6, c7, ERROR_INVALID_MEMO]
              · by_cases c8 : L.new_allowance_len ≤ 0
                · simp [c1, c2, c3, c4, c5, c6, c7, c8, ERROR_MISSING_FIELD]
                · by_cases c9 : L.signature_hex_len ≤ 0
                  · simp [c1, c2, c3, c4, c5, c6, c7, c8, c9, ERROR_MISSING_FIELD]
                  · by_cases c10 : L.verified = 1
                    · simp [c1, c2, c3, c4, c5, c6, c7, c8, c9, c10, SUCCESS]
                    · simp [c1, c2, c3, c4, c5, c6, c7, c8, c9, c10,
                        ERROR_ALLOWANCE_VERIFICATION_FAILED]

set_option maxRecDepth 8192 in
/-- C18 (witness): four recharges by `ALICE` on a ledger where she holds 7: of a
foreign currency (201), of the amount 0 (100), without a new cap (103), and with
a signature that does not verify (302); each leaves the ledger unchanged. -/
theorem recharge_checks_in_order_witness :
    handle_recharge_and_update_allowance foreign_recharge_host (ledger_with ALICE 7)
      = (Exit.rollback 201, ledger_with ALICE 7)
    ∧ handle_recharge_and_update_allowance (recharge_host ALICE 0 CAP_200 SIG_S2 1)
        (ledger_with ALICE 7) = (Exit.rollback 100, ledger_with ALICE 7)
    ∧ handle_recharge_and_update_allowance (recharge_host ALICE 20 [] SIG_S2 1)
        (ledger_with ALICE 7) = (Exit.rollback 103, ledger_with ALICE 7)
    ∧ handle_recharge_and_update_allowance (recharge_host ALICE 20 CAP_200 SIG_S2 0)
        (ledger_with ALICE 7) = (Exit.rollback 302, ledger_with ALICE 7) :=
  ⟨Prod.ext
      ((recharge_checks_in_order _ (ledger_with ALICE 7)).1.trans (by decide))
      ((recharge_checks_in_order _ (ledger_with ALICE 7)).2 201 (by decide)),
    Prod.ext
      ((recharge_checks_in_order _ (ledger_with ALICE 7)).1.trans (by decide))
      ((recharge_checks_in_order _ (ledger_with ALICE 7)).2 100 (by decide)),
    Prod.ext
      ((recharge_checks_in_order _ (ledger_with ALICE 7)).1.trans (by decide))
      ((recharge_checks_in_order _ (ledger_with ALICE 7)).2 103 (by decide)),
    Prod.ext
      ((recharge_checks_in_order _ (ledger_with ALICE 7)).1.trans (by decide))
      ((recharge_checks_in_order _ (ledger_with ALICE 7)).2 302 (by decide))⟩

/-! ## The effects of a committed recharge with allowance update -/

theorem recharge_allowance_key_eq (H : Host) :
    (recharge_locals H).allowance_key = allowance_cap_key (recharge_locals H).user_accid := by
  have e : (recharge_locals H).allowance_key
      = PREFIX_ALLOWANCE :: COPY (recharge_locals H).user_accid 20 := rfl
  have l : (recharge_locals H).user_accid.length = 20 := fit_length 20 _
  rw [e, allowance_cap_key, fit_of_length 20 _ l, COPY_of_length _ 20 (by rw [l]; decide)]

theorem allowance_cap_key_ne_append (b t : Bytes) (ht : t.length = 20) :
    allowance_cap_key b ≠ allowance_cap_key b ++ t := by
  intro h
  have hl := congrArg List.length h
  rw [List.length_append, allowance_cap_key_length, ht] at hl
  omega

/-- The entries that a committed recharge leaves: its three writes, in order. -/
theorem recharge_committed_ledger (H : Host) (st : Ledger) (c : Int) (st' : Ledger)
    (h : handle_recharge_and_update_allowance H st = (Exit.accept c, st')) :
    st' = state_set
      (state_set
        (state_set st
          (int64_to_bytes (wrap64 (read_balance st (recharge_locals H).user_accid
            + (recharge_locals H).charge_amount)))
          (balance_key (recharge_locals H).user_accid))
        (COPY (recharge_locals H).new_allowance_str (recharge_locals H).new_allowance_len)
        (allowance_cap_key (recharge_locals H).user_accid))
      (COPY (recharge_locals H).signature_hex (recharge_locals H).signature_hex_len)
      (allowance_cap_key (recharge_locals H).user_accid ++ fit 20 H.stack_after_allowance_key) := by
  rw [← recharge_allowance_key_eq]
  exact (handle_recharge_accept H st c st' h).2.2.2.2

theorem recharge_cap_entry (H : Host) (st : Ledger) (c : Int) (st' : Ledger)
    (h : handle_recharge_and_update_allowance H st = (Exit.accept c, st')) :
    st' (allowance_cap_key (recharge_locals H).user_accid)
      = some (COPY (recharge_locals H).new_allowance_str (recharge_locals H).new_allowance_len) := by
  rw [recharge_committed_ledger H st c st' h,
    state_set_other _ _ _ _ (allowance_cap_key_ne_append _ _ (fit_length 20 _)), state_set_same]

theorem recharge_frame (H : Host) (st : Ledger) (c : Int) (st' : Ledger)
    (h : handle_recharge_and_update_allowance H st = (Exit.accept c, st')) (k : Bytes)
    (h1 : k ≠ balance_key (recharge_locals H).user_accid)
    (h2 : k ≠ allowance_cap_key (recharge_locals H).user_accid)
    (h3 : k ≠ allowance_cap_key (recharge_locals H).user_accid
      ++ fit 20 H.stack_after_allowance_key) : st' k = st k := by
  rw [recharge_committed_ledger H st c st' h, state_set_other _ _ _ _ h3,
    state_set_other _ _ _ _ h2, state_set_other _ _ _ _ h1]

theorem balance_key_ne_cap_key_append (a b t : Bytes) : balance_key a ≠ allowance_cap_key b ++ t := by
  intro h
  have h0 : PREFIX_USER_BALANCE = PREFIX_ALLOWANCE := by
    simpa [balance_key, allowance_cap_key] using congrArg List.head? h
  exact absurd h0 (by decide)

theorem nonce_key_ne_cap_key_append (n b t : Bytes) : nonce_key n ≠ allowance_cap_key b ++ t := by
  intro h
  have hl := congrArg List.length h
  rw [nonce_key_length, List.length_append, allowance_cap_key_length] at hl
  omega

/-- C19 (amended): for every committed handle_recharge_and_update_allowance invocation
by payer A with deposit d and new cap literal c in which the prior balance of A
plus d is at most 2^63 - 1: afterwards the balance of A equals the prior balance
plus d, the allowance entry stored for A (under PREFIX_ALLOWANCE followed by the
account id) holds the new cap literal c, and the balances of all other accounts
and all nonce markers are unchanged. -/
theorem recharge_commit_effects (H : Host) (st : Ledger) (c : Int) (st' : Ledger)
    (h : handle_recharge_and_update_allowance H st = (Exit.accept c, st'))
    (hfit : read_balance st (recharge_locals H).user_accid + (recharge_locals H).charge_amount
      ≤ INT64_MAX) :
    read_balance st' (recharge_locals H).user_accid
      = read_balance st (recharge_locals H).user_accid + (recharge_locals H).charge_amount
    ∧ st' (allowance_cap_key (recharge_locals H).user_accid)
      = some (COPY (recharge_locals H).new_allowance_str (recharge_locals H).new_allowance_len)
    ∧ (∀ b, fit 20 b ≠ (recharge_locals H).user_accid → read_balance st' b = read_balance st b)
    ∧ (∀ n, st' (nonce_key n) = st (nonce_key n)) := by
  have hA : fit 20 (recharge_locals H).user_accid = (recharge_locals H).user_accid :=
    fit_fit 20 _
  have hpos := (handle_recharge_accept H st c st' h).1
  have hlow := (read_balance_range st (recharge_locals H).user_accid).1
  refine ⟨?_, recharge_cap_entry H st c st' h, ?_, ?_⟩
  · rw [recharge_committed_ledger H st c st' h,
      read_balance_set_other _ _ _ _ (balance_key_ne_cap_key_append _ _ _)]
    have h2 := balance_key_ne_cap_key_append (recharge_locals H).user_accid
      (recharge_locals H).user_accid []
    rw [List.append_nil] at h2
    rw [read_balance_set_other _ _ _ _ h2, read_balance_set, wrap64_idem]
    exact wrap64_of_range _ (by omega) hfit
  · intro b hb
    have hk : balance_key b ≠ balance_key (recharge_locals H).user_accid :=
      balance_key_ne_of_fit_ne _ _ (by rw [hA]; exact hb)
    have h2 := balance_key_ne_cap_key_append b (recharge_locals H).user_accid []
    rw [List.append_nil] at h2
    exact read_balance_congr _ _ _
      (recharge_frame H st c st' h _ hk h2 (balance_key_ne_cap_key_append _ _ _))
  · intro n
    have h2 := nonce_key_ne_cap_key_append n (recharge_locals H).user_accid []
    rw [List.append_nil] at h2
    exact recharge_frame H st c st' h _ (fun e => balance_key_ne_nonce_key _ _ e.symm) h2
      (nonce_key_ne_cap_key_append _ _ _)

set_option maxRecDepth 8192 in
/-- C19 (witness): scenario 4 of the specification: `ALICE` holds 7 and recharges 20 with
the new cap `200`: her balance becomes 27 and her allowance entry holds `200`. -/
theorem recharge_commit_effects_witness :
    (handle_recharge_and_update_allowance (recharge_host ALICE 20 CAP_200 SIG_S2 1)
        (ledger_with ALICE 7)).1 = Exit.accept 0
    ∧ read_balance
        (handle_recharge_and_update_allowance (recharge_host ALICE 20 CAP_200 SIG_S2 1)
          (ledger_with ALICE 7)).2 ALICE = 27
    ∧ (handle_recharge_and_update_allowance (recharge_host ALICE 20 CAP_200 SIG_S2 1)
        (ledger_with ALICE 7)).2 (allowance_cap_key ALICE) = some CAP_200 :=
  have hw := recharge_commit_effects (recharge_host ALICE 20 CAP_200 SIG_S2 1) (ledger_with ALICE 7)
    0 _ (Prod.ext (by decide) rfl) (by decide)
  ⟨by decide, hw.1.trans (by decide), hw.2.1.trans (by decide)⟩

set_option maxRecDepth 8192 in
/-- C19 (counterexample): the payer holds 2^63 - 1 and recharges 1.  The recharge
commits and the balance afterwards is -2^63, not the prior balance plus 1. -/
theorem recharge_commit_counterexample :
    (handle_recharge_and_update_allowance (recharge_host ALICE 1 CAP_200 SIG_S2 1)
        (ledger_with ALICE INT64_MAX)).1 = Exit.accept 0
    ∧ read_balance (ledger_with ALICE INT64_MAX) ALICE = 9223372036854775807
    ∧ read_balance
        (handle_recharge_and_update_allowance (recharge_host ALICE 1 CAP_200 SIG_S2 1)
          (ledger_with ALICE INT64_MAX)).2 ALICE = -9223372036854775808
    ∧ read_balance
        (handle_recharge_and_update_allowance (recharge_host ALICE 1 CAP_200 SIG_S2 1)
          (ledger_with ALICE INT64_MAX)).2 ALICE
      ≠ read_balance (ledger_with ALICE INT64_MAX) ALICE + 1 := by
  refine ⟨by decide, by decide, by decide, by decide⟩

/-! ## Two recharges of one payer -/

/-- C20 (amended): the allowance record written by handle_recharge_and_update_allowance
is keyed by the payer account (PREFIX_ALLOWANCE followed by the account id), not
by the signature: for every payer A and every two committed recharges of A, first
with cap c1 and then with cap c2, whatever their signatures, both write the same
allowance key; after the first recharge the record under it holds c1, and after
the second it holds c2, so the second recharge replaces the record of the first.
What the recharges leave untouched is the spent record that
handle_allowance_payment keeps under (A, signature text), for every signature
text of at least two and other than 21 characters. -/
theorem recharge_replaces_allowance (H1 H2 : Host) (st : Ledger) (c1 : Int) (st1 : Ledger)
    (c2 : Int) (st2 : Ledger)
    (h1 : handle_recharge_and_update_allowance H1 st = (Exit.accept c1, st1))
    (h2 : handle_recharge_and_update_allowance H2 st1 = (Exit.accept c2, st2))
    (hp : (recharge_locals H1).user_accid = (recharge_locals H2).user_accid) :
    (recharge_locals H1).allowance_key = (recharge_locals H2).allowance_key
    ∧ (recharge_locals H1).allowance_key = allowance_cap_key (recharge_locals H1).user_accid
    ∧ st1 (allowance_cap_key (recharge_locals H1).user_accid)
      = some (COPY (recharge_locals H1).new_allowance_str (recharge_locals H1).new_allowance_len)
    ∧ st2 (allowance_cap_key (recharge_locals H1).user_accid)
      = some (COPY (recharge_locals H2).new_allowance_str (recharge_locals H2).new_allowance_len)
    ∧ (∀ s : Bytes, 2 ≤ s.length → s.length ≠ 21 →
        st2 (allowance_spent_key (recharge_locals H1).user_accid s)
          = st (allowance_spent_key (recharge_locals H1).user_accid s)) := by
  refine ⟨?_, recharge_allowance_key_eq H1, recharge_cap_entry H1 st c1 st1 h1, ?_, ?_⟩
  · rw [recharge_allowance_key_eq, recharge_allowance_key_eq, hp]
  · rw [hp]
    exact recharge_cap_entry H2 st1 c2 st2 h2
  · intro s hs2 hs21
    have k1 : ∀ b : Bytes, allowance_spent_key (recharge_locals H1).user_accid s ≠ balance_key b := by
      intro b e
      have hl := congrArg List.length e
      rw [allowance_spent_key_length, balance_key_length] at hl
      omega
    have k2 : ∀ b : Bytes,
        allowance_spent_key (recharge_locals H1).user_accid s ≠ allowance_cap_key b := by
      intro b e
      have hl := congrArg List.length e
      rw [allowance_spent_key_length, allowance_cap_key_length] at hl
      omega
    have k3 : ∀ b t : Bytes,
        allowance_spent_key (recharge_locals H1).user_accid s ≠ allowance_cap_key b ++ fit 20 t := by
      intro b t e
      have hl := congrArg List.length e
      rw [allowance_spent_key_length, List.length_append, allowance_cap_key_length,
        fit_length] at hl
      omega
    rw [recharge_frame H2 st1 c2 st2 h2 _ (k1 _) (k2 _) (k3 _ _),
      recharge_frame H1 st c1 st1 h1 _ (k1 _) (k2 _) (k3 _ _)]

set_option maxRecDepth 8192 in
/-- C20 (witness): `ALICE` recharges 20 with the cap `100` under the signature text
`SIG_S` and then 20 with the cap `200` under `SIG_S2`: her allowance record holds
`100` after the first recharge and `200` after the second. -/
theorem recharge_replaces_allowance_witness :
    first_recharge_ledger (allowance_cap_key ALICE) = some CAP_100
    ∧ second_recharge_ledger (allowance_cap_key ALICE) = some CAP_200 :=
  have hw := recharge_replaces_allowance (recharge_host ALICE 20 CAP_100 SIG_S 1)
    (recharge_host ALICE 20 CAP_200 SIG_S2 1) empty_ledger 0 first_recharge_ledger 0
    second_recharge_ledger (Prod.ext (by decide) rfl) (Prod.ext (by decide) rfl) (by decide)
  ⟨hw.2.2.1.trans (by decide), hw.2.2.2.1.trans (by decide)⟩

set_option maxRecDepth 8192 in
/-- C20 (counterexample): on the empty ledger `ALICE` recharges 20 with (cap `100`,
signature `SIG_S`) and then 20 with (cap `200`, signature `SIG_S2`), two different
signatures.  Both recharges commit.  The record that the first recharge stored
with the value `100` is replaced: the allowance key of `ALICE` holds `200`, and no
entry of the ledger holds the value `100` any more. -/
theorem recharge_record_counterexample :
    SIG_S ≠ SIG_S2
    ∧ (handle_recharge_and_update_allowance (recharge_host ALICE 20 CAP_100 SIG_S 1)
        empty_ledger).1 = Exit.accept 0
    ∧ (handle_recharge_and_update_allowance (recharge_host ALICE 20 CAP_200 SIG_S2 1)
        first_recharge_ledger).1 = Exit.accept 0
    ∧ first_recharge_ledger (recharge_locals (recharge_host ALICE 20 CAP_100 SIG_S 1)).allowance_key
      = some CAP_100
    ∧ second_recharge_ledger (recharge_locals (recharge_host ALICE 20 CAP_100 SIG_S 1)).allowance_key
      = some CAP_200
    ∧ ∀ k, second_recharge_ledger k ≠ some CAP_100 := by
  refine ⟨by decide, by decide, by decide, by decide, by decide, ?_⟩
  intro k
  have hc1 : handle_recharge_and_update_allowance (recharge_host ALICE 20 CAP_100 SIG_S 1)
      empty_ledger = (Exit.accept 0, first_recharge_ledger) := Prod.ext (by decide) rfl
  have hc2 : handle_recharge_and_update_allowance (recharge_host ALICE 20 CAP_200 SIG_S2 1)
      first_recharge_ledger = (Exit.accept 0, second_recharge_ledger) := Prod.ext (by decide) rfl
  have hu : (recharge_locals (recharge_host ALICE 20 CAP_100 SIG_S 1)).user_accid
      = (recharge_locals (recharge_host ALICE 20 CAP_200 SIG_S2 1)).user_accid := by decide
  have hs : (recharge_host ALICE 20 CAP_100 SIG_S 1).stack_after_allowance_key
      = (recharge_host ALICE 20 CAP_200 SIG_S2 1).stack_after_allowance_key := rfl
  have e2 := recharge_committed_ledger _ _ _ _ hc2
  by_cases k3 : k = allowance_cap_key (recharge_locals (recharge_host ALICE 20 CAP_200 SIG_S2 1)).user_accid
      ++ fit 20 (recharge_host ALICE 20 CAP_200 SIG_S2 1).stack_after_allowance_key
  · rw [e2, k3, state_set_same]
    decide
  · by_cases k2 : k = allowance_cap_key
        (recharge_locals (recharge_host ALICE 20 CAP_200 SIG_S2 1)).user_accid
    · rw [e2, state_set_other _ _ _ _ k3, k2, state_set_same]
      decide
    · by_cases k1 : k = balance_key (recharge_locals (recharge_host ALICE 20 CAP_200 SIG_S2 1)).user_accid
      · rw [e2, state_set_other _ _ _ _ k3, state_set_other _ _ _ _ k2, k1, state_set_same]
        intro h
        have hl := congrArg (Option.map List.length) h
        simp only [Option.map_some', int64_to_bytes_length] at hl
        exact absurd hl (by decide)
      · rw [recharge_frame _ _ _ _ hc2 k k1 k2 k3,
          recharge_frame _ _ _ _ hc1 k (by rw [hu]; exact k1) (by rw [hu]; exact k2)
            (by rw [hu, hs]; exact k3)]
        simp [empty_ledger]


/-! ## The dispatch of the entry points -/

/-- The entry point of `xapay_hock.c` runs the call or exit of its route. -/
theorem hook_eq_run_route (H : Host) (m : PaymentMemo) (st : Ledger) :
    hook H m st = run_route H m st (hook_route H) := by
  simp only [hook, hook_route]
  split_ifs <;> rfl

/-- The entry point of `payment.c` runs the call or exit of its route. -/
theorem payment_c_hook_eq_run_route (H : Host) (st : Ledger) :
    PaymentC.hook H st = PaymentC.run_route H st (PaymentC.hook_route H) := by
  simp only [PaymentC.hook, PaymentC.hook_route]
  split_ifs <;> rfl

theorem memcmp_eq_zero_iff (n : Nat) : ∀ a b : Bytes, n ≤ a.length → n ≤ b.length →
    (PaymentC.memcmp a b n = 0 ↔ a.take n = b.take n) := by
  induction n with
  | zero => intro a b _ _; simp [PaymentC.memcmp]
  | succ k ih =>
    intro a b ha hb
    cases a with
    | nil => simp at ha
    | cons x xs =>
      cases b with
      | nil => simp at hb
      | cons y ys =>
        simp only [List.length_cons, Nat.add_le_add_iff_right] at ha hb
        simp only [PaymentC.memcmp, List.take_succ_cons, List.cons.injEq]
        by_cases h1 : x.val < y.val
        · simp only [h1, if_true]
          constructor
          · intro h; omega
          · intro h; exact absurd (congrArg Fin.val h.1) (by omega)
        · by_cases h2 : y.val < x.val
          · simp only [h1, h2, if_true, if_false]
            constructor
            · intro h; omega
            · intro h; exact absurd (congrArg Fin.val h.1) (by omega)
          · simp only [h1, h2, if_false]
            rw [ih xs ys ha hb]
            have hxy : x = y := Fin.ext (by omega)
            simp [hxy]

/-- A text of a positive length shorter than the buffer is what a call returned
exactly when the return code is the length of the text and the buffer starts with it. -/
theorem COPY_eq_text_iff (buf : Bytes) (len : Int) (t : Bytes) (hb : t.length < buf.length)
    (ht : 0 < t.length) :
    COPY buf len = t ↔ len = (t.length : Int) ∧ buf.take t.length = t := by
  unfold COPY
  constructor
  · intro h
    have hl := congrArg List.length h
    rw [List.length_take] at hl
    have h1 : len.toNat = t.length := by omega
    have h2 : len = (t.length : Int) := by omega
    exact ⟨h2, by rw [← h1]; exact h⟩
  · rintro ⟨h1, h2⟩
    rw [h1, Int.toNat_ofNat]
    exact h2

theorem hook_route_recharge_iff (H : Host) :
    hook_route H = Route.recharge ↔
      H.otxn_type = ttINVOKE ∧ 0 < H.otxn_memo_count ∧ 0 < hook_memo_len H
        ∧ 0 < hook_type_len H
        ∧ (hook_type_buf H).take 15 = (ascii "update_allowance").take 15 := by
  have hne : ttINVOKE ≠ ttPAYMENT := by decide
  have hlit : (PaymentC.c_string "update_allowance").take 15 = (ascii "update_allowance").take 15 := by
    decide
  simp only [hook_route, hook_type_len, hook_type_buf, hook_memo_len, hook_memo_data, BUFFER_EQUAL,
    decide_eq_true_eq, hlit, gt_iff_lt]
  by_cases c1 : H.otxn_type = ttPAYMENT
  · simp [c1, hne.symm]
  · by_cases c2 : H.otxn_type = ttINVOKE
    · by_cases c3 : 0 < H.otxn_memo_count
      · by_cases c4 : 0 < (H.otxn_memo 0 1024).1
        · by_cases c5 : 0 < (H.sto_from_json 32 (fit 1024 (H.otxn_memo 0 1024).2)
              (H.otxn_memo 0 1024).1 "type").1
          · by_cases c6 : List.take 15 (fit 32 (H.sto_from_json 32 (fit 1024 (H.otxn_memo 0 1024).2)
                (H.otxn_memo 0 1024).1 "type").2) = List.take 15 (ascii "update_allowance")
            · simp [c1, c2, c3, c4, c5, c6, hne]
            · simp [c1, c2, c3, c4, c5, c6, hne]
          · simp [c1, c2, c3, c4, c5, hne]
        · simp [c1, c2, c3, c4, hne]
      · simp [c1, c2, c3, hne]
    · simp [c1, c2]


/-! ## The route of a Payment and the route to the recharge handler -/

/-- When the `type` field is the text `update_allowance`, the return code is 16 and
the type buffer starts with the first 15 characters of that text. -/
theorem type_text_exact (H : Host) (h : hook_type_text H = ascii "update_allowance") :
    hook_type_len H = 16
    ∧ (hook_type_buf H).take 15 = (ascii "update_allowance").take 15 := by
  have hlen : (ascii "update_allowance").length = 16 := by decide
  have hb : (ascii "update_allowance").length < (hook_type_buf H).length := by
    rw [hlen, hook_type_buf, fit_length]
    decide
  obtain ⟨h1, h2⟩ := (COPY_eq_text_iff _ _ _ hb (by rw [hlen]; decide)).1 h
  rw [hlen] at h1 h2
  refine ⟨by simpa using h1, ?_⟩
  rw [← h2, List.take_take]
  rfl

/-- C21 (amended): hook of xapay_hock.c routes every Payment-type trigger to
handle_charge, whatever payload the trigger carries.  It routes to
handle_recharge_and_update_allowance only triggers of the Invoke type that carry a
non-empty memo, and it does route there every such trigger whose payload has the
type `update_allowance`. -/
theorem payment_trigger_routes_to_charge (H : Host) (m : PaymentMemo) (st : Ledger) :
    (H.otxn_type = ttPAYMENT → hook_route H = Route.charge ∧ hook H m st = handle_charge H st)
    ∧ (hook_route H = Route.recharge →
        H.otxn_type = ttINVOKE ∧ 0 < H.otxn_memo_count ∧ 0 < hook_memo_len H)
    ∧ (H.otxn_type = ttINVOKE → 0 < H.otxn_memo_count → 0 < hook_memo_len H →
        hook_type_text H = ascii "update_allowance" →
        hook_route H = Route.recharge
        ∧ hook H m st = handle_recharge_and_update_allowance H st) := by
  refine ⟨fun hp => ?_, fun hr => ?_, fun hi hc hl ht => ?_⟩
  · have hroute : hook_route H = Route.charge := by simp [hook_route, hp]
    exact ⟨hroute, by rw [hook_eq_run_route, hroute]; rfl⟩
  · obtain ⟨h1, h2, h3, -, -⟩ := (hook_route_recharge_iff H).1 hr
    exact ⟨h1, h2, h3⟩
  · obtain ⟨h16, hbuf⟩ := type_text_exact H ht
    have hroute : hook_route H = Route.recharge :=
      (hook_route_recharge_iff H).2 ⟨hi, hc, hl, by rw [h16]; decide, hbuf⟩
    exact ⟨hroute, by rw [hook_eq_run_route, hroute]; rfl⟩

/-- C21 (witness): a deposit of 20 by `ALICE` whose memo has the type
`update_allowance` goes to handle_charge as a Payment and to the recharge handler as
an Invoke. -/
theorem payment_trigger_routes_to_charge_witness :
    (hook_route (trigger_host (recharge_host ALICE 20 CAP_200 SIG_S2 1) ttPAYMENT
        (some (ascii "update_allowance"))) = Route.charge
      ∧ hook (trigger_host (recharge_host ALICE 20 CAP_200 SIG_S2 1) ttPAYMENT
          (some (ascii "update_allowance"))) (payment_memo ALICE 0 NONCE_1) empty_ledger
        = handle_charge (trigger_host (recharge_host ALICE 20 CAP_200 SIG_S2 1) ttPAYMENT
          (some (ascii "update_allowance"))) empty_ledger)
    ∧ (hook_route (trigger_host (recharge_host ALICE 20 CAP_200 SIG_S2 1) ttINVOKE
        (some (ascii "update_allowance"))) = Route.recharge
      ∧ hook (trigger_host (recharge_host ALICE 20 CAP_200 SIG_S2 1) ttINVOKE
          (some (ascii "update_allowance"))) (payment_memo ALICE 0 NONCE_1) empty_ledger
        = handle_recharge_and_update_allowance (trigger_host (recharge_host ALICE 20 CAP_200 SIG_S2 1)
          ttINVOKE (some (ascii "update_allowance"))) empty_ledger) :=
  ⟨(payment_trigger_routes_to_charge _ _ _).1 (by decide),
    (payment_trigger_routes_to_charge _ _ _).2.2 (by decide) (by decide) (by decide) (by decide)⟩

set_option maxRecDepth 8192 in
/-- C21 (counterexample): a Payment of 20 of the configured asset by `ALICE` that
carries a memo whose payload has the type `update_allowance`, the new cap `200` and a
signature that verifies.  The entry point routes it to handle_charge, not to
handle_recharge_and_update_allowance: the deposit is credited and no allowance record
is written, whereas the recharge handler writes the cap under the allowance key. -/
theorem payment_with_update_allowance_counterexample :
    (trigger_host (recharge_host ALICE 20 CAP_200 SIG_S2 1) ttPAYMENT
        (some (ascii "update_allowance"))).otxn_type = ttPAYMENT
    ∧ hook_type_text (trigger_host (recharge_host ALICE 20 CAP_200 SIG_S2 1) ttPAYMENT
        (some (ascii "update_allowance"))) = ascii "update_allowance"
    ∧ hook_route (trigger_host (recharge_host ALICE 20 CAP_200 SIG_S2 1) ttPAYMENT
        (some (ascii "update_allowance"))) = Route.charge
    ∧ hook_route (trigger_host (recharge_host ALICE 20 CAP_200 SIG_S2 1) ttPAYMENT
        (some (ascii "update_allowance"))) ≠ Route.recharge
    ∧ (hook (trigger_host (recharge_host ALICE 20 CAP_200 SIG_S2 1) ttPAYMENT
        (some (ascii "update_allowance"))) (payment_memo ALICE 0 NONCE_1) empty_ledger).1
        = Exit.accept 0
    ∧ (hook (trigger_host (recharge_host ALICE 20 CAP_200 SIG_S2 1) ttPAYMENT
        (some (ascii "update_allowance"))) (payment_memo ALICE 0 NONCE_1) empty_ledger).2
        (allowance_cap_key ALICE) = none
    ∧ (handle_recharge_and_update_allowance (trigger_host (recharge_host ALICE 20 CAP_200 SIG_S2 1)
        ttPAYMENT (some (ascii "update_allowance"))) empty_ledger).2
        (allowance_cap_key ALICE) = some CAP_200 := by
  refine ⟨by decide, by decide, by decide, by decide, by decide, by decide, by decide⟩


/-! ## The routes of an Invoke -/

/-- The route of an Invoke in `xapay_hock.c`: without a memo the Direct Payment handler;
with a memo the recharge handler when the type buffer starts with the first 15
characters of `update_allowance`, the allowance payment handler otherwise. -/
theorem hook_route_invoke (H : Host) (hi : H.otxn_type = ttINVOKE) :
    hook_route H =
      if 0 < H.otxn_memo_count ∧ 0 < hook_memo_len H then
        if 0 < hook_type_len H
            ∧ (hook_type_buf H).take 15 = (ascii "update_allowance").take 15 then Route.recharge
        else Route.allowance_payment (hook_memo_data H) (hook_memo_len H)
      else Route.payment := by
  have hne : ttINVOKE ≠ ttPAYMENT := by decide
  have hlit : (PaymentC.c_string "update_allowance").take 15 = (ascii "update_allowance").take 15 := by
    decide
  simp only [hook_route, hook_type_len, hook_type_buf, hook_memo_len, hook_memo_data, BUFFER_EQUAL,
    decide_eq_true_eq, hlit, gt_iff_lt, hi, if_neg hne, if_true]
  by_cases c3 : 0 < H.otxn_memo_count
  · by_cases c4 : 0 < (H.otxn_memo 0 1024).1
    · simp [c3, c4]
    · simp [c3, c4]
  · simp [c3]

/-- C22 (amended): hook of xapay_hock.c selects the payment handler of an Invoke-type
trigger by the presence of a memo and has no reject of its own for the type.  For
every Invoke-type trigger without a memo (memo count or memo length not positive) it
runs handle_payment.  For every Invoke-type trigger with a non-empty memo whose
payload has no `type` field, or a `type` that differs from `update_allowance` within
the first 15 bytes, it runs handle_allowance_payment on the memo.  The outcome of
the invocation is the outcome of that handler. -/
theorem invoke_runs_default_handler (H : Host) (m : PaymentMemo) (st : Ledger)
    (hi : H.otxn_type = ttINVOKE) :
    ((H.otxn_memo_count ≤ 0 ∨ hook_memo_len H ≤ 0) →
        hook_route H = Route.payment ∧ hook H m st = handle_payment H m st)
    ∧ (0 < H.otxn_memo_count → 0 < hook_memo_len H →
        (hook_type_len H ≤ 0
          ∨ (hook_type_buf H).take 15 ≠ (ascii "update_allowance").take 15) →
        hook_route H = Route.allowance_payment (hook_memo_data H) (hook_memo_len H)
        ∧ hook H m st = handle_allowance_payment H (hook_memo_data H) (hook_memo_len H) st) := by
  refine ⟨fun hno => ?_, fun hc hl ht => ?_⟩
  · have hroute : hook_route H = Route.payment := by
      rw [hook_route_invoke H hi, if_neg]
      rintro ⟨h1, h2⟩
      rcases hno with h | h <;> omega
    exact ⟨hroute, by rw [hook_eq_run_route, hroute]; rfl⟩
  · have hroute : hook_route H = Route.allowance_payment (hook_memo_data H) (hook_memo_len H) := by
      rw [hook_route_invoke H hi, if_pos ⟨hc, hl⟩, if_neg]
      rintro ⟨h1, h2⟩
      rcases ht with h | h
      · omega
      · exact h h2
    exact ⟨hroute, by rw [hook_eq_run_route, hroute]; rfl⟩

set_option maxRecDepth 8192 in
/-- C22 (witness): scenario 3 of the specification sent as an Invoke whose payload has
no `type` field, and scenario 2 sent as an Invoke without a memo. -/
theorem invoke_runs_default_handler_witness :
    hook (trigger_host scenario3_host ttINVOKE none) (payment_memo ALICE 0 NONCE_1)
        (ledger_with ALICE 50)
      = handle_allowance_payment (trigger_host scenario3_host ttINVOKE none)
          (hook_memo_data (trigger_host scenario3_host ttINVOKE none))
          (hook_memo_len (trigger_host scenario3_host ttINVOKE none)) (ledger_with ALICE 50)
    ∧ hook invoke_no_memo_host (payment_memo ALICE 40 NONCE_1) (ledger_with ALICE 100)
      = handle_payment invoke_no_memo_host (payment_memo ALICE 40 NONCE_1) (ledger_with ALICE 100) :=
  ⟨((invoke_runs_default_handler (trigger_host scenario3_host ttINVOKE none)
        (payment_memo ALICE 0 NONCE_1) (ledger_with ALICE 50) (by decide)).2
      (by decide) (by decide) (Or.inl (by decide))).2,
    ((invoke_runs_default_handler invoke_no_memo_host (payment_memo ALICE 40 NONCE_1)
        (ledger_with ALICE 100) (by decide)).1 (Or.inl (by decide))).2⟩

set_option maxRecDepth 8192 in
/-- C22 (counterexample): three Invoke-type triggers sent by the operator that are not
rejected.  (1) The payload of scenario 3 without a `type` field: the allowance
payment of 30 commits and the balance of `ALICE` goes from 50 to 20.  (2) The same
payload with the type `refund`: the same.  (3) No memo at all: the Direct Payment of
40 commits and the balance of `ALICE` goes from 100 to 60. -/
theorem invoke_default_route_counterexample :
    ((trigger_host scenario3_host ttINVOKE none).otxn_type = ttINVOKE
      ∧ hook_type_len (trigger_host scenario3_host ttINVOKE none) ≤ 0
      ∧ (hook (trigger_host scenario3_host ttINVOKE none) (payment_memo ALICE 0 NONCE_1)
          (ledger_with ALICE 50)).1 = Exit.accept 0
      ∧ read_balance (hook (trigger_host scenario3_host ttINVOKE none)
          (payment_memo ALICE 0 NONCE_1) (ledger_with ALICE 50)).2 ALICE = 20)
    ∧ ((trigger_host scenario3_host ttINVOKE (some (ascii "refund"))).otxn_type = ttINVOKE
      ∧ hook_type_text (trigger_host scenario3_host ttINVOKE (some (ascii "refund")))
          = ascii "refund"
      ∧ (hook (trigger_host scenario3_host ttINVOKE (some (ascii "refund")))
          (payment_memo ALICE 0 NONCE_1) (ledger_with ALICE 50)).1 = Exit.accept 0
      ∧ read_balance (hook (trigger_host scenario3_host ttINVOKE (some (ascii "refund")))
          (payment_memo ALICE 0 NONCE_1) (ledger_with ALICE 50)).2 ALICE = 20)
    ∧ (invoke_no_memo_host.otxn_type = ttINVOKE
      ∧ invoke_no_memo_host.otxn_memo_count = 0
      ∧ (hook invoke_no_memo_host (payment_memo ALICE 40 NONCE_1) (ledger_with ALICE 100)).1
          = Exit.accept 0
      ∧ read_balance (hook invoke_no_memo_host (payment_memo ALICE 40 NONCE_1)
          (ledger_with ALICE 100)).2 ALICE = 60) := by
  refine ⟨⟨by decide, by decide, by decide, by decide⟩, ⟨by decide, by decide, by decide, by decide⟩,
    ⟨by decide, by decide, by decide, by decide⟩⟩


/-! ## The checks of `hook` of `payment.c` on an Invoke -/

theorem payment_c_operator_check_iff (H : Host) :
    PaymentC.memcmp (fit 20 (H.otxn_field 20 SField.sfAccount).2) PaymentC.defined_operator_accid 20
        = 0
      ↔ PaymentC.hook_source H = PaymentC.defined_operator_accid := by
  have hop : PaymentC.defined_operator_accid.length = 20 := by decide
  rw [memcmp_eq_zero_iff 20 _ _ (by rw [fit_length]) (by rw [hop]),
    List.take_of_length_le (by rw [fit_length]), List.take_of_length_le (by rw [hop])]
  rfl

theorem payment_c_type_check_iff (buf : Bytes) (len : Int) (hbuf : buf.length = 32) :
    (len = 17 ∧ PaymentC.memcmp buf (PaymentC.c_string "allowance_payment") 17 = 0)
      ↔ COPY buf len = ascii "allowance_payment" := by
  have hlen : (ascii "allowance_payment").length = 17 := by decide
  have hlit : (PaymentC.c_string "allowance_payment").take 17 = ascii "allowance_payment" := by
    decide
  have hc : (PaymentC.c_string "allowance_payment").length = 18 := by decide
  rw [memcmp_eq_zero_iff 17 _ _ (by rw [hbuf]; decide) (by rw [hc]; decide), hlit,
    COPY_eq_text_iff buf len _ (by rw [hlen, hbuf]; decide) (by rw [hlen]; decide), hlen]
  simp

/-- C23: for every Invoke-type trigger, hook of payment.c decides by five checks taken
in order: the source account is not the configured operator (reject 100, which
depends on the transaction type and the source account alone, so on nothing read
from the memo); the memo is missing (101); the memo data is missing (102); `type`
is missing (103); `type` is not the 17-byte text `allowance_payment` (104).  It
rejects with the code of the first check that fails and leaves the ledger as it
was; when none fails it runs handle_allowance_payment on the memo data; and it runs
that handler exactly when the source is the operator, memo, memo data and `type`
are present and `type` equals `allowance_payment`. -/
theorem payment_c_invoke_checks_in_order (H : Host) (st : Ledger) (hi : H.otxn_type = ttINVOKE) :
    PaymentC.hook_route H
      = (match first_failure (PaymentC.hook_checks H) with
        | some code => PaymentC.Route.stop (Exit.rollback code)
        | none => PaymentC.Route.allowance_payment (PaymentC.hook_data_ptr H) (PaymentC.hook_data_len H))
    ∧ PaymentC.hook H st
      = (match first_failure (PaymentC.hook_checks H) with
        | some code => (Exit.rollback code, st)
        | none => PaymentC.handle_allowance_payment H (PaymentC.hook_data_ptr H)
            (PaymentC.hook_data_len H) st)
    ∧ (PaymentC.hook_source H ≠ PaymentC.defined_operator_accid →
        PaymentC.hook H st = (Exit.rollback 100, st))
    ∧ ((∃ d n, PaymentC.hook_route H = PaymentC.Route.allowance_payment d n)
        ↔ PaymentC.hook_source H = PaymentC.defined_operator_accid
          ∧ 0 < PaymentC.hook_memo_len H ∧ 0 < PaymentC.hook_data_len H
          ∧ 0 < PaymentC.hook_type_len H
          ∧ PaymentC.hook_type_text H = ascii "allowance_payment") := by
  have hne : ttINVOKE ≠ ttPAYMENT := by decide
  have h5 := payment_c_type_check_iff
    (fit 32 (H.sto_from_json 32 (PaymentC.hook_data_ptr H) (PaymentC.hook_data_len H) "type").2)
    (PaymentC.hook_type_len H) (fit_length 32 _)
  have hform : PaymentC.hook_route H
      = if H.otxn_type = ttPAYMENT then PaymentC.Route.charge
        else if H.otxn_type = ttINVOKE then
          if PaymentC.memcmp (PaymentC.hook_source H) PaymentC.defined_operator_accid 20 ≠ 0 then
            PaymentC.Route.stop (Exit.rollback ERROR_INVALID_TRANSACTION) else
          if PaymentC.hook_memo_len H ≤ 0 then
            PaymentC.Route.stop (Exit.rollback ERROR_INVALID_MEMO) else
          if PaymentC.hook_data_len H ≤ 0 then
            PaymentC.Route.stop (Exit.rollback ERROR_INVALID_JSON) else
          if PaymentC.hook_type_len H ≤ 0 then
            PaymentC.Route.stop (Exit.rollback ERROR_MISSING_FIELD) else
          if PaymentC.hook_type_len H = 17
              ∧ PaymentC.memcmp
                  (fit 32 (H.sto_from_json 32 (PaymentC.hook_data_ptr H)
                    (PaymentC.hook_data_len H) "type").2)
                  (PaymentC.c_string "allowance_payment") 17 = 0 then
            PaymentC.Route.allowance_payment (PaymentC.hook_data_ptr H) (PaymentC.hook_data_len H)
          else PaymentC.Route.stop (Exit.rollback ERROR_UNKNOWN_PAYMENT_TYPE)
        else PaymentC.Route.stop (Exit.accept SUCCESS) := rfl
  have hop : PaymentC.memcmp (PaymentC.hook_source H) PaymentC.defined_operator_accid 20 = 0
      ↔ PaymentC.hook_source H = PaymentC.defined_operator_accid := payment_c_operator_check_iff H
  have key : PaymentC.hook_route H
      = (match first_failure (PaymentC.hook_checks H) with
        | some code => PaymentC.Route.stop (Exit.rollback code)
        | none => PaymentC.Route.allowance_payment (PaymentC.hook_data_ptr H)
            (PaymentC.hook_data_len H)) := by
    rw [hform, if_neg (by rw [hi]; exact hne), if_pos hi]
    simp only [PaymentC.hook_checks, first_failure]
    by_cases c1 : PaymentC.hook_source H = PaymentC.defined_operator_accid
    · rw [if_neg (not_not.2 (hop.2 c1))]
      by_cases c2 : PaymentC.hook_memo_len H ≤ 0
      · rw [if_pos c2]
        simp [c1, c2, ERROR_INVALID_MEMO]
      · rw [if_neg c2]
        by_cases c3 : PaymentC.hook_data_len H ≤ 0
        · rw [if_pos c3]
          simp [c1, c2, c3, ERROR_INVALID_JSON]
        · rw [if_neg c3]
          by_cases c4 : PaymentC.hook_type_len H ≤ 0
          · rw [if_pos c4]
            simp [c1, c2, c3, c4, ERROR_MISSING_FIELD]
          · rw [if_neg c4]
            by_cases c5 : PaymentC.hook_type_text H = ascii "allowance_payment"
            · rw [if_pos (h5.2 c5)]
              simp [c1, c2, c3, c4, c5]
            · rw [if_neg (fun h => c5 (h5.1 h))]
              simp [c1, c2, c3, c4, c5, ERROR_UNKNOWN_PAYMENT_TYPE]
    · rw [if_pos (fun h => c1 (hop.1 h))]
      simp [c1, ERROR_INVALID_TRANSACTION]
  have hrun : PaymentC.hook H st
      = (match first_failure (PaymentC.hook_checks H) with
        | some code => (Exit.rollback code, st)
        | none => PaymentC.handle_allowance_payment H (PaymentC.hook_data_ptr H)
            (PaymentC.hook_data_len H) st) := by
    rw [payment_c_hook_eq_run_route, key]
    cases first_failure (PaymentC.hook_checks H) with
    | none => rfl
    | some code => rfl
  refine ⟨key, hrun, ?_, ?_⟩
  · intro hs
    rw [hrun]
    simp [PaymentC.hook_checks, first_failure, hs]
  · rw [key]
    simp only [PaymentC.hook_checks, first_failure]
    by_cases c1 : PaymentC.hook_source H = PaymentC.defined_operator_accid
    · by_cases c2 : PaymentC.hook_memo_len H ≤ 0
      · simp [c1, c2]
      · by_cases c3 : PaymentC.hook_data_len H ≤ 0
        · simp [c1, c2, c3]
        · by_cases c4 : PaymentC.hook_type_len H ≤ 0
          · simp [c1, c2, c3, c4]
          · by_cases c5 : PaymentC.hook_type_text H = ascii "allowance_payment"
            · simp [c1, c2, c3, c4, c5]
              omega
            · simp [c1, c2, c3, c4, c5]
    · simp [c1]

/-- C23 (witness): an Invoke sent by the configured operator whose payload has the type
`allowance_payment` runs handle_allowance_payment; the same Invoke sent by `ALICE`
is rejected with the code 100; the Invoke of the operator with the type
`allowance_paymenX` is rejected with the code 104. -/
theorem payment_c_invoke_checks_in_order_witness :
    (payment_c_invoke_host PaymentC.defined_operator_accid
        (some (ascii "allowance_payment"))).otxn_type = ttINVOKE
    ∧ (∃ d n, PaymentC.hook_route (payment_c_invoke_host PaymentC.defined_operator_accid
        (some (ascii "allowance_payment"))) = PaymentC.Route.allowance_payment d n)
    ∧ PaymentC.hook (payment_c_invoke_host ALICE (some (ascii "allowance_payment"))) empty_ledger
        = (Exit.rollback 100, empty_ledger)
    ∧ PaymentC.hook (payment_c_invoke_host PaymentC.defined_operator_accid
        (some (ascii "allowance_paymenX"))) empty_ledger = (Exit.rollback 104, empty_ledger) :=
  ⟨by decide,
    (payment_c_invoke_checks_in_order (payment_c_invoke_host PaymentC.defined_operator_accid
        (some (ascii "allowance_payment"))) empty_ledger (by decide)).2.2.2.2
      ⟨by decide, by decide, by decide, by decide, by decide⟩,
    (payment_c_invoke_checks_in_order (payment_c_invoke_host ALICE
        (some (ascii "allowance_payment"))) empty_ledger (by decide)).2.2.1 (by decide),
    (payment_c_invoke_checks_in_order (payment_c_invoke_host PaymentC.defined_operator_accid
        (some (ascii "allowance_paymenX"))) empty_ledger (by decide)).2.1.trans rfl⟩


/-! ## Triggers of another kind -/

/-- C24: for every trigger whose type is neither Payment nor Invoke, hook of
xapay_hock.c and hook of payment.c end with an accept (code 0) and return the
ledger as it was; hook of Hocks/payment.c does the same for every trigger whose
type is not Payment. -/
theorem other_kinds_pass_through (H : Host) (m : PaymentMemo) (st : Ledger) :
    (H.otxn_type ≠ ttPAYMENT → H.otxn_type ≠ ttINVOKE →
        hook H m st = (Exit.accept 0, st) ∧ PaymentC.hook H st = (Exit.accept 0, st))
    ∧ (H.otxn_type ≠ ttPAYMENT → Hocks.hook H m st = (Exit.accept 0, st)) := by
  refine ⟨fun hp hi => ⟨?_, ?_⟩, fun hp => ?_⟩
  · simp only [hook]
    rw [if_neg hp, if_neg hi]
  · simp only [PaymentC.hook]
    rw [if_neg hp, if_neg hi]
    rfl
  · simp only [Hocks.hook]
    rw [if_pos hp]

/-- C24 (witness): a trigger of the type 1 on a ledger that holds a balance, for the
three entry points; and an Invoke for the entry point of Hocks/payment.c. -/
theorem other_kinds_pass_through_witness :
    (hook other_kind_host (payment_memo ALICE 40 NONCE_1) (ledger_with ALICE 100)
        = (Exit.accept 0, ledger_with ALICE 100)
      ∧ PaymentC.hook other_kind_host (ledger_with ALICE 100)
        = (Exit.accept 0, ledger_with ALICE 100))
    ∧ Hocks.hook other_kind_host (payment_memo ALICE 40 NONCE_1) (ledger_with ALICE 100)
        = (Exit.accept 0, ledger_with ALICE 100)
    ∧ Hocks.hook invoke_no_memo_host (payment_memo ALICE 40 NONCE_1) (ledger_with ALICE 100)
        = (Exit.accept 0, ledger_with ALICE 100) :=
  ⟨(other_kinds_pass_through other_kind_host (payment_memo ALICE 40 NONCE_1)
      (ledger_with ALICE 100)).1 (by decide) (by decide),
    (other_kinds_pass_through other_kind_host (payment_memo ALICE 40 NONCE_1)
      (ledger_with ALICE 100)).2 (by decide),
    (other_kinds_pass_through invoke_no_memo_host (payment_memo ALICE 40 NONCE_1)
      (ledger_with ALICE 100)).2 (by decide)⟩


/-! ## The spent amount never decreases; a payment never credits -/

theorem read_spent_range (st : Ledger) (k : Bytes) :
    INT64_MIN ≤ read_spent st k ∧ read_spent st k ≤ INT64_MAX := by
  simp only [read_spent]
  by_cases h : (state st (fit 8 []) k).1 = 8
  · rw [if_pos h]
    exact wrap64_range _
  · rw [if_neg h]
    constructor <;> decide

/-- C25 (amended): for every committed handle_allowance_payment invocation of
xapay_hock.c whose payment amount p is not negative and for which spent + p is at
most 2^63 - 1, where spent is the amount read under the allowance key before: the
spent amount stored under that key afterwards is spent + p, so at least the spent
amount stored before. -/
theorem spent_never_decreases (H : Host) (d : Bytes) (n : Int) (st : Ledger) (c : Int)
    (st' : Ledger) (h : handle_allowance_payment H d n st = (Exit.accept c, st'))
    (hp : 0 ≤ (allowance_locals H d n).payment_amount_xfl)
    (hsum : read_spent st (allowance_locals H d n).state_key
      + (allowance_locals H d n).payment_amount_xfl ≤ INT64_MAX) :
    read_spent st (allowance_locals H d n).state_key
      ≤ read_spent st' (allowance_locals H d n).state_key
    ∧ read_spent st' (allowance_locals H d n).state_key
      = read_spent st (allowance_locals H d n).state_key
        + (allowance_locals H d n).payment_amount_xfl := by
  have hlow : INT64_MIN ≤ read_spent st (allowance_locals H d n).state_key
      + (allowance_locals H d n).payment_amount_xfl := by
    have := (read_spent_range st (allowance_locals H d n).state_key).1
    omega
  have heq : read_spent st' (allowance_locals H d n).state_key
      = read_spent st (allowance_locals H d n).state_key
        + (allowance_locals H d n).payment_amount_xfl := by
    rw [committed_spent H d n st c st' h]
    exact float_sum_exact H _ _ hlow hsum
  exact ⟨by rw [heq]; omega, heq⟩

set_option maxRecDepth 8192 in
/-- C25 (witness): scenario 3 of the specification: cap 50, balance 50, no record yet;
the payment of 30 commits and the spent amount goes from 0 to 30. -/
theorem spent_never_decreases_witness :
    (handle_allowance_payment scenario3_host [] 0 (ledger_with ALICE 50)).1 = Exit.accept 0
    ∧ read_spent (ledger_with ALICE 50) (allowance_locals scenario3_host [] 0).state_key
      ≤ read_spent (handle_allowance_payment scenario3_host [] 0 (ledger_with ALICE 50)).2
          (allowance_locals scenario3_host [] 0).state_key
    ∧ read_spent (handle_allowance_payment scenario3_host [] 0 (ledger_with ALICE 50)).2
          (allowance_locals scenario3_host [] 0).state_key = 30 :=
  have hw := spent_never_decreases scenario3_host [] 0 (ledger_with ALICE 50) 0 _
    (Prod.ext (by decide) rfl) (by decide) (by decide)
  ⟨by decide, hw.1, hw.2.trans (by decide)⟩

set_option maxRecDepth 8192 in
/-- C25 (counterexample): two committed allowance payments after which the stored spent
amount is smaller than before.  (1) After scenario 3 (spent 30, balance 20, cap 50)
a payment with the amount literal `-5` under the same authorization commits, and
the spent amount goes from 30 to 25.  (2) The spent amount is 2^63 - 1, the cap is
2^63 - 1 and the payment is 1: the payment commits and the spent amount afterwards
is the overflow value of the host, -30. -/
theorem spent_decreases_counterexample :
    ((handle_allowance_payment (allowance_host ALICE_RADDR ALICE [0x2D, 0x35] [0x35, 0x30] SIG_S) [] 0
          (handle_allowance_payment scenario3_host [] 0 (ledger_with ALICE 50)).2).1 = Exit.accept 0
      ∧ (allowance_locals (allowance_host ALICE_RADDR ALICE [0x2D, 0x35] [0x35, 0x30] SIG_S)
          [] 0).payment_amount_xfl = -5
      ∧ read_spent (handle_allowance_payment scenario3_host [] 0 (ledger_with ALICE 50)).2
          (allowance_locals (allowance_host ALICE_RADDR ALICE [0x2D, 0x35] [0x35, 0x30] SIG_S)
            [] 0).state_key = 30
      ∧ read_spent
          (handle_allowance_payment (allowance_host ALICE_RADDR ALICE [0x2D, 0x35] [0x35, 0x30] SIG_S)
            [] 0 (handle_allowance_payment scenario3_host [] 0 (ledger_with ALICE 50)).2).2
          (allowance_locals (allowance_host ALICE_RADDR ALICE [0x2D, 0x35] [0x35, 0x30] SIG_S)
            [] 0).state_key = 25)
    ∧ ((handle_allowance_payment (allowance_host ALICE_RADDR ALICE [0x31] LITERAL_INT64_MAX SIG_S)
          [] 0 spent_out_ledger).1 = Exit.accept 0
      ∧ read_spent spent_out_ledger
          (allowance_locals (allowance_host ALICE_RADDR ALICE [0x31] LITERAL_INT64_MAX SIG_S)
            [] 0).state_key = 9223372036854775807
      ∧ read_spent
          (handle_allowance_payment (allowance_host ALICE_RADDR ALICE [0x31] LITERAL_INT64_MAX SIG_S)
            [] 0 spent_out_ledger).2
          (allowance_locals (allowance_host ALICE_RADDR ALICE [0x31] LITERAL_INT64_MAX SIG_S)
            [] 0).state_key = -30) := by
  refine ⟨⟨by decide, by decide, by decide, by decide⟩, ⟨by decide, by decide, by decide⟩⟩


/-- The balance that a committed Direct Payment of a non-negative amount stores. -/
theorem payment_debit_stored (H : Host) (m : PaymentMemo) (st : Ledger) (c : Int) (st' : Ledger)
    (h : handle_payment H m st = (Exit.accept c, st'))
    (hp : 0 ≤ (payment_locals H m).amount) :
    read_balance st' (payment_locals H m).user_accid
      = read_balance st (payment_locals H m).user_accid - (payment_locals H m).amount := by
  obtain ⟨-, hle, -, hst⟩ := handle_payment_accept H m st c st' h
  have hmax := (read_balance_range st (payment_locals H m).user_accid).2
  have hfit : read_balance st (payment_locals H m).user_accid - (payment_locals H m).amount
      ≤ INT64_MAX := by omega
  have hlow : INT64_MIN ≤ read_balance st (payment_locals H m).user_accid
      - (payment_locals H m).amount := by
    unfold INT64_MIN
    omega
  rw [hst, read_balance_set_other _ _ _ _ (balance_key_ne_nonce_key _ _), read_balance_set,
    wrap64_idem]
  exact wrap64_of_range _ hlow hfit

/-- The balance that a committed allowance payment of a non-negative amount stores,
when the allowance key is not the balance key of the payer. -/
theorem allowance_debit_stored (H : Host) (d : Bytes) (n : Int) (st : Ledger) (c : Int)
    (st' : Ledger) (h : handle_allowance_payment H d n st = (Exit.accept c, st'))
    (hp : 0 ≤ (allowance_locals H d n).payment_amount_xfl)
    (hk : (allowance_locals H d n).state_key ≠ balance_key (allowance_locals H d n).user_accid) :
    read_balance st' (allowance_locals H d n).user_accid
      = read_balance st (allowance_locals H d n).user_accid
        - (allowance_locals H d n).payment_amount_xfl := by
  obtain ⟨-, hle, -, hst⟩ := handle_allowance_payment_accept H d n st c st' h
  have hmax := (read_balance_range st (allowance_locals H d n).user_accid).2
  have hfit : read_balance st (allowance_locals H d n).user_accid
      - (allowance_locals H d n).payment_amount_xfl ≤ INT64_MAX := by omega
  have hlow : INT64_MIN ≤ read_balance st (allowance_locals H d n).user_accid
      - (allowance_locals H d n).payment_amount_xfl := by
    unfold INT64_MIN
    omega
  rw [hst, read_balance_set_other _ _ _ _ (fun e => hk e.symm), read_balance_set, wrap64_idem]
  exact wrap64_of_range _ hlow hfit

/-- C26 (amended): a payment of a non-negative amount never credits the payer.  For every
committed invocation of handle_payment of xapay_hock.c whose amount is not negative,
the stored balance of the payer afterwards is the balance before minus the amount,
so at most the balance before.  The same holds for every committed invocation of
handle_allowance_payment whose payment amount is not negative and whose allowance
key is not the balance key of the payer. -/
theorem payment_never_credits (H : Host) (st : Ledger) (c : Int) (st' : Ledger) :
    (∀ m : PaymentMemo, handle_payment H m st = (Exit.accept c, st') →
        0 ≤ (payment_locals H m).amount →
        read_balance st' (payment_locals H m).user_accid
          ≤ read_balance st (payment_locals H m).user_accid)
    ∧ (∀ (d : Bytes) (n : Int), handle_allowance_payment H d n st = (Exit.accept c, st') →
        0 ≤ (allowance_locals H d n).payment_amount_xfl →
        (allowance_locals H d n).state_key ≠ balance_key (allowance_locals H d n).user_accid →
        read_balance st' (allowance_locals H d n).user_accid
          ≤ read_balance st (allowance_locals H d n).user_accid) := by
  refine ⟨fun m h hp => ?_, fun d n h hp hk => ?_⟩
  · rw [payment_debit_stored H m st c st' h hp]
    omega
  · rw [allowance_debit_stored H d n st c st' h hp hk]
    omega

set_option maxRecDepth 8192 in
/-- C26 (witness): scenario 2 of the specification, a Direct Payment of 40 from a balance
of 100, and scenario 3, an allowance payment of 30 from a balance of 50. -/
theorem payment_never_credits_witness :
    read_balance
        (handle_payment (operator_host 1) (payment_memo ALICE 40 NONCE_1) (ledger_with ALICE 100)).2
        (payment_locals (operator_host 1) (payment_memo ALICE 40 NONCE_1)).user_accid
      ≤ read_balance (ledger_with ALICE 100)
        (payment_locals (operator_host 1) (payment_memo ALICE 40 NONCE_1)).user_accid
    ∧ read_balance (handle_allowance_payment scenario3_host [] 0 (ledger_with ALICE 50)).2
        (allowance_locals scenario3_host [] 0).user_accid
      ≤ read_balance (ledger_with ALICE 50) (allowance_locals scenario3_host [] 0).user_accid :=
  ⟨(payment_never_credits (operator_host 1) (ledger_with ALICE 100) 0 _).1
      (payment_memo ALICE 40 NONCE_1) (Prod.ext (by decide) rfl) (by decide),
    (payment_never_credits scenario3_host (ledger_with ALICE 50) 0 _).2 [] 0
      (Prod.ext (by decide) rfl) (by decide) (by decide)⟩

set_option maxRecDepth 8192 in
/-- C26 (counterexample): three committed payments that credit the payer.  (1) A Direct
Payment of the amount -5 from a balance of 100: the balance afterwards is 105.
(2) An allowance payment with the amount literal `-5` under the cap 50 from a
balance of 100: the balance afterwards is 105.  (3) The payer is the account of
twenty bytes 0x55 with the one-character signature text `U`, holding 5, and the
payment is 2 under the cap 9: the allowance key is the balance key of the payer and
the balance afterwards is 7. -/
theorem payment_credits_counterexample :
    ((handle_payment (operator_host 1) (payment_memo ALICE (-5) NONCE_1) (ledger_with ALICE 100)).1
        = Exit.accept 0
      ∧ read_balance (ledger_with ALICE 100) ALICE = 100
      ∧ read_balance
          (handle_payment (operator_host 1) (payment_memo ALICE (-5) NONCE_1)
            (ledger_with ALICE 100)).2 ALICE = 105)
    ∧ ((handle_allowance_payment (allowance_host ALICE_RADDR ALICE [0x2D, 0x35] [0x35, 0x30] SIG_S)
          [] 0 (ledger_with ALICE 100)).1 = Exit.accept 0
      ∧ read_balance
          (handle_allowance_payment (allowance_host ALICE_RADDR ALICE [0x2D, 0x35] [0x35, 0x30] SIG_S)
            [] 0 (ledger_with ALICE 100)).2 ALICE = 105)
    ∧ ((handle_allowance_payment (allowance_host ALICE_RADDR ULYSSES [0x32] [0x39] [0x55]) [] 0
          (ledger_with ULYSSES 5)).1 = Exit.accept 0
      ∧ (allowance_locals (allowance_host ALICE_RADDR ULYSSES [0x32] [0x39] [0x55]) [] 0).payment_amount_xfl
          = 2
      ∧ read_balance (ledger_with ULYSSES 5) ULYSSES = 5
      ∧ read_balance
          (handle_allowance_payment (allowance_host ALICE_RADDR ULYSSES [0x32] [0x39] [0x55]) [] 0
            (ledger_with ULYSSES 5)).2 ULYSSES = 7) := by
  refine ⟨⟨by decide, by decide, by decide⟩, ⟨by decide, by decide⟩,
    ⟨by decide, by decide, by decide, by decide⟩⟩


/-! ## The type that selects the recharge handler -/

/-- C27 (the code at the failing input): an Invoke sent by the operator with a non-empty
memo whose payload has the 16-character type `update_allowancX`, and one whose type
is the 15-character text `update_allowanc`.  Neither type is the text
`update_allowance`, and hook of xapay_hock.c routes both triggers to
handle_recharge_and_update_allowance: the comparison covers the first 15 bytes only. -/
theorem update_allowance_prefix_routes_to_recharge :
    ((trigger_host (operator_host 1) ttINVOKE (some (ascii "update_allowancX"))).otxn_type = ttINVOKE
      ∧ 0 < (trigger_host (operator_host 1) ttINVOKE (some (ascii "update_allowancX"))).otxn_memo_count
      ∧ 0 < hook_memo_len (trigger_host (operator_host 1) ttINVOKE (some (ascii "update_allowancX")))
      ∧ hook_type_text (trigger_host (operator_host 1) ttINVOKE (some (ascii "update_allowancX")))
          = ascii "update_allowancX"
      ∧ ascii "update_allowancX" ≠ ascii "update_allowance"
      ∧ hook_route (trigger_host (operator_host 1) ttINVOKE (some (ascii "update_allowancX")))
          = Route.recharge)
    ∧ (hook_type_text (trigger_host (operator_host 1) ttINVOKE (some (ascii "update_allowanc")))
          = ascii "update_allowanc"
      ∧ ascii "update_allowanc" ≠ ascii "update_allowance"
      ∧ hook_route (trigger_host (operator_host 1) ttINVOKE (some (ascii "update_allowanc")))
          = Route.recharge) := by
  refine ⟨⟨by decide, by decide, by decide, by decide, by decide, by decide⟩,
    ⟨by decide, by decide, by decide⟩⟩

/-! ## The signature check of a Direct Payment and the amount -/

/-- C28: in handle_payment (of xapay_hock.c and of Hocks/payment.c) checks 1 to 4 do not
depend on the amount.  For every two Direct Payment memos that agree on payer, nonce
and signature, on the same host and ledger: the four checks (operator, credential,
signature over the nonce, nonce marker) give the same results; the handler rejects
one with a code other than 34 exactly when it rejects the other with that code;
and when the handler commits for one of them, it commits for the other as soon as
the amount of the other does not exceed the balance of the payer. -/
theorem signature_check_ignores_amount (H : Host) (m1 m2 : PaymentMemo) (st : Ledger)
    (hp : m1.user_accid = m2.user_accid) (hn : m1.nonce = m2.nonce)
    (hs : m1.signature = m2.signature) :
    (payment_checks H m1 st).take 4 = (payment_checks H m2 st).take 4
    ∧ (∀ code : Int, code ≠ 34 →
        ((handle_payment H m1 st).1 = Exit.rollback code
          ↔ (handle_payment H m2 st).1 = Exit.rollback code))
    ∧ ((∃ c, (handle_payment H m1 st).1 = Exit.accept c) →
        (payment_locals H m2).amount ≤ read_balance st (payment_locals H m2).user_accid →
        (handle_payment H m2 st).1 = Exit.accept 0)
    ∧ (∀ code : Int, code ≠ 34 →
        ((Hocks.handle_payment H m1 st).1 = Exit.rollback code
          ↔ (Hocks.handle_payment H m2 st).1 = Exit.rollback code))
    ∧ ((∃ c, (Hocks.handle_payment H m1 st).1 = Exit.accept c) →
        (payment_locals H m2).amount ≤ read_balance st (payment_locals H m2).user_accid →
        (Hocks.handle_payment H m2 st).1 = Exit.accept 0) := by
  have e1 : (payment_locals H m1).source_accid = (payment_locals H m2).source_accid := rfl
  have e2 : (payment_locals H m1).pubkey_len = (payment_locals H m2).pubkey_len := by
    simp only [payment_locals, hp]
  have e3 : (payment_locals H m1).verified = (payment_locals H m2).verified := by
    simp only [payment_locals, hp, hn, hs]
  have e4 : (payment_locals H m1).nonce = (payment_locals H m2).nonce := by
    simp only [payment_locals, hn]
  have e5 : (payment_locals H m1).user_accid = (payment_locals H m2).user_accid := by
    simp only [payment_locals, hp]
  have hsame : ∀ m : PaymentMemo, Hocks.handle_payment H m st = handle_payment H m st :=
    fun _ => rfl
  have hcode : ∀ code : Int, code ≠ 34 →
      ((handle_payment H m1 st).1 = Exit.rollback code
        ↔ (handle_payment H m2 st).1 = Exit.rollback code) := by
    intro code hc
    simp only [handle_payment, e1, e2, e3, e4, e5]
    by_cases c1 : BUFFER_EQUAL (payment_locals H m2).source_accid OPERATOR_ACCID 20 = true
    · by_cases c2 : (payment_locals H m2).pubkey_len < 0
      · simp [c1, c2]
      · by_cases c3 : (payment_locals H m2).verified = 1
        · by_cases c4 : (state_get st [] (nonce_key (payment_locals H m2).nonce)).1 ≥ 0
          · simp [c1, c2, c3, c4]
          · by_cases c5 : read_balance st (payment_locals H m2).user_accid
                < (payment_locals H m1).amount
            · by_cases c6 : read_balance st (payment_locals H m2).user_accid
                  < (payment_locals H m2).amount
              · simp [c1, c2, c3, c4, c5, c6]
              · simp [c1, c2, c3, c4, c5, c6, hc.symm, hc]
            · by_cases c6 : read_balance st (payment_locals H m2).user_accid
                  < (payment_locals H m2).amount
              · simp [c1, c2, c3, c4, c5, c6, hc.symm, hc]
              · simp [c1, c2, c3, c4, c5, c6]
        · simp [c1, c2, c3]
    · simp [c1]
  have hacc : (∃ c, (handle_payment H m1 st).1 = Exit.accept c) →
      (payment_locals H m2).amount ≤ read_balance st (payment_locals H m2).user_accid →
      (handle_payment H m2 st).1 = Exit.accept 0 := by
    rintro ⟨c, h⟩ hle
    revert h
    simp only [handle_payment, e1, e2, e3, e4, e5]
    by_cases c1 : BUFFER_EQUAL (payment_locals H m2).source_accid OPERATOR_ACCID 20 = true
    · by_cases c2 : (payment_locals H m2).pubkey_len < 0
      · simp [c1, c2]
      · by_cases c3 : (payment_locals H m2).verified = 1
        · by_cases c4 : (state_get st [] (nonce_key (payment_locals H m2).nonce)).1 ≥ 0
          · simp [c1, c2, c3, c4]
          · have c6 : ¬read_balance st (payment_locals H m2).user_accid
                < (payment_locals H m2).amount := by omega
            simp [c1, c2, c3, c4, c6]
        · simp [c1, c2, c3]
    · simp [c1]
  refine ⟨?_, hcode, hacc, ?_, ?_⟩
  · simp only [payment_checks, payment_locals, hp, hn, hs, List.take]
  · intro code hc
    rw [hsame, hsame]
    exact hcode code hc
  · rw [hsame, hsame]
    exact hacc

/-- C28 (witness): two Direct Payments by `ALICE` under the same nonce and signature, of
the amounts 40 and 70, on a ledger where `ALICE` holds 100: the first commits, and
so does the second. -/
theorem signature_check_ignores_amount_witness :
    (handle_payment (operator_host 1) (payment_memo ALICE 40 NONCE_1) (ledger_with ALICE 100)).1
      = Exit.accept 0
    ∧ (handle_payment (operator_host 1) (payment_memo ALICE 70 NONCE_1) (ledger_with ALICE 100)).1
      = Exit.accept 0 :=
  ⟨by decide,
    (signature_check_ignores_amount (operator_host 1) (payment_memo ALICE 40 NONCE_1)
      (payment_memo ALICE 70 NONCE_1) (ledger_with ALICE 100) rfl rfl rfl).2.2.1
      ⟨0, by decide⟩ (by decide)⟩

end XApay
